import Mathlib

/-!
# Job-application lifecycle of the job-board backend

A shallow embedding of `internal/api/job_application.go`,
`internal/api/notification.go` and the queries of
`internal/db/sqlc/job_application.sql.go`.

The relational store is a record of tables (lists of rows); every query is a
function on it.  A handler is a function from the server state and the bound
request to a response and the next server state.  The server state also holds
the gin router's registered CV routes, the messages published to the queue and
a trace of the store calls a handler made.
-/

namespace JobFinder

/-! ## Machine integers -/

/-- Go's conversion to `int32` and `int32` arithmetic: two's complement wrap-around. -/
def wrap32 (x : Int) : Int := (x + 2147483648) % 4294967296 - 2147483648

/-- The value is representable as an `int32`. -/
def inInt32 (x : Int) : Bool := decide (-2147483648 ≤ x) && decide (x ≤ 2147483647)

/-- The value is representable as an `int64` (Go's `int` on the deployment target). -/
def inInt64 (x : Int) : Bool :=
  decide (-9223372036854775808 ≤ x) && decide (x ≤ 9223372036854775807)

/-! ## Data model (`db` package) -/

/-- `db.ApplicationStatus` is a string type. -/
abbrev ApplicationStatus := String

def ApplicationStatusApplied : ApplicationStatus := "Applied"
def ApplicationStatusSeen : ApplicationStatus := "Seen"
def ApplicationStatusInterviewing : ApplicationStatus := "Interviewing"
def ApplicationStatusOffered : ApplicationStatus := "Offered"
def ApplicationStatusRejected : ApplicationStatus := "Rejected"

/-- Row of `users` (the columns the job-application queries read). -/
structure User where
  ID : Int
  Email : String
  FullName : String
  Location : String
  TelegramID : String
deriving DecidableEq, Repr

/-- Row of `employers`. -/
structure Employer where
  ID : Int
  CompanyID : Int
  Email : String
deriving DecidableEq, Repr

/-- Row of `companies`. -/
structure Company where
  ID : Int
  Name : String
deriving DecidableEq, Repr

/-- Row of `jobs`. -/
structure Job where
  ID : Int
  Title : String
  CompanyID : Int
deriving DecidableEq, Repr

/-- Row of `job_applications`; `Message` is a `sql.NullString` (`none` is SQL NULL),
`Cv` the bytes of the uploaded document, `AppliedAt` a timestamp. -/
structure JobApplication where
  ID : Int
  UserID : Int
  JobID : Int
  Message : Option String
  Cv : List Nat
  Status : ApplicationStatus
  AppliedAt : Int
  Notification : Bool
deriving DecidableEq, Repr

/-- The relational store.  `nextID` is the sequence behind `job_applications.id`,
`now` the clock behind the `applied_at` default and `defaultNotification` the
column default of `notification`. -/
structure DB where
  users : List User
  employers : List Employer
  companies : List Company
  jobs : List Job
  jobApplications : List JobApplication
  nextID : Int
  now : Int
  defaultNotification : Bool
deriving DecidableEq, Repr

/-- The calls a handler can make on its collaborators: the methods of `db.Store`
and the channel's `Publish`. -/
inductive StoreOp where
  | GetUserByEmail
  | GetEmployerByEmail
  | GetUserByID
  | GetCompanyIDOfJob
  | CreateJobApplicationTx
  | DeleteJobApplication
  | GetJobApplicationForEmployer
  | GetJobApplicationForUser
  | GetJobApplicationUserID
  | GetJobApplicationUserIDAndStatus
  | GetJobIDOfJobApplication
  | ListJobApplicationsForEmployer
  | ListJobApplicationsForUser
  | UpdateJobApplication
  | UpdateJobApplicationNote
  | UpdateJobApplicationStatus
  | Publish
deriving DecidableEq, Repr

/-- The store calls that write. -/
def StoreOp.isWrite : StoreOp → Bool
  | .CreateJobApplicationTx => true
  | .DeleteJobApplication => true
  | .UpdateJobApplication => true
  | .UpdateJobApplicationNote => true
  | .UpdateJobApplicationStatus => true
  | _ => false

/-- Errors of a store call: `sql.ErrNoRows`, a `*pq.Error` whose code name is
`unique_violation`, and any other failure. -/
inductive DBError where
  | ErrNoRows
  | uniqueViolation
  | other
deriving DecidableEq, Repr

deriving instance DecidableEq for Except

/-- The body of an `amqp.Publishing`: the JSON object `json.Marshal` produces for
`notificationMessage`, as its (key, value) pairs in field order. -/
abbrev JSONObject := List (String × String)

/-- A message handed to `Channel.Publish`. -/
structure Publishing where
  exchange : String
  routingKey : String
  ContentType : String
  Body : JSONObject
deriving DecidableEq, Repr

/-- The server: its store, its configuration, the CV routes registered on the gin
router (path and the bytes the route serves), the queue, and what was published.
`fails` tells which collaborator calls fail with an unexpected error; `log` is the
trace of the store calls made so far. -/
structure Server where
  store : DB
  ServerAddress : String
  routes : List (String × List Nat)
  queueName : String
  published : List Publishing
  fails : StoreOp → Bool
  log : List StoreOp

/-- Records a store call in the trace. -/
def Server.call (s : Server) (op : StoreOp) : Server :=
  { s with log := s.log ++ [op] }

/-- Replaces the store. -/
def Server.setStore (s : Server) (d : DB) : Server :=
  { s with store := d }

/-- The outcome of a call on a collaborator: an unexpected error when the environment
makes the call fail, what the call computes otherwise.  The handler records a store call
in the trace (`Server.call`) and, after a write that succeeded, installs the new store
(`Server.setStore`). -/
def Server.query {α : Type} (s : Server) (op : StoreOp) (r : Except DBError α) :
    Except DBError α :=
  if s.fails op then .error .other else r

/-- A store call that returns no row (`:exec`) never reports `sql.ErrNoRows`: it fails
only when the environment makes it fail. -/
abbrev Server.exec (s : Server) (op : StoreOp) : Except DBError Unit := s.query op (.ok ())

/-- A `:one` query: the first row, or `sql.ErrNoRows`. -/
def one {α : Type} : Option α → Except DBError α
  | some a => .ok a
  | none => .error .ErrNoRows

/-! ## Lookups of the collaborating tables -/

/-- Modelled from the spec: `GetUserByEmail` of `db.Store` is not among the sources;
it is the key-to-record fetch of the User store by the principal's email, reporting
`sql.ErrNoRows` when no user has it. -/
def DB.GetUserByEmail (d : DB) (email : String) : Except DBError User :=
  one (d.users.find? (fun u => u.Email == email))

/-- Modelled from the spec: `GetEmployerByEmail` of `db.Store` is not among the
sources; the key-to-record fetch of the Employer store by email. -/
def DB.GetEmployerByEmail (d : DB) (email : String) : Except DBError Employer :=
  one (d.employers.find? (fun e => e.Email == email))

/-- Modelled from the spec: `GetUserByID` of `db.Store` is not among the sources;
the key-to-record fetch of the User store by ID. -/
def DB.GetUserByID (d : DB) (id : Int) : Except DBError User :=
  one (d.users.find? (fun u => u.ID == id))

/-- Modelled from the spec: `GetCompanyIDOfJob` of `db.Store` is not among the
sources; the projection read of the ID of the company that owns the job. -/
def DB.GetCompanyIDOfJob (d : DB) (jobID : Int) : Except DBError Int :=
  one ((d.jobs.find? (fun j => j.ID == jobID)).map (fun j => j.CompanyID))

/-! ## Queries of `job_application.sql.go` -/

structure CreateJobApplicationParams where
  UserID : Int
  JobID : Int
  Message : Option String
  Cv : List Nat
deriving DecidableEq, Repr

/-- `INSERT INTO job_applications (user_id, job_id, message, cv) VALUES ... RETURNING *`.
The ID comes from the sequence; status, applied-at and notification take their column
defaults (a new application is `Applied`).
Modelled from the spec: the table declaration is not among the sources; its
unique constraint on (user, job) makes a duplicate insert fail with a unique violation. -/
def DB.CreateJobApplication (d : DB) (arg : CreateJobApplicationParams) :
    Except DBError (JobApplication × DB) :=
  if d.jobApplications.any (fun a => a.UserID == arg.UserID && a.JobID == arg.JobID) then
    .error .uniqueViolation
  else
    let i : JobApplication :=
      { ID := d.nextID, UserID := arg.UserID, JobID := arg.JobID, Message := arg.Message,
        Cv := arg.Cv, Status := ApplicationStatusApplied, AppliedAt := d.now,
        Notification := d.defaultNotification }
    .ok (i, { d with jobApplications := d.jobApplications ++ [i], nextID := d.nextID + 1 })

/-- `DELETE FROM job_applications WHERE id = $1`. -/
def DB.DeleteJobApplication (d : DB) (id : Int) : DB :=
  { d with jobApplications := d.jobApplications.filter (fun a => !(a.ID == id)) }

structure GetJobApplicationForEmployerRow where
  ApplicationID : Int
  JobTitle : String
  JobID : Int
  ApplicationStatus : ApplicationStatus
  ApplicationDate : Int
  ApplicationMessage : Option String
  UserCv : List Nat
  UserID : Int
  UserEmail : String
  UserFullName : String
  UserLocation : String
  CompanyID : Int
deriving DecidableEq, Repr

/-- `SELECT ... FROM job_applications ja JOIN jobs j ON ja.job_id = j.id
JOIN companies c ON j.company_id = c.id JOIN users u ON ja.user_id = u.id WHERE ja.id = $1`. -/
def DB.GetJobApplicationForEmployer (d : DB) (id : Int) :
    Except DBError GetJobApplicationForEmployerRow :=
  one do
    let ja ← d.jobApplications.find? (fun a => a.ID == id)
    let j ← d.jobs.find? (fun j => ja.JobID == j.ID)
    let c ← d.companies.find? (fun c => j.CompanyID == c.ID)
    let u ← d.users.find? (fun u => ja.UserID == u.ID)
    pure
      { ApplicationID := ja.ID, JobTitle := j.Title, JobID := j.ID,
        ApplicationStatus := ja.Status, ApplicationDate := ja.AppliedAt,
        ApplicationMessage := ja.Message, UserCv := ja.Cv, UserID := ja.UserID,
        UserEmail := u.Email, UserFullName := u.FullName, UserLocation := u.Location,
        CompanyID := c.ID }

structure GetJobApplicationForUserRow where
  ApplicationID : Int
  JobID : Int
  JobTitle : String
  CompanyName : String
  ApplicationStatus : ApplicationStatus
  ApplicationDate : Int
  ApplicationMessage : Option String
  UserCv : List Nat
  UserID : Int
  Notification : Bool
deriving DecidableEq, Repr

/-- `SELECT ... FROM job_applications ja JOIN jobs j ON ja.job_id = j.id
JOIN companies c ON j.company_id = c.id WHERE ja.id = $1`. -/
def DB.GetJobApplicationForUser (d : DB) (id : Int) :
    Except DBError GetJobApplicationForUserRow :=
  one do
    let ja ← d.jobApplications.find? (fun a => a.ID == id)
    let j ← d.jobs.find? (fun j => ja.JobID == j.ID)
    let c ← d.companies.find? (fun c => j.CompanyID == c.ID)
    pure
      { ApplicationID := ja.ID, JobID := j.ID, JobTitle := j.Title, CompanyName := c.Name,
        ApplicationStatus := ja.Status, ApplicationDate := ja.AppliedAt,
        ApplicationMessage := ja.Message, UserCv := ja.Cv, UserID := ja.UserID,
        Notification := ja.Notification }

/-- `SELECT user_id FROM job_applications WHERE id = $1`. -/
def DB.GetJobApplicationUserID (d : DB) (id : Int) : Except DBError Int :=
  one ((d.jobApplications.find? (fun a => a.ID == id)).map (fun a => a.UserID))

structure GetJobApplicationUserIDAndStatusRow where
  UserID : Int
  Status : ApplicationStatus
deriving DecidableEq, Repr

/-- `SELECT user_id, status FROM job_applications WHERE id = $1`. -/
def DB.GetJobApplicationUserIDAndStatus (d : DB) (id : Int) :
    Except DBError GetJobApplicationUserIDAndStatusRow :=
  one ((d.jobApplications.find? (fun a => a.ID == id)).map
    (fun a => { UserID := a.UserID, Status := a.Status }))

/-- `SELECT job_id FROM job_applications WHERE id = $1`. -/
def DB.GetJobIDOfJobApplication (d : DB) (id : Int) : Except DBError Int :=
  one ((d.jobApplications.find? (fun a => a.ID == id)).map (fun a => a.JobID))

/-- The `ORDER BY` of both list queries on two applied-at values:
`CASE WHEN asc THEN applied_at END ASC, CASE WHEN desc THEN applied_at END DESC,
applied_at DESC`.  True when a row dated `a` may come before a row dated `b`. -/
def orderedBefore (asc desc : Bool) (a b : Int) : Bool :=
  if asc && !(a == b) then decide (a < b)
  else if desc && !(a == b) then decide (b < a)
  else decide (b ≤ a)

/-- `LIMIT $2 OFFSET $3`; a negative limit or offset is an error of the query. -/
def limitOffset {α : Type} (limit offset : Int) (rows : List α) : Except DBError (List α) :=
  if limit < 0 || offset < 0 then .error .other
  else .ok ((rows.drop offset.toNat).take limit.toNat)

structure ListJobApplicationsForEmployerParams where
  JobID : Int
  Limit : Int
  Offset : Int
  FilterStatus : Bool
  Status : ApplicationStatus
  AppliedAtAsc : Bool
  AppliedAtDesc : Bool
deriving DecidableEq, Repr

structure ListJobApplicationsForEmployerRow where
  ApplicationID : Int
  UserID : Int
  UserEmail : String
  UserFullName : String
  ApplicationStatus : ApplicationStatus
  ApplicationDate : Int
deriving DecidableEq, Repr

/-- `SELECT ... FROM job_applications ja JOIN users u ON u.id = ja.user_id
WHERE ja.job_id = $1 AND ($4 = TRUE AND ja.status = $5 OR $4 = FALSE)
ORDER BY ... LIMIT $2 OFFSET $3`. -/
def DB.ListJobApplicationsForEmployer (d : DB) (arg : ListJobApplicationsForEmployerParams) :
    Except DBError (List ListJobApplicationsForEmployerRow) :=
  let joined : List ListJobApplicationsForEmployerRow :=
    d.jobApplications.filterMap (fun ja =>
      (d.users.find? (fun u => u.ID == ja.UserID)).bind (fun u =>
        if ja.JobID == arg.JobID &&
            ((arg.FilterStatus == true && ja.Status == arg.Status) || arg.FilterStatus == false)
        then some
          { ApplicationID := ja.ID, UserID := ja.UserID, UserEmail := u.Email,
            UserFullName := u.FullName, ApplicationStatus := ja.Status,
            ApplicationDate := ja.AppliedAt }
        else none))
  limitOffset arg.Limit arg.Offset
    (joined.insertionSort (fun r₁ r₂ =>
      orderedBefore arg.AppliedAtAsc arg.AppliedAtDesc r₁.ApplicationDate r₂.ApplicationDate
        = true))

structure ListJobApplicationsForUserParams where
  UserID : Int
  Limit : Int
  Offset : Int
  FilterStatus : Bool
  Status : ApplicationStatus
  AppliedAtAsc : Bool
  AppliedAtDesc : Bool
deriving DecidableEq, Repr

structure ListJobApplicationsForUserRow where
  UserID : Int
  ApplicationID : Int
  Notification : Bool
  JobTitle : String
  JobID : Int
  CompanyName : String
  ApplicationStatus : ApplicationStatus
  ApplicationDate : Int
deriving DecidableEq, Repr

/-- `SELECT ... FROM job_applications ja JOIN jobs j ON ja.job_id = j.id
JOIN companies c ON j.company_id = c.id
WHERE ja.user_id = $1 AND ($4 = TRUE AND ja.status = $5 OR $4 = FALSE)
ORDER BY ... LIMIT $2 OFFSET $3`. -/
def DB.ListJobApplicationsForUser (d : DB) (arg : ListJobApplicationsForUserParams) :
    Except DBError (List ListJobApplicationsForUserRow) :=
  let joined : List ListJobApplicationsForUserRow :=
    d.jobApplications.filterMap (fun ja =>
      (d.jobs.find? (fun j => ja.JobID == j.ID)).bind (fun j =>
        (d.companies.find? (fun c => j.CompanyID == c.ID)).bind (fun c =>
          if ja.UserID == arg.UserID &&
              ((arg.FilterStatus == true && ja.Status == arg.Status) ||
                arg.FilterStatus == false)
          then some
            { UserID := ja.UserID, ApplicationID := ja.ID, Notification := ja.Notification,
              JobTitle := j.Title, JobID := j.ID, CompanyName := c.Name,
              ApplicationStatus := ja.Status, ApplicationDate := ja.AppliedAt }
          else none)))
  limitOffset arg.Limit arg.Offset
    (joined.insertionSort (fun r₁ r₂ =>
      orderedBefore arg.AppliedAtAsc arg.AppliedAtDesc r₁.ApplicationDate r₂.ApplicationDate
        = true))

/-- The parameters of `UpdateJobApplication`; `Message` is a `sql.NullString` (`none`
is not valid) and `Cv` a `[]byte` (`none` is the nil slice). -/
structure UpdateJobApplicationParams where
  ID : Int
  Message : Option String
  Cv : Option (List Nat)
deriving DecidableEq, Repr

/-- The row after `SET message = COALESCE($2, message), cv = COALESCE($3, cv)`.
A `sql.NullString` that is not valid is SQL NULL, so the stored message stays.  A
`[]byte` is never NULL for the driver: `database/sql` hands a nil slice on as a `[]byte`
and `lib/pq` sends NULL only for a nil interface, so a nil `Cv` (`none`) reaches the
statement as the empty `bytea` and `COALESCE($3, cv)` is `$3`. -/
def JobApplication.coalesce (a : JobApplication) (arg : UpdateJobApplicationParams) :
    JobApplication :=
  { a with Message := (arg.Message.orElse (fun _ => a.Message)), Cv := arg.Cv.getD [] }

/-- `UPDATE job_applications SET message = COALESCE($2, message), cv = COALESCE($3, cv)
WHERE id = $1 RETURNING *`; scanning the returned row fails with `sql.ErrNoRows`
when no row has the ID. -/
def DB.UpdateJobApplication (d : DB) (arg : UpdateJobApplicationParams) :
    Except DBError (JobApplication × DB) :=
  match d.jobApplications.find? (fun a => a.ID == arg.ID) with
  | none => .error .ErrNoRows
  | some a =>
    .ok (a.coalesce arg,
      { d with jobApplications :=
          d.jobApplications.map (fun a => if a.ID == arg.ID then a.coalesce arg else a) })

structure UpdateJobApplicationNoteParams where
  ID : Int
  Notification : Bool
deriving DecidableEq, Repr

/-- `UPDATE job_applications SET notification = $2 WHERE id = $1`. -/
def DB.UpdateJobApplicationNote (d : DB) (arg : UpdateJobApplicationNoteParams) : DB :=
  { d with jobApplications :=
      d.jobApplications.map (fun a =>
        if a.ID == arg.ID then { a with Notification := arg.Notification } else a) }

structure UpdateJobApplicationStatusParams where
  ID : Int
  Status : ApplicationStatus
deriving DecidableEq, Repr

/-- `UPDATE job_applications SET status = $2 WHERE id = $1`. -/
def DB.UpdateJobApplicationStatus (d : DB) (arg : UpdateJobApplicationStatusParams) : DB :=
  { d with jobApplications :=
      d.jobApplications.map (fun a =>
        if a.ID == arg.ID then { a with Status := arg.Status } else a) }

/-- `CreateJobApplicationTx` runs `CreateJobApplication` and then the `AfterCreate`
callback in one transaction, as its sibling `CreateUserTx` does; the handler's
callback always returns nil.
Modelled from the spec: the function itself is not among the sources. -/
def DB.CreateJobApplicationTx (d : DB) (arg : CreateJobApplicationParams) :
    Except DBError (JobApplication × DB) :=
  d.CreateJobApplication arg

/-! ## The API layer (`api` package) -/

abbrev StatusOK : Nat := 200
abbrev StatusCreated : Nat := 201
abbrev StatusNoContent : Nat := 204
abbrev StatusBadRequest : Nat := 400
abbrev StatusUnauthorized : Nat := 401
abbrev StatusForbidden : Nat := 403
abbrev StatusNotFound : Nat := 404
abbrev StatusConflict : Nat := 409
abbrev StatusInternalServerError : Nat := 500

/-- The errors a handler wraps in `errorResponse`; each stands for its message, with
the numbers formatted into it. -/
inductive APIError where
  | binding
  | onlyUsersAccessError
  | onlyEmployersAccessError
  | store (e : DBError)
  | jobApplicationDoesNotExistError (id : Int)
  | employerNotPartOfCompanyError (employerID : Int)
  | userNotOwnerOfApplicationError (userID : Int)
  | userNotApplicant (userID : Int)
  | validCVRequired
  | failedToReadCV
  | invalidJobID
  | alreadyApplied (userID : Int)
  | seenCannotBeUpdated (id : Int)
  | formFile
  | jobDoesNotExist (jobID : Int)
  | jobNotOfEmployer (jobID : Int) (companyID : Int)
deriving DecidableEq, Repr

structure jobApplicationResponse where
  ID : Int
  JobID : Int
  Message : String
  Status : ApplicationStatus
  AppliedAt : Int
deriving DecidableEq, Repr

def newJobApplicationResponse (jobApplication : JobApplication) : jobApplicationResponse :=
  { ID := jobApplication.ID, JobID := jobApplication.JobID,
    Message := jobApplication.Message.getD "", Status := jobApplication.Status,
    AppliedAt := jobApplication.AppliedAt }

structure getJobApplicationForUserResponse where
  ApplicationID : Int
  JobID : Int
  JobTitle : String
  CompanyName : String
  ApplicationStatus : ApplicationStatus
  ApplicationDate : Int
  ApplicationMessage : String
  CvLink : String
  UserID : Int
deriving DecidableEq, Repr

structure getJobApplicationForEmployerResponse where
  ApplicationID : Int
  JobTitle : String
  JobID : Int
  ApplicationStatus : ApplicationStatus
  ApplicationDate : Int
  ApplicationMessage : String
  UserID : Int
  UserEmail : String
  UserFullName : String
  UserLocation : String
  CvLink : String
deriving DecidableEq, Repr

structure changeJobApplicationStatusResponse where
  ApplicationID : Int
  Status : ApplicationStatus
  Message : String
deriving DecidableEq, Repr

structure notificationResponse where
  Message : String
deriving DecidableEq, Repr

/-- What `ctx.JSON` writes; `empty` is the body of a response written without one (a
recovered panic, or a status such as 204 that allows no body). -/
inductive Body where
  | error (e : APIError)
  | empty
  | jobApplication (r : jobApplicationResponse)
  | forUser (r : getJobApplicationForUserResponse)
  | forEmployer (r : getJobApplicationForEmployerResponse)
  | statusChanged (r : changeJobApplicationStatusResponse)
  | userList (rows : List ListJobApplicationsForUserRow)
  | employerList (rows : List ListJobApplicationsForEmployerRow)
  | notification (r : notificationResponse)
deriving DecidableEq, Repr

structure Response where
  code : Nat
  body : Body
deriving DecidableEq, Repr

/-- `errorResponse(err)` written with a status code. -/
def errorResponse (code : Nat) (e : APIError) : Response := ⟨code, .error e⟩

/-! ### Request binding -/

/-- The validator tag `oneof=...`: the value is one of the listed words. -/
def oneof (allowed : List String) (v : String) : Bool := allowed.contains v

/-- The validator tags `omitempty,oneof=...`. -/
def omitemptyOneof (allowed : List String) (v : String) : Bool := v == "" || oneof allowed v

/-- Binding an `int32` field tagged `required,min=lo` (and `max=hi`) from a raw
parameter; `none` as input is a parameter that is missing or not a number. -/
def bindInt32 (lo hi : Int) (raw : Option Int) : Option Int :=
  match raw with
  | none => none
  | some v => if inInt32 v && decide (v ≠ 0) && decide (lo ≤ v) && decide (v ≤ hi) then some v else none

/-- `ID int32` tagged `uri:"id" binding:"required,min=1"`. -/
def bindID (raw : Option Int) : Option Int := bindInt32 1 2147483647 raw

/-- The result of `ctx.Request.FormFile("cv")` followed by `io.ReadAll`. -/
inductive FormFile where
  | missing
  | unreadable
  | file (data : List Nat)
deriving DecidableEq, Repr

/-- Value of a string of decimal digits, most significant first; `none` when a
character is not a digit. -/
def parseDigits : List Char → Nat → Option Nat
  | [], acc => some acc
  | c :: cs, acc => if c.isDigit then parseDigits cs (acc * 10 + (c.toNat - 48)) else none

/-- Go's `strconv.Atoi`: an optional sign and at least one decimal digit, in the range
of `int`. -/
def Atoi (s : String) : Option Int :=
  let parse (neg : Bool) (ds : List Char) : Option Int :=
    match ds with
    | [] => none
    | _ => (parseDigits ds 0).bind (fun n =>
        let v : Int := if neg then -(n : Int) else (n : Int)
        if inInt64 v then some v else none)
  match s.toList with
  | '-' :: ds => parse true ds
  | '+' :: ds => parse false ds
  | ds => parse false ds

/-! ### The router -/

/-- `fmt.Sprintf("assets/cvs/%s", fmt.Sprintf("cv_%d.pdf", id))`. -/
def cvURL (id : Int) : String := "assets/cvs/" ++ ("cv_" ++ toString id ++ ".pdf")

/-- The path already has a handler on the router; `server.router.GET` then panics
(gin refuses to register a path twice). -/
def Server.registered (s : Server) (url : String) : Bool :=
  s.routes.any (fun r => r.1 == url)

/-- `server.router.GET(url, handler)` on a path without a handler: the route is
registered; it serves `data`. -/
def Server.GET (s : Server) (url : String) (data : List Nat) : Server :=
  { s with routes := s.routes ++ [(url, data)] }

/-- The response of gin's recovery middleware (the router is `gin.Default()`) when a
handler panics. -/
def recovered : Response := ⟨StatusInternalServerError, .empty⟩

/-- `fmt.Sprintf("%s/%s", server.config.ServerAddress, url)`. -/
def cvLink (s : Server) (url : String) : String := s.ServerAddress ++ "/" ++ url

/-! ### Handlers of `job_application.go` -/

/-- The multipart form of `createJobApplication`, with the authenticated email. -/
structure createJobApplicationRequest where
  Email : String
  cv : FormFile
  message : String
  job_id : String
deriving DecidableEq, Repr

/-- `createJobApplication` creates a new job application. -/
def createJobApplication (s : Server) (req : createJobApplicationRequest) :
    Response × Server :=
  match s.query .GetUserByEmail (s.store.GetUserByEmail req.Email) with
  | .error .ErrNoRows =>
    (errorResponse StatusUnauthorized .onlyUsersAccessError, s.call .GetUserByEmail)
  | .error e => (errorResponse StatusInternalServerError (.store e), s.call .GetUserByEmail)
  | .ok authUser =>
    let s := s.call .GetUserByEmail
    match req.cv with
    | .missing => (errorResponse StatusBadRequest .validCVRequired, s)
    | .unreadable => (errorResponse StatusInternalServerError .failedToReadCV, s)
    | .file cvData =>
      match Atoi req.job_id with
      | none => (errorResponse StatusBadRequest .invalidJobID, s)
      | some jobID =>
        if jobID ≤ 0 then (errorResponse StatusBadRequest .invalidJobID, s)
        else
          let params : CreateJobApplicationParams :=
            { UserID := authUser.ID, JobID := wrap32 jobID,
              Message := if req.message.length > 0 then some req.message else none,
              Cv := cvData }
          match s.query .CreateJobApplicationTx (s.store.CreateJobApplicationTx params) with
          | .error .uniqueViolation =>
            (errorResponse StatusForbidden (.alreadyApplied authUser.ID),
              s.call .CreateJobApplicationTx)
          | .error e =>
            (errorResponse StatusInternalServerError (.store e), s.call .CreateJobApplicationTx)
          | .ok (jobApplication, d) =>
            (⟨StatusCreated, .jobApplication (newJobApplicationResponse jobApplication)⟩,
              (s.call .CreateJobApplicationTx).setStore d)

/-- `getJobApplicationForUser` gets a job application for a user. -/
def getJobApplicationForUser (s : Server) (email : String) (rawID : Option Int) :
    Response × Server :=
  match bindID rawID with
  | none => (errorResponse StatusBadRequest .binding, s)
  | some id =>
    match s.query .GetUserByEmail (s.store.GetUserByEmail email) with
    | .error .ErrNoRows =>
      (errorResponse StatusUnauthorized .onlyUsersAccessError, s.call .GetUserByEmail)
    | .error e => (errorResponse StatusInternalServerError (.store e), s.call .GetUserByEmail)
    | .ok authUser =>
      let s := s.call .GetUserByEmail
      match s.query .GetJobApplicationForUser (s.store.GetJobApplicationForUser id) with
      | .error .ErrNoRows =>
        (errorResponse StatusNotFound (.jobApplicationDoesNotExistError id),
          s.call .GetJobApplicationForUser)
      | .error e =>
        (errorResponse StatusInternalServerError (.store e), s.call .GetJobApplicationForUser)
      | .ok jobApplication =>
        let s := s.call .GetJobApplicationForUser
        if authUser.ID ≠ jobApplication.UserID then
          (errorResponse StatusForbidden (.userNotApplicant authUser.ID), s)
        else
          let url := cvURL jobApplication.ApplicationID
          if s.registered url then (recovered, s)
          else
            let s := s.GET url jobApplication.UserCv
            let res : getJobApplicationForUserResponse :=
              { ApplicationID := jobApplication.ApplicationID, JobID := jobApplication.JobID,
                JobTitle := jobApplication.JobTitle, CompanyName := jobApplication.CompanyName,
                ApplicationStatus := jobApplication.ApplicationStatus,
                ApplicationDate := jobApplication.ApplicationDate,
                ApplicationMessage := "",
                CvLink := cvLink s url,
                UserID := 0 }
            let res :=
              match jobApplication.ApplicationMessage with
              | some m => { res with ApplicationMessage := m }
              | none => res
            (⟨StatusOK, .forUser res⟩, s)

/-- `getJobApplicationForEmployer` gets a job application for an employer; an
application that was `Applied` becomes `Seen`. -/
def getJobApplicationForEmployer (s : Server) (email : String) (rawID : Option Int) :
    Response × Server :=
  match bindID rawID with
  | none => (errorResponse StatusBadRequest .binding, s)
  | some id =>
    match s.query .GetEmployerByEmail (s.store.GetEmployerByEmail email) with
    | .error .ErrNoRows =>
      (errorResponse StatusUnauthorized .onlyEmployersAccessError, s.call .GetEmployerByEmail)
    | .error e =>
      (errorResponse StatusInternalServerError (.store e), s.call .GetEmployerByEmail)
    | .ok authEmployer =>
      let s := s.call .GetEmployerByEmail
      match s.query .GetJobApplicationForEmployer (s.store.GetJobApplicationForEmployer id) with
      | .error .ErrNoRows =>
        (errorResponse StatusNotFound (.jobApplicationDoesNotExistError id),
          s.call .GetJobApplicationForEmployer)
      | .error e =>
        (errorResponse StatusInternalServerError (.store e),
          s.call .GetJobApplicationForEmployer)
      | .ok jobApplication =>
        let s := s.call .GetJobApplicationForEmployer
        match s.query .GetCompanyIDOfJob (s.store.GetCompanyIDOfJob jobApplication.JobID) with
        | .error e =>
          (errorResponse StatusInternalServerError (.store e), s.call .GetCompanyIDOfJob)
        | .ok companyID =>
          let s := s.call .GetCompanyIDOfJob
          if companyID ≠ authEmployer.CompanyID then
            (errorResponse StatusForbidden (.employerNotPartOfCompanyError authEmployer.ID), s)
          else
            let res : getJobApplicationForEmployerResponse :=
              { ApplicationID := jobApplication.ApplicationID,
                JobTitle := jobApplication.JobTitle, JobID := jobApplication.JobID,
                ApplicationStatus := jobApplication.ApplicationStatus,
                ApplicationDate := jobApplication.ApplicationDate,
                ApplicationMessage := "",
                UserID := jobApplication.UserID, UserEmail := jobApplication.UserEmail,
                UserFullName := jobApplication.UserFullName,
                UserLocation := jobApplication.UserLocation, CvLink := "" }
            let res :=
              match jobApplication.ApplicationMessage with
              | some m => { res with ApplicationMessage := m }
              | none => res
            let finish (res : getJobApplicationForEmployerResponse) (s : Server) :
                Response × Server :=
              let url := cvURL jobApplication.ApplicationID
              if s.registered url then (recovered, s)
              else
                let s := s.GET url jobApplication.UserCv
                (⟨StatusOK, .forEmployer { res with CvLink := cvLink s url }⟩, s)
            if jobApplication.ApplicationStatus = ApplicationStatusApplied then
              match s.exec .UpdateJobApplicationStatus with
              | .error e =>
                (errorResponse StatusInternalServerError (.store e),
                  s.call .UpdateJobApplicationStatus)
              | .ok _ =>
                finish { res with ApplicationStatus := ApplicationStatusSeen }
                  ((s.call .UpdateJobApplicationStatus).setStore
                    (s.store.UpdateJobApplicationStatus
                      { ID := jobApplication.ApplicationID, Status := ApplicationStatusSeen }))
            else finish res s

/-- The statuses an employer may request: `oneof=Interviewing Offered Rejected`. -/
def employerTargets : List String := ["Interviewing", "Offered", "Rejected"]

/-- Binding `NewStatus` tagged `required,oneof=Interviewing Offered Rejected` from the
JSON body; `none` as input is a body that is not JSON. -/
def bindNewStatus (raw : Option String) : Option ApplicationStatus :=
  match raw with
  | none => none
  | some v => if v ≠ "" && oneof employerTargets v then some v else none

/-- `changeJobApplicationStatus` allows employer to change the status of a job
application. -/
def changeJobApplicationStatus (s : Server) (email : String) (rawID : Option Int)
    (new_status : Option String) : Response × Server :=
  match bindID rawID with
  | none => (errorResponse StatusBadRequest .binding, s)
  | some id =>
    match bindNewStatus new_status with
    | none => (errorResponse StatusBadRequest .binding, s)
    | some NewStatus =>
      match s.query .GetEmployerByEmail (s.store.GetEmployerByEmail email) with
      | .error .ErrNoRows =>
        (errorResponse StatusUnauthorized .onlyEmployersAccessError,
          s.call .GetEmployerByEmail)
      | .error e =>
        (errorResponse StatusInternalServerError (.store e), s.call .GetEmployerByEmail)
      | .ok authEmployer =>
        let s := s.call .GetEmployerByEmail
        match s.query .GetJobIDOfJobApplication (s.store.GetJobIDOfJobApplication id) with
        | .error .ErrNoRows =>
          (errorResponse StatusNotFound (.jobApplicationDoesNotExistError id),
            s.call .GetJobIDOfJobApplication)
        | .error e =>
          (errorResponse StatusInternalServerError (.store e),
            s.call .GetJobIDOfJobApplication)
        | .ok jobID =>
          let s := s.call .GetJobIDOfJobApplication
          match s.query .GetCompanyIDOfJob (s.store.GetCompanyIDOfJob jobID) with
          | .error e =>
            (errorResponse StatusInternalServerError (.store e), s.call .GetCompanyIDOfJob)
          | .ok companyID =>
            let s := s.call .GetCompanyIDOfJob
            if companyID ≠ authEmployer.CompanyID then
              (errorResponse StatusForbidden
                (.employerNotPartOfCompanyError authEmployer.ID), s)
            else
              match s.exec .UpdateJobApplicationStatus with
              | .error e =>
                (errorResponse StatusInternalServerError (.store e),
                  s.call .UpdateJobApplicationStatus)
              | .ok _ =>
                (⟨StatusOK, .statusChanged
                  { ApplicationID := id, Status := NewStatus,
                    Message := "Status updated successfully" }⟩,
                  (s.call .UpdateJobApplicationStatus).setStore
                    (s.store.UpdateJobApplicationStatus { ID := id, Status := NewStatus }))

/-- The multipart form of `updateJobApplication`, with the authenticated email and the
raw `id` of the path. -/
structure updateJobApplicationRequest where
  Email : String
  ID : Option Int
  cv_provided : String
  cv : FormFile
  message : String
deriving DecidableEq, Repr

/-- `updateJobApplication` allows users to update a job application. -/
def updateJobApplication (s : Server) (req : updateJobApplicationRequest) :
    Response × Server :=
  match bindID req.ID with
  | none => (errorResponse StatusBadRequest .binding, s)
  | some id =>
    match s.query .GetUserByEmail (s.store.GetUserByEmail req.Email) with
    | .error .ErrNoRows =>
      (errorResponse StatusUnauthorized .onlyUsersAccessError, s.call .GetUserByEmail)
    | .error e => (errorResponse StatusInternalServerError (.store e), s.call .GetUserByEmail)
    | .ok authUser =>
      let s := s.call .GetUserByEmail
      match s.query .GetJobApplicationUserIDAndStatus
          (s.store.GetJobApplicationUserIDAndStatus id) with
      | .error .ErrNoRows =>
        (errorResponse StatusNotFound (.jobApplicationDoesNotExistError id),
          s.call .GetJobApplicationUserIDAndStatus)
      | .error e =>
        (errorResponse StatusInternalServerError (.store e),
          s.call .GetJobApplicationUserIDAndStatus)
      | .ok applicationDetails =>
        let s := s.call .GetJobApplicationUserIDAndStatus
        if applicationDetails.Status ≠ ApplicationStatusApplied then
          (errorResponse StatusForbidden (.seenCannotBeUpdated id), s)
        else if applicationDetails.UserID ≠ authUser.ID then
          (errorResponse StatusForbidden (.userNotOwnerOfApplicationError authUser.ID), s)
        else
          let update (cvData : List Nat) : Response × Server :=
            let params : UpdateJobApplicationParams :=
              { ID := id,
                Message := if req.message ≠ "" then some req.message else none,
                Cv := if cvData.length > 0 then some cvData else none }
            match s.query .UpdateJobApplication (s.store.UpdateJobApplication params) with
            | .error e =>
              (errorResponse StatusInternalServerError (.store e),
                s.call .UpdateJobApplication)
            | .ok (jobApplication, d) =>
              (⟨StatusOK, .jobApplication (newJobApplicationResponse jobApplication)⟩,
                (s.call .UpdateJobApplication).setStore d)
          if req.cv_provided = "true" ∨ req.cv_provided = "1" then
            match req.cv with
            | .missing => (errorResponse StatusBadRequest .formFile, s)
            | .unreadable => (errorResponse StatusInternalServerError .failedToReadCV, s)
            | .file cvData => update cvData
          else update []

/-- `deleteJobApplication` delete a job application if the user making the request is
the owner of the job application.  Its success response is `ctx.JSON(204, nil)`: a 204
carries no body, so none is written. -/
def deleteJobApplication (s : Server) (email : String) (rawID : Option Int) :
    Response × Server :=
  match bindID rawID with
  | none => (errorResponse StatusBadRequest .binding, s)
  | some id =>
    match s.query .GetUserByEmail (s.store.GetUserByEmail email) with
    | .error .ErrNoRows =>
      (errorResponse StatusUnauthorized .onlyUsersAccessError, s.call .GetUserByEmail)
    | .error e => (errorResponse StatusInternalServerError (.store e), s.call .GetUserByEmail)
    | .ok authUser =>
      let s := s.call .GetUserByEmail
      match s.query .GetJobApplicationUserID (s.store.GetJobApplicationUserID id) with
      | .error .ErrNoRows =>
        (errorResponse StatusNotFound (.jobApplicationDoesNotExistError id),
          s.call .GetJobApplicationUserID)
      | .error e =>
        (errorResponse StatusInternalServerError (.store e), s.call .GetJobApplicationUserID)
      | .ok userID =>
        let s := s.call .GetJobApplicationUserID
        if userID ≠ authUser.ID then
          (errorResponse StatusForbidden (.userNotOwnerOfApplicationError authUser.ID), s)
        else
          match s.exec .DeleteJobApplication with
          | .error e =>
            (errorResponse StatusInternalServerError (.store e), s.call .DeleteJobApplication)
          | .ok _ =>
            (⟨StatusNoContent, .empty⟩,
              (s.call .DeleteJobApplication).setStore (s.store.DeleteJobApplication id))

/-- The words of `oneof=date-asc date-desc`. -/
def sortWords : List String := ["date-asc", "date-desc"]

/-- The words of `oneof=Applied Seen Interviewing Offered Rejected`. -/
def statusWords : List String := ["Applied", "Seen", "Interviewing", "Offered", "Rejected"]

/-- The query string of `listJobApplicationsForUser`; a raw number that is `none` is
missing or not a number. -/
structure listJobApplicationsForUserRequest where
  Page : Option Int
  PageSize : Option Int
  sort : String
  Status : String
deriving DecidableEq, Repr

/-- `listJobApplicationsForUser` lists all job applications that authenticated user
created. -/
def listJobApplicationsForUser (s : Server) (email : String)
    (req : listJobApplicationsForUserRequest) : Response × Server :=
  match bindInt32 1 2147483647 req.Page, bindInt32 5 15 req.PageSize,
      omitemptyOneof sortWords req.sort && omitemptyOneof statusWords req.Status with
  | some Page, some PageSize, true =>
    match s.query .GetUserByEmail (s.store.GetUserByEmail email) with
    | .error .ErrNoRows =>
      (errorResponse StatusUnauthorized .onlyUsersAccessError, s.call .GetUserByEmail)
    | .error e => (errorResponse StatusInternalServerError (.store e), s.call .GetUserByEmail)
    | .ok authUser =>
      let s := s.call .GetUserByEmail
      let params : ListJobApplicationsForUserParams :=
        { UserID := authUser.ID, Limit := PageSize, Offset := wrap32 ((Page - 1) * PageSize),
          Status := if req.Status ≠ "" then req.Status else ApplicationStatusApplied,
          FilterStatus := decide (req.Status ≠ ""),
          AppliedAtAsc := decide (req.sort = "date-asc"),
          AppliedAtDesc := decide (req.sort ≠ "date-asc") }
      match s.query .ListJobApplicationsForUser (s.store.ListJobApplicationsForUser params) with
      | .error e =>
        (errorResponse StatusInternalServerError (.store e),
          s.call .ListJobApplicationsForUser)
      | .ok jobApplications =>
        (⟨StatusOK, .userList jobApplications⟩, s.call .ListJobApplicationsForUser)
  | _, _, _ => (errorResponse StatusBadRequest .binding, s)

/-- The query string of `listJobApplicationsForEmployer`. -/
structure listJobApplicationsForEmployerRequest where
  JobID : Option Int
  Page : Option Int
  PageSize : Option Int
  sort : String
  Status : String
deriving DecidableEq, Repr

/-- `listJobApplicationsForEmployer` lists all job applications for a given job that
authenticated employer created. -/
def listJobApplicationsForEmployer (s : Server) (email : String)
    (req : listJobApplicationsForEmployerRequest) : Response × Server :=
  match bindInt32 1 2147483647 req.JobID, bindInt32 1 2147483647 req.Page,
      bindInt32 5 15 req.PageSize,
      omitemptyOneof sortWords req.sort && omitemptyOneof statusWords req.Status with
  | some JobID, some Page, some PageSize, true =>
    match s.query .GetEmployerByEmail (s.store.GetEmployerByEmail email) with
    | .error .ErrNoRows =>
      (errorResponse StatusUnauthorized .onlyUsersAccessError, s.call .GetEmployerByEmail)
    | .error e =>
      (errorResponse StatusInternalServerError (.store e), s.call .GetEmployerByEmail)
    | .ok authEmployer =>
      let s := s.call .GetEmployerByEmail
      match s.query .GetCompanyIDOfJob (s.store.GetCompanyIDOfJob JobID) with
      | .error .ErrNoRows =>
        (errorResponse StatusNotFound (.jobDoesNotExist JobID), s.call .GetCompanyIDOfJob)
      | .error e =>
        (errorResponse StatusInternalServerError (.store e), s.call .GetCompanyIDOfJob)
      | .ok companyID =>
        let s := s.call .GetCompanyIDOfJob
        if companyID ≠ authEmployer.CompanyID then
          (errorResponse StatusForbidden (.jobNotOfEmployer JobID authEmployer.CompanyID), s)
        else
          let params : ListJobApplicationsForEmployerParams :=
            { JobID := JobID, Limit := PageSize, Offset := wrap32 ((Page - 1) * PageSize),
              Status := if req.Status ≠ "" then req.Status else ApplicationStatusApplied,
              FilterStatus := decide (req.Status ≠ ""),
              AppliedAtAsc := decide (req.sort = "date-asc"),
              AppliedAtDesc := decide (req.sort ≠ "date-asc") }
          match s.query .ListJobApplicationsForEmployer
              (s.store.ListJobApplicationsForEmployer params) with
          | .error e =>
            (errorResponse StatusInternalServerError (.store e),
              s.call .ListJobApplicationsForEmployer)
          | .ok jobApplications =>
            (⟨StatusOK, .employerList jobApplications⟩,
              s.call .ListJobApplicationsForEmployer)
  | _, _, _, _ => (errorResponse StatusBadRequest .binding, s)

structure changeNotifyJobApplicationRequest where
  ID : Int
  Notification : Bool
deriving DecidableEq, Repr

/-- `changeNotifyJobApplication` sets the notification flag of a job application; the
body is `none` when it is not JSON for the request type. -/
def changeNotifyJobApplication (s : Server) (body : Option changeNotifyJobApplicationRequest) :
    Response × Server :=
  match body with
  | none => (errorResponse StatusBadRequest .binding, s)
  | some req =>
    if !inInt32 req.ID then (errorResponse StatusBadRequest .binding, s)
    else
      match s.exec .UpdateJobApplicationNote with
      | .error .ErrNoRows =>
        (errorResponse StatusNotFound (.store .ErrNoRows), s.call .UpdateJobApplicationNote)
      | .error e =>
        (errorResponse StatusInternalServerError (.store e),
          s.call .UpdateJobApplicationNote)
      | .ok _ =>
        (⟨StatusOK, .notification { Message := "Notification update successfully" }⟩,
          (s.call .UpdateJobApplicationNote).setStore
            (s.store.UpdateJobApplicationNote
              { ID := req.ID, Notification := req.Notification }))

/-! ### Handler of `notification.go` -/

structure notifyJobApplicationRequest where
  ApplicationID : Int
  Status : String
deriving DecidableEq, Repr

structure notificationMessage where
  Status : String
  JobTitle : String
  TelegramID : String
  CompanyName : String
deriving DecidableEq, Repr

/-- `json.Marshal` of a `notificationMessage`: its fields under their JSON names. -/
def notificationMessage.marshal (m : notificationMessage) : JSONObject :=
  [("status", m.Status), ("job_title", m.JobTitle), ("telegram_id", m.TelegramID),
    ("company_name", m.CompanyName)]

/-- The server after `server.ch.Publish(exchange, key, false, false, msg)` succeeded:
the message is on the queue. -/
def Server.Publish (s : Server) (exchange key : String) (contentType : String)
    (body : JSONObject) : Server :=
  { s with published := s.published ++
    [{ exchange := exchange, routingKey := key, ContentType := contentType, Body := body }] }

/-- Binding `notifyJobApplicationRequest`: `application_id` an `int64` tagged `required`,
`status` tagged `required,oneof=Interviewing Offered Rejected`. -/
def bindNotify (body : Option notifyJobApplicationRequest) :
    Option notifyJobApplicationRequest :=
  match body with
  | none => none
  | some req =>
    if inInt64 req.ApplicationID && decide (req.ApplicationID ≠ 0) &&
        decide (req.Status ≠ "") && oneof employerTargets req.Status then some req
    else none

/-- `notifyJobApplication` sends the notification of a status update to the queue when
the application has notifications enabled. -/
def notifyJobApplication (s : Server) (body : Option notifyJobApplicationRequest) :
    Response × Server :=
  match bindNotify body with
  | none => (errorResponse StatusBadRequest .binding, s)
  | some req =>
    match s.query .GetJobApplicationForUser
        (s.store.GetJobApplicationForUser (wrap32 req.ApplicationID)) with
    | .error .ErrNoRows =>
      (errorResponse StatusNotFound (.store .ErrNoRows), s.call .GetJobApplicationForUser)
    | .error e =>
      (errorResponse StatusInternalServerError (.store e), s.call .GetJobApplicationForUser)
    | .ok application =>
      let s := s.call .GetJobApplicationForUser
      if application.Notification then
        match s.query .GetUserByID (s.store.GetUserByID application.UserID) with
        | .error e => (errorResponse StatusInternalServerError (.store e), s.call .GetUserByID)
        | .ok user =>
          let s := s.call .GetUserByID
          let notification : notificationMessage :=
            { Status := req.Status, TelegramID := user.TelegramID,
              CompanyName := application.CompanyName, JobTitle := application.JobTitle }
          match s.exec .Publish with
          | .error e => (errorResponse StatusInternalServerError (.store e), s)
          | .ok _ =>
            (⟨StatusOK, .notification { Message := "Notification sent successfully" }⟩,
              s.Publish "" s.queueName "application/json" notification.marshal)
      else (⟨StatusOK, .notification { Message := "Notification sent successfully" }⟩, s)

/-! ## A concrete server -/

/-- A store with two users, two employers of two companies, one job of company 1 and
one application of user 1 for it, still `Applied`, with notifications enabled. -/
def exampleDB : DB :=
  { users :=
      [{ ID := 1, Email := "u@x", FullName := "U", Location := "L", TelegramID := "tg1" },
       { ID := 2, Email := "v@x", FullName := "V", Location := "M", TelegramID := "tg2" }],
    employers :=
      [{ ID := 1, CompanyID := 1, Email := "e@c" }, { ID := 2, CompanyID := 2, Email := "f@d" }],
    companies := [{ ID := 1, Name := "C" }, { ID := 2, Name := "D" }],
    jobs := [{ ID := 1, Title := "J", CompanyID := 1 }],
    jobApplications :=
      [{ ID := 1, UserID := 1, JobID := 1, Message := some "Interested", Cv := [1, 2],
         Status := "Applied", AppliedAt := 10, Notification := true }],
    nextID := 2, now := 11, defaultNotification := false }

/-- A freshly started server on `exampleDB`: no CV route registered, nothing published,
no collaborator failing. -/
def exampleServer : Server :=
  { store := exampleDB, ServerAddress := "addr", routes := [],
    queueName := "telegram_notifications", published := [], fails := fun _ => false,
    log := [] }

/-- A second state of `exampleDB`: the application has been offered. -/
def offeredDB : DB := exampleDB.UpdateJobApplicationStatus { ID := 1, Status := "Offered" }

/-- The example server on `offeredDB`. -/
def offeredServer : Server := exampleServer.setStore offeredDB

/-- The example server after the applicant has fetched application 1 with
`getJobApplicationForUser`. -/
def viewedServer : Server := (getJobApplicationForUser exampleServer "u@x" (some 1)).2

/-- The example server after the employer of the owning company has fetched
application 1 with `getJobApplicationForEmployer`. -/
def seenServer : Server := (getJobApplicationForEmployer exampleServer "e@c" (some 1)).2

/-- The stored status of the application with the given ID, as the `WHERE id = $1`
queries see it. -/
def DB.statusOf (d : DB) (id : Int) : Option ApplicationStatus :=
  (d.jobApplications.find? (fun a => a.ID == id)).map (fun a => a.Status)

/-- A request to one of the handlers of the job-application routes. -/
inductive Request where
  | createJobApplication (req : createJobApplicationRequest)
  | getJobApplicationForUser (email : String) (id : Option Int)
  | getJobApplicationForEmployer (email : String) (id : Option Int)
  | changeJobApplicationStatus (email : String) (id : Option Int) (new_status : Option String)
  | updateJobApplication (req : updateJobApplicationRequest)
  | deleteJobApplication (email : String) (id : Option Int)
  | listJobApplicationsForUser (email : String) (req : listJobApplicationsForUserRequest)
  | listJobApplicationsForEmployer (email : String)
      (req : listJobApplicationsForEmployerRequest)
  | changeNotifyJobApplication (body : Option changeNotifyJobApplicationRequest)
  | notifyJobApplication (body : Option notifyJobApplicationRequest)
deriving DecidableEq, Repr

/-- The router dispatching a request to its handler. -/
def handle (s : Server) : Request → Response × Server
  | .createJobApplication req => createJobApplication s req
  | .getJobApplicationForUser email id => getJobApplicationForUser s email id
  | .getJobApplicationForEmployer email id => getJobApplicationForEmployer s email id
  | .changeJobApplicationStatus email id new_status =>
    changeJobApplicationStatus s email id new_status
  | .updateJobApplication req => updateJobApplication s req
  | .deleteJobApplication email id => deleteJobApplication s email id
  | .listJobApplicationsForUser email req => listJobApplicationsForUser s email req
  | .listJobApplicationsForEmployer email req => listJobApplicationsForEmployer s email req
  | .changeNotifyJobApplication body => changeNotifyJobApplication s body
  | .notifyJobApplication body => notifyJobApplication s body

/-- The server after a sequence of requests, served one after the other. -/
def run (s : Server) : List Request → Server
  | [] => s
  | r :: rs => run (handle s r).2 rs

/-- The transition graph of the specification: `Applied → Seen`, and
`Seen → Interviewing`, `Seen → Offered`, `Seen → Rejected`. -/
def specEdge (old new : ApplicationStatus) : Bool :=
  (old == "Applied" && new == "Seen") ||
  (old == "Seen" && (new == "Interviewing" || new == "Offered" || new == "Rejected"))

/-- The example server with every collaborator call failing. -/
def brokenServer : Server := { exampleServer with fails := fun _ => true }

/-- A store with three users, three jobs of company 1 and five applications: users 1, 2
and 3 applied for job 1 at times 20, 30 and 10, and user 1 also applied for jobs 2 and
3 at times 30 and 10. -/
def threeDB : DB :=
  { users :=
      [{ ID := 1, Email := "u@x", FullName := "U", Location := "L", TelegramID := "tg1" },
       { ID := 2, Email := "v@x", FullName := "V", Location := "M", TelegramID := "tg2" },
       { ID := 3, Email := "w@x", FullName := "W", Location := "N", TelegramID := "tg3" }],
    employers := [{ ID := 1, CompanyID := 1, Email := "e@c" }],
    companies := [{ ID := 1, Name := "C" }],
    jobs :=
      [{ ID := 1, Title := "J1", CompanyID := 1 }, { ID := 2, Title := "J2", CompanyID := 1 },
       { ID := 3, Title := "J3", CompanyID := 1 }],
    jobApplications :=
      [{ ID := 1, UserID := 1, JobID := 1, Message := none, Cv := [1], Status := "Applied",
         AppliedAt := 20, Notification := false },
       { ID := 2, UserID := 2, JobID := 1, Message := none, Cv := [2], Status := "Seen",
         AppliedAt := 30, Notification := false },
       { ID := 3, UserID := 3, JobID := 1, Message := none, Cv := [3], Status := "Applied",
         AppliedAt := 10, Notification := false },
       { ID := 4, UserID := 1, JobID := 2, Message := none, Cv := [1], Status := "Seen",
         AppliedAt := 30, Notification := false },
       { ID := 5, UserID := 1, JobID := 3, Message := none, Cv := [1], Status := "Applied",
         AppliedAt := 10, Notification := false }],
    nextID := 6, now := 40, defaultNotification := false }

/-- A freshly started server on `threeDB`. -/
def threeServer : Server := exampleServer.setStore threeDB

/-- The scope of the user's list in the words of the specification: the applications the
user created, of the requested status when one is given and of every status when none
is, each shown with its job and the job's company. -/
def specUserScope (d : DB) (userID : Int) (status : String) :
    List ListJobApplicationsForUserRow :=
  (d.jobApplications.filter (fun ja =>
      ja.UserID == userID && (status == "" || ja.Status == status))).filterMap (fun ja =>
    (d.jobs.find? (fun j => ja.JobID == j.ID)).bind (fun j =>
      (d.companies.find? (fun c => j.CompanyID == c.ID)).map (fun c =>
        { UserID := ja.UserID, ApplicationID := ja.ID, Notification := ja.Notification,
          JobTitle := j.Title, JobID := j.ID, CompanyName := c.Name,
          ApplicationStatus := ja.Status, ApplicationDate := ja.AppliedAt })))

/-- The scope of the employer's list in the words of the specification: the applications
for the requested job, of the requested status when one is given and of every status
when none is, each shown with its applicant. -/
def specJobScope (d : DB) (jobID : Int) (status : String) :
    List ListJobApplicationsForEmployerRow :=
  (d.jobApplications.filter (fun ja =>
      ja.JobID == jobID && (status == "" || ja.Status == status))).filterMap (fun ja =>
    (d.users.find? (fun u => u.ID == ja.UserID)).map (fun u =>
      { ApplicationID := ja.ID, UserID := ja.UserID, UserEmail := u.Email,
        UserFullName := u.FullName, ApplicationStatus := ja.Status,
        ApplicationDate := ja.AppliedAt }))

/-- The page of a list: skip `offset` rows, take at most `limit`. -/
def specPage {α : Type} (limit offset : Nat) (rows : List α) : List α :=
  (rows.drop offset).take limit

/-- A raw number is present and at least `lo` (and at most `hi`). -/
def specWithin (lo hi : Int) : Option Int → Bool
  | none => false
  | some v => decide (lo ≤ v) && decide (v ≤ hi)

/-- A raw number is present and at least `lo`. -/
def specAtLeast (lo : Int) : Option Int → Bool
  | none => false
  | some v => decide (lo ≤ v)

/-- The list requests the specification accepts: page at least 1, page size within
5..15, sort empty or `date-asc` / `date-desc`, status empty or one of the five
statuses. -/
def specValidList (page pageSize : Option Int) (sort status : String) : Bool :=
  specAtLeast 1 page && specWithin 5 15 pageSize &&
  (sort == "" || sort == "date-asc" || sort == "date-desc") &&
  (status == "" || status == "Applied" || status == "Seen" || status == "Interviewing" ||
    status == "Offered" || status == "Rejected")

/-- The parameters `listJobApplicationsForUser` builds for its query from the bound
request and the authenticated user. -/
def userListParams (authUser : User) (Page PageSize : Int)
    (req : listJobApplicationsForUserRequest) : ListJobApplicationsForUserParams :=
  { UserID := authUser.ID, Limit := PageSize, Offset := wrap32 ((Page - 1) * PageSize),
    Status := if req.Status ≠ "" then req.Status else ApplicationStatusApplied,
    FilterStatus := decide (req.Status ≠ ""),
    AppliedAtAsc := decide (req.sort = "date-asc"),
    AppliedAtDesc := decide (req.sort ≠ "date-asc") }

/-- The parameters `listJobApplicationsForEmployer` builds for its query from the bound
request. -/
def employerListParams (JobID Page PageSize : Int)
    (req : listJobApplicationsForEmployerRequest) : ListJobApplicationsForEmployerParams :=
  { JobID := JobID, Limit := PageSize, Offset := wrap32 ((Page - 1) * PageSize),
    Status := if req.Status ≠ "" then req.Status else ApplicationStatusApplied,
    FilterStatus := decide (req.Status ≠ ""),
    AppliedAtAsc := decide (req.sort = "date-asc"),
    AppliedAtDesc := decide (req.sort ≠ "date-asc") }

/-- The applications of user 1 in `threeDB` as rows of the user's list, oldest first. -/
def threeUserRows : List ListJobApplicationsForUserRow :=
  [{ UserID := 1, ApplicationID := 5, Notification := false, JobTitle := "J3", JobID := 3,
     CompanyName := "C", ApplicationStatus := "Applied", ApplicationDate := 10 },
   { UserID := 1, ApplicationID := 1, Notification := false, JobTitle := "J1", JobID := 1,
     CompanyName := "C", ApplicationStatus := "Applied", ApplicationDate := 20 },
   { UserID := 1, ApplicationID := 4, Notification := false, JobTitle := "J2", JobID := 2,
     CompanyName := "C", ApplicationStatus := "Seen", ApplicationDate := 30 }]

/-- The applications for job 1 in `threeDB` as rows of the employer's list, oldest
first. -/
def threeJobRows : List ListJobApplicationsForEmployerRow :=
  [{ ApplicationID := 3, UserID := 3, UserEmail := "w@x", UserFullName := "W",
     ApplicationStatus := "Applied", ApplicationDate := 10 },
   { ApplicationID := 1, UserID := 1, UserEmail := "u@x", UserFullName := "U",
     ApplicationStatus := "Applied", ApplicationDate := 20 },
   { ApplicationID := 2, UserID := 2, UserEmail := "v@x", UserFullName := "V",
     ApplicationStatus := "Seen", ApplicationDate := 30 }]

/-- The example server with the channel down: `Publish` fails, every store call
succeeds. -/
def publishDownServer : Server :=
  { exampleServer with fails := fun op => decide (op = StoreOp.Publish) }

/-- What is fixed when an application is created: the applied-at timestamp, the
applicant and the job of the stored application with the given ID. -/
def DB.originOf (d : DB) (id : Int) : Option (Int × Int × Int) :=
  (d.jobApplications.find? (fun a => a.ID == id)).map (fun a => (a.AppliedAt, a.UserID, a.JobID))

/-- The list requests the handlers accept: those of `specValidList` whose page is at
most 2147483647, the largest value of the `int32` the page is bound to. -/
def validListInt32 (page pageSize : Option Int) (sort status : String) : Bool :=
  specWithin 1 2147483647 page && specWithin 5 15 pageSize &&
  (sort == "" || sort == "date-asc" || sort == "date-desc") &&
  (status == "" || status == "Applied" || status == "Seen" || status == "Interviewing" ||
    status == "Offered" || status == "Rejected")

/-! ## Basic facts about the store calls -/

theorem query_ok {α : Type} (s : Server) (op : StoreOp) (r : Except DBError α)
    (h : s.fails op = false) : s.query op r = r := by
  simp [Server.query, h]

@[simp] theorem call_store (s : Server) (op : StoreOp) : (s.call op).store = s.store := rfl
@[simp] theorem call_fails (s : Server) (op : StoreOp) : (s.call op).fails = s.fails := rfl
@[simp] theorem call_routes (s : Server) (op : StoreOp) : (s.call op).routes = s.routes := rfl
@[simp] theorem call_published (s : Server) (op : StoreOp) :
    (s.call op).published = s.published := rfl
@[simp] theorem call_log (s : Server) (op : StoreOp) : (s.call op).log = s.log ++ [op] := rfl
@[simp] theorem setStore_store (s : Server) (d : DB) : (s.setStore d).store = d := rfl
@[simp] theorem setStore_fails (s : Server) (d : DB) : (s.setStore d).fails = s.fails := rfl
@[simp] theorem setStore_routes (s : Server) (d : DB) : (s.setStore d).routes = s.routes := rfl
@[simp] theorem setStore_published (s : Server) (d : DB) :
    (s.setStore d).published = s.published := rfl
@[simp] theorem setStore_log (s : Server) (d : DB) : (s.setStore d).log = s.log := rfl
@[simp] theorem call_ServerAddress (s : Server) (op : StoreOp) :
    (s.call op).ServerAddress = s.ServerAddress := rfl
@[simp] theorem setStore_ServerAddress (s : Server) (d : DB) :
    (s.setStore d).ServerAddress = s.ServerAddress := rfl
@[simp] theorem call_queueName (s : Server) (op : StoreOp) :
    (s.call op).queueName = s.queueName := rfl
@[simp] theorem setStore_queueName (s : Server) (d : DB) :
    (s.setStore d).queueName = s.queueName := rfl

/-- C4: whatever the caller and the application are, a requested `new_status` that is
not exactly one of `Interviewing`, `Offered`, `Rejected` makes `changeJobApplicationStatus`
answer 400 without any store call: the server, its store and its trace are as before. -/
theorem changeJobApplicationStatus_rejects_other_status (s : Server) (email : String)
    (rawID : Option Int) (v : String)
    (h : v ≠ "Interviewing" ∧ v ≠ "Offered" ∧ v ≠ "Rejected") :
    changeJobApplicationStatus s email rawID (some v)
      = (errorResponse StatusBadRequest .binding, s) := by
  obtain ⟨h1, h2, h3⟩ := h
  have hb : bindNewStatus (some v) = none := by
    simp [bindNewStatus, oneof, employerTargets, h1, h2, h3]
  unfold changeJobApplicationStatus
  cases bindID rawID with
  | none => rfl
  | some id => simp [hb]

theorem changeJobApplicationStatus_rejects_other_status_witness :
    ("Seen" ≠ "Interviewing" ∧ "Seen" ≠ "Offered" ∧ "Seen" ≠ "Rejected") ∧
    changeJobApplicationStatus exampleServer "e@c" (some 1) (some "Seen")
      = (errorResponse StatusBadRequest .binding, exampleServer) :=
  ⟨by decide, changeJobApplicationStatus_rejects_other_status _ _ _ _ (by decide)⟩

/-- C6: when the store reports a status other than `Applied` for the application,
`updateJobApplication` by a user (the owner in particular) answers 403 after its two
reads and issues no write: the store, hence the stored message and CV, is as before. -/
theorem updateJobApplication_forbidden_unless_applied (s : Server)
    (req : updateJobApplicationRequest) (id : Int) (authUser : User)
    (details : GetJobApplicationUserIDAndStatusRow)
    (hid : bindID req.ID = some id)
    (hf₁ : s.fails .GetUserByEmail = false)
    (hf₂ : s.fails .GetJobApplicationUserIDAndStatus = false)
    (hu : s.store.GetUserByEmail req.Email = .ok authUser)
    (ha : s.store.GetJobApplicationUserIDAndStatus id = .ok details)
    (hst : details.Status ≠ ApplicationStatusApplied) :
    (updateJobApplication s req).1 = errorResponse StatusForbidden (.seenCannotBeUpdated id) ∧
    (updateJobApplication s req).2.store = s.store ∧
    (updateJobApplication s req).2.log
      = s.log ++ [.GetUserByEmail, .GetJobApplicationUserIDAndStatus] := by
  simp [updateJobApplication, hid, Server.query, hf₁, hf₂, hu, ha, hst]

theorem updateJobApplication_forbidden_unless_applied_witness :
    offeredServer.store.GetUserByEmail "u@x"
      = .ok { ID := 1, Email := "u@x", FullName := "U", Location := "L", TelegramID := "tg1" } ∧
    offeredServer.store.GetJobApplicationUserIDAndStatus 1
      = .ok { UserID := 1, Status := "Offered" } ∧
    (updateJobApplication offeredServer ⟨"u@x", some 1, "true", .file [7], "changed"⟩).1
      = errorResponse StatusForbidden (.seenCannotBeUpdated 1) ∧
    (updateJobApplication offeredServer ⟨"u@x", some 1, "true", .file [7], "changed"⟩).2.store
      = offeredDB :=
  have h := updateJobApplication_forbidden_unless_applied offeredServer
    ⟨"u@x", some 1, "true", .file [7], "changed"⟩ 1
    { ID := 1, Email := "u@x", FullName := "U", Location := "L", TelegramID := "tg1" }
    { UserID := 1, Status := "Offered" } (by decide) rfl rfl (by decide) (by decide)
    (by decide)
  ⟨by decide, by decide, h.1, h.2.1⟩

/-- C9: an employer whose company is not the one the store reports for the
application's job gets 403 from `getJobApplicationForEmployer`; the body carries the
employer's ID only, and after the three reads neither the store (so no `Applied` to
`Seen` transition) nor the router has changed. -/
theorem getJobApplicationForEmployer_other_company_forbidden (s : Server) (email : String)
    (rawID : Option Int) (id : Int) (authEmployer : Employer)
    (jobApplication : GetJobApplicationForEmployerRow) (companyID : Int)
    (hid : bindID rawID = some id)
    (hf₁ : s.fails .GetEmployerByEmail = false)
    (hf₂ : s.fails .GetJobApplicationForEmployer = false)
    (hf₃ : s.fails .GetCompanyIDOfJob = false)
    (he : s.store.GetEmployerByEmail email = .ok authEmployer)
    (ha : s.store.GetJobApplicationForEmployer id = .ok jobApplication)
    (hc : s.store.GetCompanyIDOfJob jobApplication.JobID = .ok companyID)
    (hne : companyID ≠ authEmployer.CompanyID) :
    (getJobApplicationForEmployer s email rawID).1
      = errorResponse StatusForbidden (.employerNotPartOfCompanyError authEmployer.ID) ∧
    (getJobApplicationForEmployer s email rawID).2.store = s.store ∧
    (getJobApplicationForEmployer s email rawID).2.routes = s.routes ∧
    (getJobApplicationForEmployer s email rawID).2.log
      = s.log ++ [.GetEmployerByEmail, .GetJobApplicationForEmployer, .GetCompanyIDOfJob] := by
  simp [getJobApplicationForEmployer, hid, Server.query, hf₁, hf₂, hf₃, he, ha, hc, hne]

theorem getJobApplicationForEmployer_other_company_forbidden_witness :
    exampleServer.store.GetEmployerByEmail "f@d" = .ok { ID := 2, CompanyID := 2, Email := "f@d" } ∧
    (exampleServer.store.GetJobApplicationForEmployer 1).map (fun r => r.ApplicationStatus)
      = .ok "Applied" ∧
    (getJobApplicationForEmployer exampleServer "f@d" (some 1)).1
      = errorResponse StatusForbidden (.employerNotPartOfCompanyError 2) ∧
    (getJobApplicationForEmployer exampleServer "f@d" (some 1)).2.store = exampleDB :=
  have h := getJobApplicationForEmployer_other_company_forbidden exampleServer "f@d" (some 1) 1
    { ID := 2, CompanyID := 2, Email := "f@d" }
    { ApplicationID := 1, JobTitle := "J", JobID := 1, ApplicationStatus := "Applied",
      ApplicationDate := 10, ApplicationMessage := some "Interested", UserCv := [1, 2],
      UserID := 1, UserEmail := "u@x", UserFullName := "U", UserLocation := "L",
      CompanyID := 1 }
    1 (by decide) rfl rfl rfl (by decide) (by decide) (by decide) (by decide)
  ⟨by decide, by decide, h.1, h.2.1⟩

/-- C10: when the principal's email resolves to no User, the five user handlers answer
401 after that single lookup, and when it resolves to no Employer the three employer
handlers do; in each case the only store call is the (read-only) lookup, so the store is
as before.  The requests are otherwise well-formed (their binding succeeds). -/
theorem wrong_role_unauthorized (s : Server) (noUser noEmployer : String)
    (hfu : s.fails .GetUserByEmail = false) (hfe : s.fails .GetEmployerByEmail = false)
    (hu : s.store.GetUserByEmail noUser = .error .ErrNoRows)
    (he : s.store.GetEmployerByEmail noEmployer = .error .ErrNoRows)
    (create : createJobApplicationRequest) (hcreate : create.Email = noUser)
    (rawID : Option Int) (id : Int) (hid : bindID rawID = some id)
    (update : updateJobApplicationRequest) (hupdate : update.Email = noUser)
    (hupdateID : update.ID = rawID)
    (listU : listJobApplicationsForUserRequest) (listE : listJobApplicationsForEmployerRequest)
    (job page pageU size sizeU : Int)
    (hpageU : bindInt32 1 2147483647 listU.Page = some pageU)
    (hsizeU : bindInt32 5 15 listU.PageSize = some sizeU)
    (hwordsU : (omitemptyOneof sortWords listU.sort &&
      omitemptyOneof statusWords listU.Status) = true)
    (hjob : bindInt32 1 2147483647 listE.JobID = some job)
    (hpage : bindInt32 1 2147483647 listE.Page = some page)
    (hsize : bindInt32 5 15 listE.PageSize = some size)
    (hwords : (omitemptyOneof sortWords listE.sort &&
      omitemptyOneof statusWords listE.Status) = true)
    (new_status : Option String) (st : ApplicationStatus)
    (hst : bindNewStatus new_status = some st) :
    createJobApplication s create
      = (errorResponse StatusUnauthorized .onlyUsersAccessError, s.call .GetUserByEmail) ∧
    getJobApplicationForUser s noUser rawID
      = (errorResponse StatusUnauthorized .onlyUsersAccessError, s.call .GetUserByEmail) ∧
    updateJobApplication s update
      = (errorResponse StatusUnauthorized .onlyUsersAccessError, s.call .GetUserByEmail) ∧
    deleteJobApplication s noUser rawID
      = (errorResponse StatusUnauthorized .onlyUsersAccessError, s.call .GetUserByEmail) ∧
    listJobApplicationsForUser s noUser listU
      = (errorResponse StatusUnauthorized .onlyUsersAccessError, s.call .GetUserByEmail) ∧
    getJobApplicationForEmployer s noEmployer rawID
      = (errorResponse StatusUnauthorized .onlyEmployersAccessError,
          s.call .GetEmployerByEmail) ∧
    changeJobApplicationStatus s noEmployer rawID new_status
      = (errorResponse StatusUnauthorized .onlyEmployersAccessError,
          s.call .GetEmployerByEmail) ∧
    listJobApplicationsForEmployer s noEmployer listE
      = (errorResponse StatusUnauthorized .onlyUsersAccessError, s.call .GetEmployerByEmail) ∧
    (s.call .GetUserByEmail).store = s.store ∧
    (s.call .GetEmployerByEmail).store = s.store ∧
    StoreOp.GetUserByEmail.isWrite = false ∧ StoreOp.GetEmployerByEmail.isWrite = false := by
  refine ⟨?_, ?_, ?_, ?_, ?_, ?_, ?_, ?_, rfl, rfl, rfl, rfl⟩
  · simp [createJobApplication, Server.query, hfu, hcreate, hu]
  · simp [getJobApplicationForUser, hid, Server.query, hfu, hu]
  · simp [updateJobApplication, hupdateID, hupdate, hid, Server.query, hfu, hu]
  · simp [deleteJobApplication, hid, Server.query, hfu, hu]
  · unfold listJobApplicationsForUser
    rw [hpageU, hsizeU, hwordsU]
    simp [Server.query, hfu, hu]
  · simp [getJobApplicationForEmployer, hid, Server.query, hfe, he]
  · simp [changeJobApplicationStatus, hid, hst, Server.query, hfe, he]
  · unfold listJobApplicationsForEmployer
    rw [hjob, hpage, hsize, hwords]
    simp [Server.query, hfe, he]

theorem wrong_role_unauthorized_witness :
    exampleServer.store.GetUserByEmail "e@c" = .error .ErrNoRows ∧
    exampleServer.store.GetEmployerByEmail "u@x" = .error .ErrNoRows ∧
    createJobApplication exampleServer ⟨"e@c", .file [7], "hello", "1"⟩
      = (errorResponse StatusUnauthorized .onlyUsersAccessError,
          exampleServer.call .GetUserByEmail) ∧
    changeJobApplicationStatus exampleServer "u@x" (some 1) (some "Offered")
      = (errorResponse StatusUnauthorized .onlyEmployersAccessError,
          exampleServer.call .GetEmployerByEmail) ∧
    listJobApplicationsForEmployer exampleServer "u@x" ⟨some 1, some 1, some 5, "", ""⟩
      = (errorResponse StatusUnauthorized .onlyUsersAccessError,
          exampleServer.call .GetEmployerByEmail) :=
  have h := wrong_role_unauthorized exampleServer "e@c" "u@x" rfl rfl (by decide) (by decide)
    ⟨"e@c", .file [7], "hello", "1"⟩ rfl (some 1) 1 (by decide)
    ⟨"e@c", some 1, "", .missing, "hello"⟩ rfl rfl
    ⟨some 1, some 5, "", ""⟩ ⟨some 1, some 1, some 5, "", ""⟩ 1 1 1 5 5
    (by decide) (by decide) (by decide) (by decide) (by decide) (by decide) (by decide)
    (some "Offered") "Offered" (by decide)
  ⟨by decide, by decide, h.1, h.2.2.2.2.2.2.1, h.2.2.2.2.2.2.2.1⟩

@[simp] theorem GET_store (s : Server) (u : String) (d : List Nat) :
    (s.GET u d).store = s.store := rfl
@[simp] theorem GET_fails (s : Server) (u : String) (d : List Nat) :
    (s.GET u d).fails = s.fails := rfl
@[simp] theorem GET_published (s : Server) (u : String) (d : List Nat) :
    (s.GET u d).published = s.published := rfl
@[simp] theorem GET_log (s : Server) (u : String) (d : List Nat) :
    (s.GET u d).log = s.log := rfl
@[simp] theorem GET_ServerAddress (s : Server) (u : String) (d : List Nat) :
    (s.GET u d).ServerAddress = s.ServerAddress := rfl
@[simp] theorem GET_routes (s : Server) (u : String) (d : List Nat) :
    (s.GET u d).routes = s.routes ++ [(u, d)] := rfl
@[simp] theorem call_registered (s : Server) (op : StoreOp) (u : String) :
    (s.call op).registered u = s.registered u := rfl
@[simp] theorem setStore_registered (s : Server) (d : DB) (u : String) :
    (s.setStore d).registered u = s.registered u := rfl
@[simp] theorem Publish_store (s : Server) (e k c : String) (b : JSONObject) :
    (s.Publish e k c b).store = s.store := rfl
@[simp] theorem Publish_published (s : Server) (e k c : String) (b : JSONObject) :
    (s.Publish e k c b).published
      = s.published ++ [{ exchange := e, routingKey := k, ContentType := c, Body := b }] := rfl

/-! ## How the store calls act on the stored status -/

@[simp] theorem query_eq_ok {α : Type} (s : Server) (op : StoreOp) (r : Except DBError α)
    (x : α) : s.query op r = .ok x ↔ s.fails op = false ∧ r = .ok x := by
  unfold Server.query
  cases s.fails op <;> simp

/-- A row-wise update that keeps the IDs commutes with the lookup by ID. -/
theorem find?_map_keepID (f : JobApplication → JobApplication) (hf : ∀ a, (f a).ID = a.ID)
    (l : List JobApplication) (id : Int) :
    (l.map f).find? (fun a => a.ID == id) = (l.find? (fun a => a.ID == id)).map f := by
  induction l with
  | nil => rfl
  | cons a l ih =>
    simp only [List.map_cons, List.find?_cons, hf]
    cases a.ID == id
    · simpa using ih
    · rfl

/-- The row found by ID has that ID. -/
theorem find?_ID {l : List JobApplication} {id : Int} {a : JobApplication}
    (h : l.find? (fun a => a.ID == id) = some a) : a.ID = id := by
  have := List.find?_some h
  simpa using this

theorem statusOf_UpdateJobApplicationStatus (d : DB) (arg : UpdateJobApplicationStatusParams)
    (id : Int) :
    (d.UpdateJobApplicationStatus arg).statusOf id
      = if id = arg.ID then (d.statusOf id).map (fun _ => arg.Status) else d.statusOf id := by
  unfold DB.statusOf DB.UpdateJobApplicationStatus
  simp only
  rw [find?_map_keepID _ (by intro a; split <;> rfl)]
  cases h : d.jobApplications.find? (fun a => a.ID == id) with
  | none => simp
  | some a =>
    have ha := find?_ID h
    by_cases hq : id = arg.ID
    · simp [hq, ← ha, ha.trans hq]
    · have : ¬ a.ID = arg.ID := fun h' => hq (ha.symm.trans h')
      simp [hq, this]

theorem statusOf_UpdateJobApplicationNote (d : DB) (arg : UpdateJobApplicationNoteParams)
    (id : Int) : (d.UpdateJobApplicationNote arg).statusOf id = d.statusOf id := by
  unfold DB.statusOf DB.UpdateJobApplicationNote
  simp only
  rw [find?_map_keepID _ (by intro a; split <;> rfl)]
  cases h : d.jobApplications.find? (fun a => a.ID == id) with
  | none => simp
  | some a => by_cases hq : a.ID = arg.ID <;> simp [hq]

theorem statusOf_UpdateJobApplication (d d' : DB) (arg : UpdateJobApplicationParams)
    (a : JobApplication) (h : d.UpdateJobApplication arg = .ok (a, d')) (id : Int) :
    d'.statusOf id = d.statusOf id := by
  unfold DB.UpdateJobApplication at h
  split at h
  · simp at h
  · simp only [Except.ok.injEq, Prod.mk.injEq] at h
    obtain ⟨-, rfl⟩ := h
    unfold DB.statusOf
    simp only
    rw [find?_map_keepID _ (by intro a; split <;> rfl)]
    cases h : d.jobApplications.find? (fun a => a.ID == id) with
    | none => simp
    | some b => by_cases hq : b.ID = arg.ID <;> simp [hq, JobApplication.coalesce]

theorem statusOf_DeleteJobApplication (d : DB) (id₀ id : Int) :
    (d.DeleteJobApplication id₀).statusOf id = if id = id₀ then none else d.statusOf id := by
  unfold DB.statusOf DB.DeleteJobApplication
  simp only
  induction d.jobApplications with
  | nil => simp
  | cons a l ih =>
    by_cases ha : a.ID = id₀ <;> by_cases hid : a.ID = id <;> by_cases hq : id = id₀
    all_goals simp_all [List.filter_cons, List.find?_cons]

theorem statusOf_CreateJobApplicationTx (d d' : DB) (arg : CreateJobApplicationParams)
    (a : JobApplication) (h : d.CreateJobApplicationTx arg = .ok (a, d')) (id : Int)
    (st : ApplicationStatus) (hst : d.statusOf id = some st) : d'.statusOf id = some st := by
  unfold DB.CreateJobApplicationTx DB.CreateJobApplication at h
  split at h
  · simp at h
  · simp only [Except.ok.injEq, Prod.mk.injEq] at h
    obtain ⟨-, rfl⟩ := h
    unfold DB.statusOf at hst ⊢
    simp only [List.find?_append]
    cases hf : d.jobApplications.find? (fun a => a.ID == id) with
    | none => simp [hf] at hst
    | some b => simpa [hf] using hst

/-! ## What each handler does to the store -/

theorem createJobApplication_store (s : Server) (req : createJobApplicationRequest) :
    (createJobApplication s req).2.store = s.store ∨
    ∃ arg a, s.store.CreateJobApplicationTx arg = .ok (a, (createJobApplication s req).2.store) := by
  simp only [createJobApplication]
  repeat' split
  all_goals first
    | exact Or.inl rfl
    | exact Or.inr ⟨_, _, ((query_eq_ok _ _ _ _).1 (by assumption)).2⟩

theorem getJobApplicationForUser_store (s : Server) (email : String) (rawID : Option Int) :
    (getJobApplicationForUser s email rawID).2.store = s.store := by
  simp only [getJobApplicationForUser]
  repeat' split
  all_goals rfl

theorem getJobApplicationForEmployer_store (s : Server) (email : String)
    (rawID : Option Int) :
    (getJobApplicationForEmployer s email rawID).2.store = s.store ∨
    ∃ jobApplication, (∃ id, s.store.GetJobApplicationForEmployer id = .ok jobApplication) ∧
      jobApplication.ApplicationStatus = ApplicationStatusApplied ∧
      (getJobApplicationForEmployer s email rawID).2.store
        = s.store.UpdateJobApplicationStatus
            { ID := jobApplication.ApplicationID, Status := ApplicationStatusSeen } := by
  simp only [getJobApplicationForEmployer]
  repeat' split
  all_goals first
    | exact Or.inl rfl
    | exact Or.inr ⟨_, ⟨_, ((query_eq_ok _ _ _ _).1 (by assumption)).2⟩, by assumption, rfl⟩

theorem changeJobApplicationStatus_store (s : Server) (email : String) (rawID : Option Int)
    (new_status : Option String) :
    (changeJobApplicationStatus s email rawID new_status).2.store = s.store ∨
    ∃ id st, bindNewStatus new_status = some st ∧
      (changeJobApplicationStatus s email rawID new_status).2.store
        = s.store.UpdateJobApplicationStatus { ID := id, Status := st } := by
  simp only [changeJobApplicationStatus]
  repeat' split
  all_goals first
    | exact Or.inl rfl
    | exact Or.inr ⟨_, _, by assumption, rfl⟩

theorem updateJobApplication_store (s : Server) (req : updateJobApplicationRequest) :
    (updateJobApplication s req).2.store = s.store ∨
    ∃ arg a, s.store.UpdateJobApplication arg = .ok (a, (updateJobApplication s req).2.store) := by
  simp only [updateJobApplication]
  repeat' split
  all_goals first
    | exact Or.inl rfl
    | exact Or.inr ⟨_, _, ((query_eq_ok _ _ _ _).1 (by assumption)).2⟩

theorem deleteJobApplication_store (s : Server) (email : String) (rawID : Option Int) :
    (deleteJobApplication s email rawID).2.store = s.store ∨
    ∃ id, (deleteJobApplication s email rawID).2.store = s.store.DeleteJobApplication id := by
  simp only [deleteJobApplication]
  repeat' split
  all_goals first
    | exact Or.inl rfl
    | exact Or.inr ⟨_, rfl⟩

theorem listJobApplicationsForUser_store (s : Server) (email : String)
    (req : listJobApplicationsForUserRequest) :
    (listJobApplicationsForUser s email req).2.store = s.store := by
  simp only [listJobApplicationsForUser]
  repeat' split
  all_goals rfl

theorem listJobApplicationsForEmployer_store (s : Server) (email : String)
    (req : listJobApplicationsForEmployerRequest) :
    (listJobApplicationsForEmployer s email req).2.store = s.store := by
  simp only [listJobApplicationsForEmployer]
  repeat' split
  all_goals rfl

theorem changeNotifyJobApplication_store (s : Server)
    (body : Option changeNotifyJobApplicationRequest) :
    (changeNotifyJobApplication s body).2.store = s.store ∨
    ∃ arg, (changeNotifyJobApplication s body).2.store = s.store.UpdateJobApplicationNote arg := by
  simp only [changeNotifyJobApplication]
  repeat' split
  all_goals first
    | exact Or.inl rfl
    | exact Or.inr ⟨_, rfl⟩

theorem notifyJobApplication_store (s : Server) (body : Option notifyJobApplicationRequest) :
    (notifyJobApplication s body).2.store = s.store := by
  simp only [notifyJobApplication]
  repeat' split
  all_goals rfl

/-- The row `GetJobApplicationForEmployer` returns carries the stored status of its
application. -/
theorem GetJobApplicationForEmployer_statusOf (d : DB) (id : Int)
    (row : GetJobApplicationForEmployerRow)
    (h : d.GetJobApplicationForEmployer id = .ok row) :
    d.statusOf row.ApplicationID = some row.ApplicationStatus := by
  unfold DB.GetJobApplicationForEmployer at h
  unfold DB.statusOf
  cases hja : d.jobApplications.find? (fun a => a.ID == id) with
  | none => simp [hja, one] at h
  | some ja =>
    have hid := find?_ID hja
    cases hj : d.jobs.find? (fun j => ja.JobID == j.ID) with
    | none => simp [hja, hj, one] at h
    | some j =>
      cases hc : d.companies.find? (fun c => j.CompanyID == c.ID) with
      | none => simp [hja, hj, hc, one] at h
      | some c =>
        cases hu : d.users.find? (fun u => ja.UserID == u.ID) with
        | none => simp [hja, hj, hc, hu, one] at h
        | some u =>
          simp only [hja, hj, hc, hu, one, Option.bind_eq_bind, Option.some_bind,
            Option.pure_def, Except.ok.injEq] at h
          subst h
          simp [hid, hja]

/-- The statuses `bindNewStatus` lets through are the three an employer may request. -/
theorem bindNewStatus_some (raw : Option String) (st : ApplicationStatus)
    (h : bindNewStatus raw = some st) :
    st = "Interviewing" ∨ st = "Offered" ∨ st = "Rejected" := by
  unfold bindNewStatus at h
  split at h
  · simp at h
  · rename_i v
    split at h
    · rename_i hv
      simp only [Option.some.injEq] at h
      subst h
      have hv' : ¬v = "" ∧ (v = "Interviewing" ∨ v = "Offered" ∨ v = "Rejected") := by
        simpa [oneof, employerTargets] using hv
      exact hv'.2
    · simp at h

/-- C3, as the code has it: along every sequence of requests, a request that changes the
stored status of an application either is a `getJobApplicationForEmployer` taking it
from `Applied` to `Seen`, or is a `changeJobApplicationStatus` setting one of
`Interviewing`, `Offered`, `Rejected` (whatever the status was before). -/
theorem status_change_by_handler (s₀ : Server) (history : List Request) (r : Request)
    (id : Int) (old new : ApplicationStatus)
    (hold : (run s₀ history).store.statusOf id = some old)
    (hnew : (handle (run s₀ history) r).2.store.statusOf id = some new)
    (hne : new ≠ old) :
    (old = "Applied" ∧ new = "Seen" ∧
      ∃ email rawID, r = .getJobApplicationForEmployer email rawID) ∨
    ((new = "Interviewing" ∨ new = "Offered" ∨ new = "Rejected") ∧
      ∃ email rawID new_status, r = .changeJobApplicationStatus email rawID new_status) := by
  generalize run s₀ history = s at hold hnew
  have same : (handle s r).2.store = s.store → False := by
    intro h
    rw [h, hold] at hnew
    exact hne (Option.some.inj hnew).symm
  cases r with
  | createJobApplication req =>
    rcases createJobApplication_store s req with h | ⟨arg, a, h⟩
    · exact (same h).elim
    · have := statusOf_CreateJobApplicationTx _ _ _ _ h id old hold
      simp only [handle] at hnew
      rw [this] at hnew
      exact (hne (Option.some.inj hnew).symm).elim
  | getJobApplicationForUser email rawID =>
    exact (same (getJobApplicationForUser_store s email rawID)).elim
  | getJobApplicationForEmployer email rawID =>
    rcases getJobApplicationForEmployer_store s email rawID with h | ⟨ja, ⟨id', hja⟩, hst, h⟩
    · exact (same h).elim
    · left
      have hrow := GetJobApplicationForEmployer_statusOf _ _ _ hja
      simp only [handle] at hnew
      rw [h, statusOf_UpdateJobApplicationStatus] at hnew
      by_cases hq : id = ja.ApplicationID
      · subst hq
        rw [hold] at hrow
        simp only [if_true, hold, Option.map_some', Option.some.injEq] at hnew
        refine ⟨?_, hnew.symm, email, rawID, rfl⟩
        rw [Option.some.inj hrow, hst]
        rfl
      · simp only [hq, if_false] at hnew
        rw [hold] at hnew
        exact (hne (Option.some.inj hnew).symm).elim
  | changeJobApplicationStatus email rawID new_status =>
    rcases changeJobApplicationStatus_store s email rawID new_status with h | ⟨id', st, hst, h⟩
    · exact (same h).elim
    · right
      simp only [handle] at hnew
      rw [h, statusOf_UpdateJobApplicationStatus] at hnew
      by_cases hq : id = id'
      · simp only [hq, if_true] at hnew
        rw [← hq, hold] at hnew
        simp only [Option.map_some', Option.some.injEq] at hnew
        subst hnew
        exact ⟨bindNewStatus_some _ _ hst, email, rawID, new_status, rfl⟩
      · simp only [hq, if_false] at hnew
        rw [hold] at hnew
        exact (hne (Option.some.inj hnew).symm).elim
  | updateJobApplication req =>
    rcases updateJobApplication_store s req with h | ⟨arg, a, h⟩
    · exact (same h).elim
    · have := statusOf_UpdateJobApplication _ _ _ _ h id
      simp only [handle] at hnew
      rw [this, hold] at hnew
      exact (hne (Option.some.inj hnew).symm).elim
  | deleteJobApplication email rawID =>
    rcases deleteJobApplication_store s email rawID with h | ⟨id', h⟩
    · exact (same h).elim
    · simp only [handle] at hnew
      rw [h, statusOf_DeleteJobApplication] at hnew
      by_cases hq : id = id'
      · simp [hq] at hnew
      · simp only [hq, if_false] at hnew
        rw [hold] at hnew
        exact (hne (Option.some.inj hnew).symm).elim
  | listJobApplicationsForUser email req =>
    exact (same (listJobApplicationsForUser_store s email req)).elim
  | listJobApplicationsForEmployer email req =>
    exact (same (listJobApplicationsForEmployer_store s email req)).elim
  | changeNotifyJobApplication body =>
    rcases changeNotifyJobApplication_store s body with h | ⟨arg, h⟩
    · exact (same h).elim
    · simp only [handle] at hnew
      rw [h, statusOf_UpdateJobApplicationNote, hold] at hnew
      exact (hne (Option.some.inj hnew).symm).elim
  | notifyJobApplication body =>
    exact (same (notifyJobApplication_store s body)).elim

theorem status_change_by_handler_witness :
    ((run exampleServer []).store.statusOf 1 = some "Applied" ∧
      (handle (run exampleServer [])
        (.changeJobApplicationStatus "e@c" (some 1) (some "Offered"))).2.store.statusOf 1
        = some "Offered" ∧ "Offered" ≠ "Applied") ∧
    (("Applied" = "Applied" ∧ "Offered" = "Seen" ∧
      ∃ email rawID, Request.changeJobApplicationStatus "e@c" (some 1) (some "Offered")
        = .getJobApplicationForEmployer email rawID) ∨
    (("Offered" = "Interviewing" ∨ "Offered" = "Offered" ∨ "Offered" = "Rejected") ∧
      ∃ email rawID new_status,
        Request.changeJobApplicationStatus "e@c" (some 1) (some "Offered")
          = .changeJobApplicationStatus email rawID new_status)) :=
  ⟨⟨by decide, by decide, by decide⟩,
    status_change_by_handler exampleServer [] _ 1 "Applied" "Offered" (by decide) (by decide)
      (by decide)⟩

/-- C3, counterexample: with the application `Applied`, `changeJobApplicationStatus` by an
employer of the owning company stores `Offered` at once, and on the application so
offered a second call stores `Rejected`; neither step is an edge of the specification's
graph. -/
theorem changeJobApplicationStatus_ignores_current_status :
    exampleServer.store.statusOf 1 = some "Applied" ∧
    (changeJobApplicationStatus exampleServer "e@c" (some 1) (some "Offered")).1.code
      = StatusOK ∧
    (changeJobApplicationStatus exampleServer "e@c" (some 1) (some "Offered")).2.store.statusOf 1
      = some "Offered" ∧
    specEdge "Applied" "Offered" = false ∧
    offeredServer.store.statusOf 1 = some "Offered" ∧
    (changeJobApplicationStatus offeredServer "e@c" (some 1) (some "Rejected")).1.code
      = StatusOK ∧
    (changeJobApplicationStatus offeredServer "e@c" (some 1) (some "Rejected")).2.store.statusOf 1
      = some "Rejected" ∧
    specEdge "Offered" "Rejected" = false := by
  decide

/-! ## The employer's read and the CV route -/

/-- What `getJobApplicationForEmployer` does for an employer of the owning company on
an application the store reports as `Applied`, when no store call fails: the status is
written as `Seen`; the response is 200 with status `Seen` when the CV route of the
application is not yet registered, and the recovered panic (500) when it is. -/
theorem getJobApplicationForEmployer_applied (s : Server) (email : String)
    (rawID : Option Int) (id : Int) (authEmployer : Employer)
    (jobApplication : GetJobApplicationForEmployerRow)
    (hid : bindID rawID = some id)
    (hf : ∀ op, s.fails op = false)
    (he : s.store.GetEmployerByEmail email = .ok authEmployer)
    (ha : s.store.GetJobApplicationForEmployer id = .ok jobApplication)
    (hc : s.store.GetCompanyIDOfJob jobApplication.JobID = .ok authEmployer.CompanyID)
    (hst : jobApplication.ApplicationStatus = ApplicationStatusApplied) :
    (getJobApplicationForEmployer s email rawID).2.store
      = s.store.UpdateJobApplicationStatus
          { ID := jobApplication.ApplicationID, Status := ApplicationStatusSeen } ∧
    (s.registered (cvURL jobApplication.ApplicationID) = false →
      (getJobApplicationForEmployer s email rawID).1
        = ⟨StatusOK, .forEmployer
            { ApplicationID := jobApplication.ApplicationID,
              JobTitle := jobApplication.JobTitle, JobID := jobApplication.JobID,
              ApplicationStatus := ApplicationStatusSeen,
              ApplicationDate := jobApplication.ApplicationDate,
              ApplicationMessage := jobApplication.ApplicationMessage.getD "",
              UserID := jobApplication.UserID, UserEmail := jobApplication.UserEmail,
              UserFullName := jobApplication.UserFullName,
              UserLocation := jobApplication.UserLocation,
              CvLink := cvLink s (cvURL jobApplication.ApplicationID) }⟩) ∧
    (s.registered (cvURL jobApplication.ApplicationID) = true →
      (getJobApplicationForEmployer s email rawID).1 = recovered) := by
  refine ⟨?_, ?_, ?_⟩
  · cases hr : s.registered (cvURL jobApplication.ApplicationID) <;>
      simp [getJobApplicationForEmployer, hid, Server.query, hf, he, ha, hc, hst, hr]
  · intro hr
    cases hm : jobApplication.ApplicationMessage <;>
      simp [getJobApplicationForEmployer, hid, Server.query, hf, he, ha, hc, hst, hr, hm,
        cvLink]
  · intro hr
    simp [getJobApplicationForEmployer, hid, Server.query, hf, he, ha, hc, hst, hr]

/-- What `getJobApplicationForEmployer` does for an employer of the owning company on
an application whose stored status is not `Applied`, when no store call fails: three
reads and no write, the store is as before; the response is 200 with the stored status
when the CV route of the application is not yet registered, and the recovered panic
(500) when it is. -/
theorem getJobApplicationForEmployer_not_applied (s : Server) (email : String)
    (rawID : Option Int) (id : Int) (authEmployer : Employer)
    (jobApplication : GetJobApplicationForEmployerRow)
    (hid : bindID rawID = some id)
    (hf : ∀ op, s.fails op = false)
    (he : s.store.GetEmployerByEmail email = .ok authEmployer)
    (ha : s.store.GetJobApplicationForEmployer id = .ok jobApplication)
    (hc : s.store.GetCompanyIDOfJob jobApplication.JobID = .ok authEmployer.CompanyID)
    (hst : jobApplication.ApplicationStatus ≠ ApplicationStatusApplied) :
    (getJobApplicationForEmployer s email rawID).2.store = s.store ∧
    (getJobApplicationForEmployer s email rawID).2.log
      = s.log ++ [.GetEmployerByEmail, .GetJobApplicationForEmployer, .GetCompanyIDOfJob] ∧
    (s.registered (cvURL jobApplication.ApplicationID) = false →
      (getJobApplicationForEmployer s email rawID).1
        = ⟨StatusOK, .forEmployer
            { ApplicationID := jobApplication.ApplicationID,
              JobTitle := jobApplication.JobTitle, JobID := jobApplication.JobID,
              ApplicationStatus := jobApplication.ApplicationStatus,
              ApplicationDate := jobApplication.ApplicationDate,
              ApplicationMessage := jobApplication.ApplicationMessage.getD "",
              UserID := jobApplication.UserID, UserEmail := jobApplication.UserEmail,
              UserFullName := jobApplication.UserFullName,
              UserLocation := jobApplication.UserLocation,
              CvLink := cvLink s (cvURL jobApplication.ApplicationID) }⟩) ∧
    (s.registered (cvURL jobApplication.ApplicationID) = true →
      (getJobApplicationForEmployer s email rawID).1 = recovered) := by
  refine ⟨?_, ?_, ?_, ?_⟩
  · cases hr : s.registered (cvURL jobApplication.ApplicationID) <;>
      simp [getJobApplicationForEmployer, hid, Server.query, hf, he, ha, hc, hst, hr]
  · cases hr : s.registered (cvURL jobApplication.ApplicationID) <;>
      simp [getJobApplicationForEmployer, hid, Server.query, hf, he, ha, hc, hst, hr]
  · intro hr
    cases hm : jobApplication.ApplicationMessage <;>
      simp [getJobApplicationForEmployer, hid, Server.query, hf, he, ha, hc, hst, hr, hm,
        cvLink]
  · intro hr
    simp [getJobApplicationForEmployer, hid, Server.query, hf, he, ha, hc, hst, hr]

/-- C1, at the failing input: the applicant fetches application 1 (200; the status stays
`Applied`), then an employer of the owning company fetches it.  The employer's call
writes `Seen` to the store but answers with the recovered panic, 500, not with 200:
the CV route it registers was registered by the applicant's call. -/
theorem getJobApplicationForEmployer_after_applicant_read :
    (getJobApplicationForUser exampleServer "u@x" (some 1)).1.code = StatusOK ∧
    viewedServer.store.statusOf 1 = some "Applied" ∧
    viewedServer.store.GetEmployerByEmail "e@c"
      = .ok { ID := 1, CompanyID := 1, Email := "e@c" } ∧
    viewedServer.store.GetCompanyIDOfJob 1 = .ok 1 ∧
    viewedServer.registered (cvURL 1) = true ∧
    (getJobApplicationForEmployer viewedServer "e@c" (some 1)).1 = recovered ∧
    (getJobApplicationForEmployer viewedServer "e@c" (some 1)).2.store.statusOf 1
      = some "Seen" := by
  decide

/-- C2, at the failing input: the employer of the owning company fetches application 1
(200, the status becomes `Seen`) and fetches it again.  The second call makes no write
and leaves the status `Seen`, but it answers with the recovered panic, 500, and so
returns no status: the CV route it registers was registered by the first call. -/
theorem getJobApplicationForEmployer_second_read :
    (getJobApplicationForEmployer exampleServer "e@c" (some 1)).1.code = StatusOK ∧
    seenServer.store.statusOf 1 = some "Seen" ∧
    seenServer.registered (cvURL 1) = true ∧
    (getJobApplicationForEmployer seenServer "e@c" (some 1)).1 = recovered ∧
    (getJobApplicationForEmployer seenServer "e@c" (some 1)).2.store = seenServer.store ∧
    (getJobApplicationForEmployer seenServer "e@c" (some 1)).2.log
      = seenServer.log ++
          [.GetEmployerByEmail, .GetJobApplicationForEmployer, .GetCompanyIDOfJob] := by
  decide

/-! ## Notifications -/

/-- `changeJobApplicationStatus` leaves the channel, the queue and the environment as
they are: it publishes nothing. -/
theorem changeJobApplicationStatus_frame (s : Server) (email : String) (rawID : Option Int)
    (new_status : Option String) :
    (changeJobApplicationStatus s email rawID new_status).2.published = s.published ∧
    (changeJobApplicationStatus s email rawID new_status).2.fails = s.fails ∧
    (changeJobApplicationStatus s email rawID new_status).2.queueName = s.queueName := by
  simp only [changeJobApplicationStatus]
  repeat' split
  all_goals exact ⟨rfl, rfl, rfl⟩

/-- C5, counterexample: application 1 has its notification flag enabled, and a successful
`changeJobApplicationStatus` to `Offered` by the employer of the owning company
publishes no message. -/
theorem changeJobApplicationStatus_publishes_nothing :
    (exampleServer.store.GetJobApplicationForUser 1).map (fun a => a.Notification)
      = .ok true ∧
    (changeJobApplicationStatus exampleServer "e@c" (some 1) (some "Offered")).1
      = ⟨StatusOK, .statusChanged
          { ApplicationID := 1, Status := "Offered",
            Message := "Status updated successfully" }⟩ ∧
    (changeJobApplicationStatus exampleServer "e@c" (some 1) (some "Offered")).2.published
      = [] := by
  decide

/-- C5, as the code has it: `changeJobApplicationStatus` publishes nothing, whatever the
notification flag.  The message goes out with a separate `notifyJobApplication` request:
sent after the status change with the application's ID and the status `st`, and with the
user lookup and the publish succeeding, it answers 200 and publishes exactly one message
to the queue, carrying `st`, the job's title, the applicant's telegram id and the
company's name, when the flag is enabled, and none when it is disabled. -/
theorem notification_after_status_change (s : Server) (email : String) (rawID : Option Int)
    (new_status : Option String) (st : ApplicationStatus) (appID : Int)
    (application : GetJobApplicationForUserRow) (user : User)
    (hf : ∀ op, s.fails op = false)
    (hst : bindNewStatus new_status = some st)
    (hbind : bindNotify (some ⟨appID, st⟩) = some ⟨appID, st⟩)
    (happ : (changeJobApplicationStatus s email rawID new_status).2.store.GetJobApplicationForUser
      (wrap32 appID) = .ok application)
    (huser : (changeJobApplicationStatus s email rawID new_status).2.store.GetUserByID
      application.UserID = .ok user) :
    (changeJobApplicationStatus s email rawID new_status).2.published = s.published ∧
    (notifyJobApplication (changeJobApplicationStatus s email rawID new_status).2
        (some ⟨appID, st⟩)).1
      = ⟨StatusOK, .notification { Message := "Notification sent successfully" }⟩ ∧
    (notifyJobApplication (changeJobApplicationStatus s email rawID new_status).2
        (some ⟨appID, st⟩)).2.published
      = s.published ++
          (if application.Notification then
            [{ exchange := "", routingKey := s.queueName, ContentType := "application/json",
               Body := [("status", st), ("job_title", application.JobTitle),
                 ("telegram_id", user.TelegramID),
                 ("company_name", application.CompanyName)] }]
          else []) := by
  have _ := hst
  obtain ⟨hp, hfl, hq⟩ := changeJobApplicationStatus_frame s email rawID new_status
  generalize (changeJobApplicationStatus s email rawID new_status).2 = s' at *
  have hf' : ∀ op, s'.fails op = false := fun op => by rw [hfl]; exact hf op
  refine ⟨hp, ?_, ?_⟩
  · cases hn : application.Notification <;>
      simp [notifyJobApplication, hbind, Server.query, Server.exec, hf', happ, huser, hn]
  · cases hn : application.Notification <;>
      simp [notifyJobApplication, hbind, Server.query, Server.exec, hf', happ, huser, hn, hp,
        hq, notificationMessage.marshal, Server.Publish]

theorem notification_after_status_change_witness :
    (bindNewStatus (some "Offered") = some "Offered" ∧
      bindNotify (some ⟨1, "Offered"⟩) = some ⟨1, "Offered"⟩) ∧
    (changeJobApplicationStatus exampleServer "e@c" (some 1) (some "Offered")).2.published
      = exampleServer.published ∧
    (notifyJobApplication
        (changeJobApplicationStatus exampleServer "e@c" (some 1) (some "Offered")).2
        (some ⟨1, "Offered"⟩)).1
      = ⟨StatusOK, .notification { Message := "Notification sent successfully" }⟩ ∧
    (notifyJobApplication
        (changeJobApplicationStatus exampleServer "e@c" (some 1) (some "Offered")).2
        (some ⟨1, "Offered"⟩)).2.published
      = exampleServer.published ++
          (if (true : Bool) then
            [{ exchange := "", routingKey := exampleServer.queueName,
               ContentType := "application/json",
               Body := [("status", "Offered"), ("job_title", "J"), ("telegram_id", "tg1"),
                 ("company_name", "C")] }]
          else []) :=
  ⟨⟨by decide, by decide⟩,
    notification_after_status_change exampleServer "e@c" (some 1) (some "Offered") "Offered" 1
      { ApplicationID := 1, JobID := 1, JobTitle := "J", CompanyName := "C",
        ApplicationStatus := "Offered", ApplicationDate := 10,
        ApplicationMessage := some "Interested", UserCv := [1, 2], UserID := 1,
        Notification := true }
      { ID := 1, Email := "u@x", FullName := "U", Location := "L", TelegramID := "tg1" }
      (fun _ => rfl) (by decide) (by decide) (by decide) (by decide)⟩

/-! ## Content update and creation -/

/-- What `updateJobApplication` stores for an application held as `Applied` and its
owning user, with no store call failing and the form well-formed (`cvData` is the file
sent when `cv_provided` is set, and empty when it is not): it answers 200, the message
is replaced exactly when a non-empty message was sent, and the stored CV becomes
`cvData`, the empty CV included; status, applied-at, user, job and notification flag are
those of the prior row, and every other application is as before. -/
theorem updateJobApplication_stored_row (s : Server) (req : updateJobApplicationRequest)
    (id : Int) (authUser : User) (a : JobApplication) (cvData : List Nat)
    (hid : bindID req.ID = some id)
    (hf : ∀ op, s.fails op = false)
    (hu : s.store.GetUserByEmail req.Email = .ok authUser)
    (ha : s.store.jobApplications.find? (fun a => a.ID == id) = some a)
    (howner : a.UserID = authUser.ID)
    (hst : a.Status = ApplicationStatusApplied)
    (hcv : (req.cv_provided = "true" ∨ req.cv_provided = "1") → req.cv = .file cvData)
    (hno : ¬ (req.cv_provided = "true" ∨ req.cv_provided = "1") → cvData = []) :
    (updateJobApplication s req).1.code = StatusOK ∧
    (updateJobApplication s req).2.store.jobApplications.find? (fun a => a.ID == id)
      = some { a with
          Message := if req.message = "" then a.Message else some req.message,
          Cv := cvData } ∧
    ∀ id', id' ≠ id →
      (updateJobApplication s req).2.store.jobApplications.find? (fun a => a.ID == id')
        = s.store.jobApplications.find? (fun a => a.ID == id') := by
  have hrow : s.store.GetJobApplicationUserIDAndStatus id
      = .ok { UserID := a.UserID, Status := a.Status } := by
    simp [DB.GetJobApplicationUserIDAndStatus, ha, one]
  have haid : a.ID = id := find?_ID ha
  obtain ⟨params, hparams⟩ : ∃ p : UpdateJobApplicationParams, p =
      { ID := id,
        Message := if req.message ≠ "" then some req.message else none,
        Cv := if cvData.length > 0 then some cvData else none } := ⟨_, rfl⟩
  have key : updateJobApplication s req
      = ((⟨StatusOK, .jobApplication (newJobApplicationResponse (a.coalesce params))⟩ :
          Response),
        (((s.call .GetUserByEmail).call .GetJobApplicationUserIDAndStatus).call
          .UpdateJobApplication).setStore
          { s.store with
            jobApplications := s.store.jobApplications.map (fun b =>
              if b.ID == id then b.coalesce params else b) }) := by
    by_cases hp : req.cv_provided = "true" ∨ req.cv_provided = "1"
    · simp [updateJobApplication, hid, Server.query, hf, hu, hrow, howner, hst, hp, hcv hp,
        DB.UpdateJobApplication, ha, hparams]
    · have hnil := hno hp
      subst hnil
      simp [updateJobApplication, hid, Server.query, hf, hu, hrow, howner, hst, hp,
        DB.UpdateJobApplication, ha, hparams]
  rw [key]
  refine ⟨rfl, ?_, ?_⟩
  · simp only [setStore_store]
    rw [find?_map_keepID _ (by intro b; split <;> rfl), ha]
    subst hparams
    by_cases hm : req.message = "" <;> cases cvData <;>
      simp [JobApplication.coalesce, hm, haid]
  · intro id' hne
    simp only [setStore_store]
    rw [find?_map_keepID _ (by intro b; split <;> rfl)]
    cases hb : s.store.jobApplications.find? (fun a => a.ID == id') with
    | none => rfl
    | some b =>
      have : b.ID = id' := find?_ID hb
      have hb' : ¬ b.ID = id := fun h => hne (this.symm.trans h)
      simp [hb']

/-- C7, at the failing input: application 1 is `Applied` and holds the CV `[1, 2]`; its
owner sends `updateJobApplication` with a new message and no CV (`cv_provided` unset, no
file).  The handler answers 200 and the message is replaced, but the stored CV is now
empty: the nil `Cv` of the parameters is written over it. -/
theorem updateJobApplication_message_only_clears_cv :
    exampleServer.store.jobApplications.find? (fun a => a.ID == 1)
      = some { ID := 1, UserID := 1, JobID := 1, Message := some "Interested", Cv := [1, 2],
               Status := "Applied", AppliedAt := 10, Notification := true } ∧
    (updateJobApplication exampleServer ⟨"u@x", some 1, "", .missing, "new"⟩).1
      = ⟨StatusOK, .jobApplication
          { ID := 1, JobID := 1, Message := "new", Status := "Applied", AppliedAt := 10 }⟩ ∧
    (updateJobApplication exampleServer ⟨"u@x", some 1, "", .missing, "new"⟩).2.store.jobApplications.find?
        (fun a => a.ID == 1)
      = some { ID := 1, UserID := 1, JobID := 1, Message := some "new", Cv := [],
               Status := "Applied", AppliedAt := 10, Notification := true } := by
  decide

/-- C8, counterexample: user 1 has applied for job 1; a second `createJobApplication` by
that user for that job answers 403 (Forbidden), not 409 (Conflict). -/
theorem createJobApplication_duplicate_is_forbidden :
    exampleServer.store.jobApplications.any (fun a => a.UserID == 1 && a.JobID == 1) = true ∧
    (createJobApplication exampleServer ⟨"u@x", .file [3], "again", "1"⟩).1
      = errorResponse StatusForbidden (.alreadyApplied 1) ∧
    (createJobApplication exampleServer ⟨"u@x", .file [3], "again", "1"⟩).1.code
      ≠ StatusConflict := by
  decide

/-- C8, as the code has it: when the store already holds an application of the user for
the job, a `createJobApplication` by that user for that job (the insert reporting a
unique violation) answers 403, Forbidden, never a success, and the store is as before,
so the rows of the pair are the ones it held. -/
theorem createJobApplication_duplicate (s : Server) (req : createJobApplicationRequest)
    (authUser : User) (cvData : List Nat) (jobID : Int)
    (hf₁ : s.fails .GetUserByEmail = false)
    (hf₂ : s.fails .CreateJobApplicationTx = false)
    (hu : s.store.GetUserByEmail req.Email = .ok authUser)
    (hcv : req.cv = .file cvData)
    (hjob : Atoi req.job_id = some jobID) (hpos : 0 < jobID)
    (hdup : s.store.jobApplications.any
      (fun a => a.UserID == authUser.ID && a.JobID == wrap32 jobID) = true) :
    (createJobApplication s req).1
      = errorResponse StatusForbidden (.alreadyApplied authUser.ID) ∧
    (createJobApplication s req).2.store = s.store ∧
    (createJobApplication s req).2.log = s.log ++ [.GetUserByEmail, .CreateJobApplicationTx] := by
  have hle : ¬ jobID ≤ 0 := not_le.mpr hpos
  have hins : s.store.CreateJobApplicationTx
      { UserID := authUser.ID, JobID := wrap32 jobID,
        Message := if req.message.length > 0 then some req.message else none, Cv := cvData }
      = .error .uniqueViolation := by
    unfold DB.CreateJobApplicationTx DB.CreateJobApplication
    rw [if_pos hdup]
  simp [createJobApplication, Server.query, hf₁, hf₂, hu, hcv, hjob, hle, hins]

theorem createJobApplication_duplicate_witness :
    (Atoi "1" = some 1 ∧
      exampleServer.store.jobApplications.any (fun a => a.UserID == 1 && a.JobID == wrap32 1)
        = true) ∧
    (createJobApplication exampleServer ⟨"u@x", .file [3], "again", "1"⟩).1
      = errorResponse StatusForbidden (.alreadyApplied 1) ∧
    (createJobApplication exampleServer ⟨"u@x", .file [3], "again", "1"⟩).2.store
      = exampleDB :=
  have h := createJobApplication_duplicate exampleServer ⟨"u@x", .file [3], "again", "1"⟩
    { ID := 1, Email := "u@x", FullName := "U", Location := "L", TelegramID := "tg1" }
    [3] 1 rfl rfl (by decide) rfl (by decide) (by decide) (by decide)
  ⟨⟨by decide, by decide⟩, h.1, h.2.1⟩

/-! ## The notification flag -/

/-- What `changeNotifyJobApplication` does with a request that binds, when the store
call does not fail: it answers 200 and writes the flag, for every caller (the handler
never reads the authenticated principal) and every ID. -/
theorem changeNotifyJobApplication_ok (s : Server) (req : changeNotifyJobApplicationRequest)
    (hid : inInt32 req.ID = true) (hf : s.fails .UpdateJobApplicationNote = false) :
    changeNotifyJobApplication s (some req)
      = (⟨StatusOK, .notification { Message := "Notification update successfully" }⟩,
          (s.call .UpdateJobApplicationNote).setStore
            (s.store.UpdateJobApplicationNote
              { ID := req.ID, Notification := req.Notification })) := by
  simp [changeNotifyJobApplication, hid, Server.query, hf]

/-- C11, at the failing input: application 1 belongs to user 1 and has its notification
flag enabled.  A `changeNotifyJobApplication` request for it is answered 200 and clears
the flag without any lookup of the caller: the handler takes the request body only, so
the outcome is the same for a caller who is not the owner. -/
theorem changeNotifyJobApplication_by_non_owner :
    (exampleServer.store.jobApplications.find? (fun a => a.ID == 1)).map
        (fun a => (a.UserID, a.Notification)) = some (1, true) ∧
    (changeNotifyJobApplication exampleServer (some { ID := 1, Notification := false })).1
      = ⟨StatusOK, .notification { Message := "Notification update successfully" }⟩ ∧
    (changeNotifyJobApplication exampleServer (some { ID := 1, Notification := false })).2.log
      = [.UpdateJobApplicationNote] ∧
    ((changeNotifyJobApplication exampleServer
        (some { ID := 1, Notification := false })).2.store.jobApplications.find?
          (fun a => a.ID == 1)).map (fun a => a.Notification) = some false := by
  decide

/-- C12, at the failing input: no application has ID 999, and `changeNotifyJobApplication`
for ID 999 answers 200, not 404: the update touches no row and reports no error. -/
theorem changeNotifyJobApplication_unknown_id :
    exampleServer.store.jobApplications.find? (fun a => a.ID == 999) = none ∧
    (changeNotifyJobApplication exampleServer (some { ID := 999, Notification := true })).1
      = ⟨StatusOK, .notification { Message := "Notification update successfully" }⟩ ∧
    (changeNotifyJobApplication exampleServer (some { ID := 999, Notification := true })).1.code
      ≠ StatusNotFound ∧
    (changeNotifyJobApplication exampleServer (some { ID := 999, Notification := true })).2.store
      = exampleDB := by
  decide

/-! ## Ownership -/

/-- After `DELETE ... WHERE id = $1` no row has the ID. -/
theorem find?_DeleteJobApplication (d : DB) (id : Int) :
    (d.DeleteJobApplication id).jobApplications.find? (fun a => a.ID == id) = none := by
  unfold DB.DeleteJobApplication
  simp only [List.find?_eq_none, List.mem_filter]
  rintro a ⟨-, ha⟩
  simpa using ha

/-- The three lookups by application ID, in terms of the row with that ID. -/
theorem lookups_of_find? (d : DB) (id : Int) (a : JobApplication)
    (ha : d.jobApplications.find? (fun a => a.ID == id) = some a) :
    d.GetJobApplicationUserID id = .ok a.UserID ∧
    d.GetJobApplicationUserIDAndStatus id = .ok { UserID := a.UserID, Status := a.Status } ∧
    d.GetJobIDOfJobApplication id = .ok a.JobID := by
  simp [DB.GetJobApplicationUserID, DB.GetJobApplicationUserIDAndStatus,
    DB.GetJobIDOfJobApplication, ha, one]

/-- C13: whatever the status of the application, `deleteJobApplication` by its owning
user, with no store call failing, answers 204 with no body and deletes the row: the
applications left are exactly the others, unchanged; and a `getJobApplicationForUser` for
the same ID by the same user afterwards answers 404. -/
theorem deleteJobApplication_by_owner (s : Server) (email : String) (rawID : Option Int)
    (id : Int) (authUser : User) (a : JobApplication)
    (hid : bindID rawID = some id)
    (hf : ∀ op, s.fails op = false)
    (hu : s.store.GetUserByEmail email = .ok authUser)
    (ha : s.store.jobApplications.find? (fun a => a.ID == id) = some a)
    (howner : a.UserID = authUser.ID) :
    (deleteJobApplication s email rawID).1 = ⟨StatusNoContent, .empty⟩ ∧
    (deleteJobApplication s email rawID).2.store.jobApplications
      = s.store.jobApplications.filter (fun b => !(b.ID == id)) ∧
    (∀ b, b ∈ (deleteJobApplication s email rawID).2.store.jobApplications ↔
      b ∈ s.store.jobApplications ∧ b.ID ≠ id) ∧
    (getJobApplicationForUser (deleteJobApplication s email rawID).2 email rawID).1
      = errorResponse StatusNotFound (.jobApplicationDoesNotExistError id) := by
  have key : deleteJobApplication s email rawID
      = (⟨StatusNoContent, .empty⟩,
          (((s.call .GetUserByEmail).call .GetJobApplicationUserID).call
            .DeleteJobApplication).setStore (s.store.DeleteJobApplication id)) := by
    simp [deleteJobApplication, hid, Server.query, hf, hu, (lookups_of_find? _ _ _ ha).1,
      howner]
  rw [key]
  refine ⟨rfl, rfl, ?_, ?_⟩
  · intro b
    simp [DB.DeleteJobApplication]
  · have hu' : (s.store.DeleteJobApplication id).GetUserByEmail email = .ok authUser := hu
    have hnone : (s.store.DeleteJobApplication id).GetJobApplicationForUser id
        = .error .ErrNoRows := by
      simp [DB.GetJobApplicationForUser, find?_DeleteJobApplication, one]
    simp [getJobApplicationForUser, hid, Server.query, hf, hu', hnone]

theorem deleteJobApplication_by_owner_witness :
    (offeredServer.store.jobApplications.find? (fun a => a.ID == 1)).map
        (fun a => (a.UserID, a.Status)) = some (1, "Offered") ∧
    (deleteJobApplication offeredServer "u@x" (some 1)).1 = ⟨StatusNoContent, .empty⟩ ∧
    (deleteJobApplication offeredServer "u@x" (some 1)).2.store.jobApplications = [] ∧
    (getJobApplicationForUser (deleteJobApplication offeredServer "u@x" (some 1)).2 "u@x"
        (some 1)).1
      = errorResponse StatusNotFound (.jobApplicationDoesNotExistError 1) :=
  have h := deleteJobApplication_by_owner offeredServer "u@x" (some 1) 1
    { ID := 1, Email := "u@x", FullName := "U", Location := "L", TelegramID := "tg1" }
    { ID := 1, UserID := 1, JobID := 1, Message := some "Interested", Cv := [1, 2],
      Status := "Offered", AppliedAt := 10, Notification := true }
    (by decide) (fun _ => rfl) (by decide) (by decide) (by decide)
  ⟨by decide, h.1, by decide, h.2.2.2⟩

/-- C14: for an application the store holds (with the job and the company it refers to)
and a user who is not its owner, no store call failing, `getJobApplicationForUser`,
`updateJobApplication` and `deleteJobApplication` each answer 403 with an error body
that carries only the caller's or the application's ID, after reads only: the store is
as before. -/
theorem non_owner_forbidden (s : Server) (email : String) (rawID : Option Int) (id : Int)
    (authUser : User) (a : JobApplication) (j : Job) (c : Company)
    (update : updateJobApplicationRequest)
    (hid : bindID rawID = some id)
    (hf : ∀ op, s.fails op = false)
    (hu : s.store.GetUserByEmail email = .ok authUser)
    (ha : s.store.jobApplications.find? (fun a => a.ID == id) = some a)
    (hj : s.store.jobs.find? (fun j => a.JobID == j.ID) = some j)
    (hc : s.store.companies.find? (fun c => j.CompanyID == c.ID) = some c)
    (hother : a.UserID ≠ authUser.ID)
    (hemail : update.Email = email) (hupdateID : update.ID = rawID) :
    getJobApplicationForUser s email rawID
      = (errorResponse StatusForbidden (.userNotApplicant authUser.ID),
          (s.call .GetUserByEmail).call .GetJobApplicationForUser) ∧
    (updateJobApplication s update).1.code = StatusForbidden ∧
    ((updateJobApplication s update).1.body = .error (.seenCannotBeUpdated id) ∨
      (updateJobApplication s update).1.body
        = .error (.userNotOwnerOfApplicationError authUser.ID)) ∧
    (updateJobApplication s update).2
      = (s.call .GetUserByEmail).call .GetJobApplicationUserIDAndStatus ∧
    deleteJobApplication s email rawID
      = (errorResponse StatusForbidden (.userNotOwnerOfApplicationError authUser.ID),
          (s.call .GetUserByEmail).call .GetJobApplicationUserID) ∧
    ((s.call .GetUserByEmail).call .GetJobApplicationForUser).store = s.store ∧
    ((s.call .GetUserByEmail).call .GetJobApplicationUserIDAndStatus).store = s.store ∧
    ((s.call .GetUserByEmail).call .GetJobApplicationUserID).store = s.store := by
  obtain ⟨h₁, h₂, -⟩ := lookups_of_find? _ _ _ ha
  have hne : ¬ authUser.ID = a.UserID := fun h => hother h.symm
  have hrow : s.store.GetJobApplicationForUser id
      = .ok { ApplicationID := a.ID, JobID := j.ID, JobTitle := j.Title,
              CompanyName := c.Name, ApplicationStatus := a.Status,
              ApplicationDate := a.AppliedAt, ApplicationMessage := a.Message,
              UserCv := a.Cv, UserID := a.UserID, Notification := a.Notification } := by
    simp [DB.GetJobApplicationForUser, ha, hj, hc, one]
  refine ⟨?_, ?_, ?_, ?_, ?_, rfl, rfl, rfl⟩
  · simp [getJobApplicationForUser, hid, Server.query, hf, hu, hrow, hne]
  · by_cases hst : a.Status = ApplicationStatusApplied <;>
      simp [updateJobApplication, hupdateID, hemail, hid, Server.query, hf, hu, h₂, hst,
        hother, errorResponse]
  · by_cases hst : a.Status = ApplicationStatusApplied <;>
      simp [updateJobApplication, hupdateID, hemail, hid, Server.query, hf, hu, h₂, hst,
        hother, errorResponse]
  · by_cases hst : a.Status = ApplicationStatusApplied <;>
      simp [updateJobApplication, hupdateID, hemail, hid, Server.query, hf, hu, h₂, hst,
        hother]
  · simp [deleteJobApplication, hid, Server.query, hf, hu, h₁, hother]

theorem non_owner_forbidden_witness :
    (exampleServer.store.GetUserByEmail "v@x"
      = .ok { ID := 2, Email := "v@x", FullName := "V", Location := "M", TelegramID := "tg2" } ∧
      (exampleServer.store.jobApplications.find? (fun a => a.ID == 1)).map
        (fun a => a.UserID) = some 1) ∧
    getJobApplicationForUser exampleServer "v@x" (some 1)
      = (errorResponse StatusForbidden (.userNotApplicant 2),
          (exampleServer.call .GetUserByEmail).call .GetJobApplicationForUser) ∧
    (updateJobApplication exampleServer ⟨"v@x", some 1, "", .missing, "mine"⟩).1.code
      = StatusForbidden ∧
    deleteJobApplication exampleServer "v@x" (some 1)
      = (errorResponse StatusForbidden (.userNotOwnerOfApplicationError 2),
          (exampleServer.call .GetUserByEmail).call .GetJobApplicationUserID) :=
  have h := non_owner_forbidden exampleServer "v@x" (some 1) 1
    { ID := 2, Email := "v@x", FullName := "V", Location := "M", TelegramID := "tg2" }
    { ID := 1, UserID := 1, JobID := 1, Message := some "Interested", Cv := [1, 2],
      Status := "Applied", AppliedAt := 10, Notification := true }
    { ID := 1, Title := "J", CompanyID := 1 } { ID := 1, Name := "C" }
    ⟨"v@x", some 1, "", .missing, "mine"⟩
    (by decide) (fun _ => rfl) (by decide) (by decide) (by decide) (by decide) (by decide)
    rfl rfl
  ⟨⟨by decide, by decide⟩, h.1, h.2.1, h.2.2.2.2.1⟩

/-- C15: for an application the store holds, a valid target status and a resolved
employer, no store call failing: when the company the store reports for the
application's job is not the employer's, `changeJobApplicationStatus` answers 403 and
the store is as before; when it is the employer's, the handler answers 200 with the
application ID and the requested status, and the stored status is the requested one. -/
theorem changeJobApplicationStatus_by_company (s : Server) (email : String)
    (rawID : Option Int) (id : Int) (new_status : Option String) (st : ApplicationStatus)
    (authEmployer : Employer) (a : JobApplication) (companyID : Int)
    (hid : bindID rawID = some id)
    (hst : bindNewStatus new_status = some st)
    (hf : ∀ op, s.fails op = false)
    (he : s.store.GetEmployerByEmail email = .ok authEmployer)
    (ha : s.store.jobApplications.find? (fun a => a.ID == id) = some a)
    (hc : s.store.GetCompanyIDOfJob a.JobID = .ok companyID) :
    (companyID ≠ authEmployer.CompanyID →
      (changeJobApplicationStatus s email rawID new_status).1
        = errorResponse StatusForbidden (.employerNotPartOfCompanyError authEmployer.ID) ∧
      (changeJobApplicationStatus s email rawID new_status).2.store = s.store) ∧
    (companyID = authEmployer.CompanyID →
      (changeJobApplicationStatus s email rawID new_status).1
        = ⟨StatusOK, .statusChanged
            { ApplicationID := id, Status := st, Message := "Status updated successfully" }⟩ ∧
      (changeJobApplicationStatus s email rawID new_status).2.store.statusOf id = some st) := by
  have hjob := (lookups_of_find? _ _ _ ha).2.2
  refine ⟨fun hne => ?_, fun heq => ?_⟩
  · simp [changeJobApplicationStatus, hid, hst, Server.query, hf, he, hjob, hc, hne]
  · have key : changeJobApplicationStatus s email rawID new_status
        = (⟨StatusOK, .statusChanged
            { ApplicationID := id, Status := st, Message := "Status updated successfully" }⟩,
          ((((s.call .GetEmployerByEmail).call .GetJobIDOfJobApplication).call
            .GetCompanyIDOfJob).call .UpdateJobApplicationStatus).setStore
            (s.store.UpdateJobApplicationStatus { ID := id, Status := st })) := by
      simp [changeJobApplicationStatus, hid, hst, Server.query, hf, he, hjob, hc, heq]
    rw [key]
    refine ⟨rfl, ?_⟩
    rw [setStore_store, statusOf_UpdateJobApplicationStatus]
    simp [DB.statusOf, ha]

theorem changeJobApplicationStatus_by_company_witness :
    (exampleServer.store.GetEmployerByEmail "e@c"
        = .ok { ID := 1, CompanyID := 1, Email := "e@c" } ∧
      exampleServer.store.GetEmployerByEmail "f@d"
        = .ok { ID := 2, CompanyID := 2, Email := "f@d" } ∧
      exampleServer.store.GetCompanyIDOfJob 1 = .ok 1) ∧
    ((changeJobApplicationStatus exampleServer "f@d" (some 1) (some "Rejected")).1
        = errorResponse StatusForbidden (.employerNotPartOfCompanyError 2) ∧
      (changeJobApplicationStatus exampleServer "f@d" (some 1) (some "Rejected")).2.store
        = exampleDB) ∧
    ((changeJobApplicationStatus exampleServer "e@c" (some 1) (some "Rejected")).1
        = ⟨StatusOK, .statusChanged
            { ApplicationID := 1, Status := "Rejected",
              Message := "Status updated successfully" }⟩ ∧
      (changeJobApplicationStatus exampleServer "e@c" (some 1)
        (some "Rejected")).2.store.statusOf 1 = some "Rejected") :=
  ⟨⟨by decide, by decide, by decide⟩,
    (changeJobApplicationStatus_by_company exampleServer "f@d" (some 1) 1 (some "Rejected")
      "Rejected" { ID := 2, CompanyID := 2, Email := "f@d" }
      { ID := 1, UserID := 1, JobID := 1, Message := some "Interested", Cv := [1, 2],
        Status := "Applied", AppliedAt := 10, Notification := true } 1
      (by decide) (by decide) (fun _ => rfl) (by decide) (by decide) (by decide)).1
      (by decide),
    (changeJobApplicationStatus_by_company exampleServer "e@c" (some 1) 1 (some "Rejected")
      "Rejected" { ID := 1, CompanyID := 1, Email := "e@c" }
      { ID := 1, UserID := 1, JobID := 1, Message := some "Interested", Cv := [1, 2],
        Status := "Applied", AppliedAt := 10, Notification := true } 1
      (by decide) (by decide) (fun _ => rfl) (by decide) (by decide) (by decide)).2
      (by decide)⟩

/-! ## Missing applications and failing store calls -/

@[simp] theorem query_eq_ErrNoRows {α : Type} (s : Server) (op : StoreOp)
    (r : Except DBError α) :
    s.query op r = .error .ErrNoRows ↔ s.fails op = false ∧ r = .error .ErrNoRows := by
  unfold Server.query
  cases s.fails op <;> simp

/-- The store calls a handler made: what its run added to the trace. -/
theorem calls_made (l : List StoreOp) (ops : List StoreOp) :
    (l ++ ops).drop l.length = ops := by
  simp

theorem getJobApplicationForUser_failure (t : Server) (email : String) (rawID : Option Int)
    (op : StoreOp) (hop : t.fails op = true)
    (hmem : op ∈ (getJobApplicationForUser t email rawID).2.log.drop t.log.length) :
    (getJobApplicationForUser t email rawID).1.code = StatusInternalServerError := by
  revert hmem
  simp only [getJobApplicationForUser]
  repeat' split
  all_goals simp_all [errorResponse, recovered]
  all_goals (repeat' apply And.intro)
  all_goals (rintro rfl; simp_all)

theorem getJobApplicationForEmployer_failure (t : Server) (email : String)
    (rawID : Option Int) (op : StoreOp) (hop : t.fails op = true)
    (hmem : op ∈ (getJobApplicationForEmployer t email rawID).2.log.drop t.log.length) :
    (getJobApplicationForEmployer t email rawID).1.code = StatusInternalServerError := by
  revert hmem
  simp only [getJobApplicationForEmployer]
  repeat' split
  all_goals intro hmem
  all_goals first
    | rfl
    | (exfalso
       simp at hmem <;> (try casesm* _ ∨ _) <;> subst_vars <;> simp_all)

theorem changeJobApplicationStatus_failure (t : Server) (email : String)
    (rawID : Option Int) (new_status : Option String) (op : StoreOp)
    (hop : t.fails op = true)
    (hmem : op ∈ (changeJobApplicationStatus t email rawID new_status).2.log.drop
      t.log.length) :
    (changeJobApplicationStatus t email rawID new_status).1.code
      = StatusInternalServerError := by
  revert hmem
  simp only [changeJobApplicationStatus]
  repeat' split
  all_goals intro hmem
  all_goals first
    | rfl
    | (exfalso
       simp at hmem <;> (try casesm* _ ∨ _) <;> subst_vars <;> simp_all)

theorem updateJobApplication_failure (t : Server) (req : updateJobApplicationRequest)
    (op : StoreOp) (hop : t.fails op = true)
    (hmem : op ∈ (updateJobApplication t req).2.log.drop t.log.length) :
    (updateJobApplication t req).1.code = StatusInternalServerError := by
  revert hmem
  simp only [updateJobApplication]
  repeat' split
  all_goals intro hmem
  all_goals first
    | rfl
    | (exfalso
       simp at hmem <;> (try casesm* _ ∨ _) <;> subst_vars <;> simp_all)

theorem deleteJobApplication_failure (t : Server) (email : String) (rawID : Option Int)
    (op : StoreOp) (hop : t.fails op = true)
    (hmem : op ∈ (deleteJobApplication t email rawID).2.log.drop t.log.length) :
    (deleteJobApplication t email rawID).1.code = StatusInternalServerError := by
  revert hmem
  simp only [deleteJobApplication]
  repeat' split
  all_goals intro hmem
  all_goals first
    | rfl
    | (exfalso
       simp at hmem <;> (try casesm* _ ∨ _) <;> subst_vars <;> simp_all)

/-- C16: when no application has the (well-formed) ID, each of
`getJobApplicationForUser`, `getJobApplicationForEmployer`, `changeJobApplicationStatus`,
`updateJobApplication` and `deleteJobApplication` answers 404 for every caller that
resolves to the handler's own role (a user for the user handlers, an employer for the
employer handlers), its two lookups not failing; it has made two reads and the store is
as before.  And on any server `t`, whenever one of the store calls such a handler makes
is one that fails, the handler answers 500. -/
theorem missing_application_not_found (s : Server) (rawID : Option Int) (id : Int)
    (hid : bindID rawID = some id)
    (hnone : s.store.jobApplications.find? (fun a => a.ID == id) = none) :
    (∀ (email : String) (authUser : User),
      s.fails .GetUserByEmail = false → s.fails .GetJobApplicationForUser = false →
      s.store.GetUserByEmail email = .ok authUser →
      getJobApplicationForUser s email rawID
        = (errorResponse StatusNotFound (.jobApplicationDoesNotExistError id),
            (s.call .GetUserByEmail).call .GetJobApplicationForUser)) ∧
    (∀ (email : String) (authEmployer : Employer),
      s.fails .GetEmployerByEmail = false → s.fails .GetJobApplicationForEmployer = false →
      s.store.GetEmployerByEmail email = .ok authEmployer →
      getJobApplicationForEmployer s email rawID
        = (errorResponse StatusNotFound (.jobApplicationDoesNotExistError id),
            (s.call .GetEmployerByEmail).call .GetJobApplicationForEmployer)) ∧
    (∀ (email : String) (authEmployer : Employer) (new_status : Option String)
        (st : ApplicationStatus),
      s.fails .GetEmployerByEmail = false → s.fails .GetJobIDOfJobApplication = false →
      s.store.GetEmployerByEmail email = .ok authEmployer →
      bindNewStatus new_status = some st →
      changeJobApplicationStatus s email rawID new_status
        = (errorResponse StatusNotFound (.jobApplicationDoesNotExistError id),
            (s.call .GetEmployerByEmail).call .GetJobIDOfJobApplication)) ∧
    (∀ (update : updateJobApplicationRequest) (authUser : User),
      s.fails .GetUserByEmail = false → s.fails .GetJobApplicationUserIDAndStatus = false →
      s.store.GetUserByEmail update.Email = .ok authUser →
      update.ID = rawID →
      updateJobApplication s update
        = (errorResponse StatusNotFound (.jobApplicationDoesNotExistError id),
            (s.call .GetUserByEmail).call .GetJobApplicationUserIDAndStatus)) ∧
    (∀ (email : String) (authUser : User),
      s.fails .GetUserByEmail = false → s.fails .GetJobApplicationUserID = false →
      s.store.GetUserByEmail email = .ok authUser →
      deleteJobApplication s email rawID
        = (errorResponse StatusNotFound (.jobApplicationDoesNotExistError id),
            (s.call .GetUserByEmail).call .GetJobApplicationUserID)) ∧
    (∀ r ∈ [StoreOp.GetUserByEmail, .GetEmployerByEmail, .GetJobApplicationForUser,
        .GetJobApplicationForEmployer, .GetJobIDOfJobApplication,
        .GetJobApplicationUserIDAndStatus, .GetJobApplicationUserID],
      r.isWrite = false ∧ ((s.call .GetUserByEmail).call r).store = s.store ∧
        ((s.call .GetEmployerByEmail).call r).store = s.store) ∧
    (∀ (t : Server) (op : StoreOp), t.fails op = true →
      (∀ (email : String) (raw : Option Int),
        op ∈ (getJobApplicationForUser t email raw).2.log.drop t.log.length →
        (getJobApplicationForUser t email raw).1.code = StatusInternalServerError) ∧
      (∀ (email : String) (raw : Option Int),
        op ∈ (getJobApplicationForEmployer t email raw).2.log.drop t.log.length →
        (getJobApplicationForEmployer t email raw).1.code = StatusInternalServerError) ∧
      (∀ (email : String) (raw : Option Int) (new_status : Option String),
        op ∈ (changeJobApplicationStatus t email raw new_status).2.log.drop t.log.length →
        (changeJobApplicationStatus t email raw new_status).1.code
          = StatusInternalServerError) ∧
      (∀ (update : updateJobApplicationRequest),
        op ∈ (updateJobApplication t update).2.log.drop t.log.length →
        (updateJobApplication t update).1.code = StatusInternalServerError) ∧
      (∀ (email : String) (raw : Option Int),
        op ∈ (deleteJobApplication t email raw).2.log.drop t.log.length →
        (deleteJobApplication t email raw).1.code = StatusInternalServerError)) := by
  refine ⟨?_, ?_, ?_, ?_, ?_, ?_, ?_⟩
  · intro email authUser hf₁ hf₂ hu
    simp [getJobApplicationForUser, hid, Server.query, hf₁, hf₂, hu,
      DB.GetJobApplicationForUser, hnone, one]
  · intro email authEmployer hf₁ hf₂ he
    simp [getJobApplicationForEmployer, hid, Server.query, hf₁, hf₂, he,
      DB.GetJobApplicationForEmployer, hnone, one]
  · intro email authEmployer new_status st hf₁ hf₂ he hst
    simp [changeJobApplicationStatus, hid, hst, Server.query, hf₁, hf₂, he,
      DB.GetJobIDOfJobApplication, hnone, one]
  · intro update authUser hf₁ hf₂ hu hupdateID
    simp [updateJobApplication, hupdateID, hid, Server.query, hf₁, hf₂, hu,
      DB.GetJobApplicationUserIDAndStatus, hnone, one]
  · intro email authUser hf₁ hf₂ hu
    simp [deleteJobApplication, hid, Server.query, hf₁, hf₂, hu, DB.GetJobApplicationUserID,
      hnone, one]
  · intro r hr
    simp only [List.mem_cons, List.mem_singleton, List.not_mem_nil, or_false] at hr
    rcases hr with rfl | rfl | rfl | rfl | rfl | rfl | rfl <;> exact ⟨rfl, rfl, rfl⟩
  · intro t op hop
    exact ⟨fun _ _ => getJobApplicationForUser_failure t _ _ op hop,
      fun _ _ => getJobApplicationForEmployer_failure t _ _ op hop,
      fun _ _ _ => changeJobApplicationStatus_failure t _ _ _ op hop,
      fun _ => updateJobApplication_failure t _ op hop,
      fun _ _ => deleteJobApplication_failure t _ _ op hop⟩

theorem missing_application_not_found_witness :
    (exampleServer.store.jobApplications.find? (fun a => a.ID == 7) = none ∧
      brokenServer.fails .GetUserByEmail = true) ∧
    getJobApplicationForUser exampleServer "u@x" (some 7)
      = (errorResponse StatusNotFound (.jobApplicationDoesNotExistError 7),
          (exampleServer.call .GetUserByEmail).call .GetJobApplicationForUser) ∧
    changeJobApplicationStatus exampleServer "e@c" (some 7) (some "Offered")
      = (errorResponse StatusNotFound (.jobApplicationDoesNotExistError 7),
          (exampleServer.call .GetEmployerByEmail).call .GetJobIDOfJobApplication) ∧
    (getJobApplicationForUser brokenServer "u@x" (some 7)).1.code
      = StatusInternalServerError ∧
    (deleteJobApplication brokenServer "u@x" (some 7)).1.code = StatusInternalServerError :=
  have h := missing_application_not_found exampleServer (some 7) 7 (by decide) (by decide)
  ⟨⟨by decide, rfl⟩,
    h.1 "u@x" { ID := 1, Email := "u@x", FullName := "U", Location := "L", TelegramID := "tg1" }
      rfl rfl (by decide),
    h.2.2.1 "e@c" { ID := 1, CompanyID := 1, Email := "e@c" } (some "Offered") "Offered"
      rfl rfl (by decide) (by decide),
    (h.2.2.2.2.2.2 brokenServer .GetUserByEmail rfl).1 "u@x" (some 7) (by decide),
    (h.2.2.2.2.2.2 brokenServer .GetUserByEmail rfl).2.2.2.2 "u@x" (some 7) (by decide)⟩

/-! ## The list handlers -/

/-- What `listJobApplicationsForUser` does with a request that binds, for a caller that
resolves to a user: it passes the store `userListParams`, whose limit is `PageSize` and
whose offset is `(Page - 1) * PageSize` computed in `int32`, and answers with the rows,
or with 500 when the query fails. -/
theorem listJobApplicationsForUser_bound (s : Server) (email : String)
    (req : listJobApplicationsForUserRequest) (Page PageSize : Int) (authUser : User)
    (hpage : bindInt32 1 2147483647 req.Page = some Page)
    (hsize : bindInt32 5 15 req.PageSize = some PageSize)
    (hwords : (omitemptyOneof sortWords req.sort && omitemptyOneof statusWords req.Status)
      = true)
    (hf : s.fails .GetUserByEmail = false)
    (hu : s.store.GetUserByEmail email = .ok authUser) :
    listJobApplicationsForUser s email req
      = match s.query .ListJobApplicationsForUser (s.store.ListJobApplicationsForUser
          (userListParams authUser Page PageSize req)) with
        | .error e =>
          (errorResponse StatusInternalServerError (.store e),
            (s.call .GetUserByEmail).call .ListJobApplicationsForUser)
        | .ok rows =>
          (⟨StatusOK, .userList rows⟩,
            (s.call .GetUserByEmail).call .ListJobApplicationsForUser) := by
  unfold listJobApplicationsForUser
  rw [hpage, hsize, hwords]
  simp [Server.query, hf, hu, userListParams]

/-- What `listJobApplicationsForEmployer` does with a request that binds, for an employer
of the company that owns the job: it passes the store `employerListParams`, whose limit
is `PageSize` and whose offset is `(Page - 1) * PageSize` computed in `int32`. -/
theorem listJobApplicationsForEmployer_bound (s : Server) (email : String)
    (req : listJobApplicationsForEmployerRequest) (JobID Page PageSize : Int)
    (authEmployer : Employer)
    (hjob : bindInt32 1 2147483647 req.JobID = some JobID)
    (hpage : bindInt32 1 2147483647 req.Page = some Page)
    (hsize : bindInt32 5 15 req.PageSize = some PageSize)
    (hwords : (omitemptyOneof sortWords req.sort && omitemptyOneof statusWords req.Status)
      = true)
    (hf₁ : s.fails .GetEmployerByEmail = false) (hf₂ : s.fails .GetCompanyIDOfJob = false)
    (he : s.store.GetEmployerByEmail email = .ok authEmployer)
    (hc : s.store.GetCompanyIDOfJob JobID = .ok authEmployer.CompanyID) :
    listJobApplicationsForEmployer s email req
      = match s.query .ListJobApplicationsForEmployer
          (s.store.ListJobApplicationsForEmployer
            (employerListParams JobID Page PageSize req)) with
        | .error e =>
          (errorResponse StatusInternalServerError (.store e),
            ((s.call .GetEmployerByEmail).call .GetCompanyIDOfJob).call
              .ListJobApplicationsForEmployer)
        | .ok rows =>
          (⟨StatusOK, .employerList rows⟩,
            ((s.call .GetEmployerByEmail).call .GetCompanyIDOfJob).call
              .ListJobApplicationsForEmployer) := by
  unfold listJobApplicationsForEmployer
  rw [hjob, hpage, hsize, hwords]
  simp [Server.query, hf₁, hf₂, he, hc, employerListParams]

/-- Within `int32` the wrap-around is the identity. -/
theorem wrap32_of_inInt32 (x : Int) (h : inInt32 x = true) : wrap32 x = x := by
  simp only [inInt32, Bool.and_eq_true, decide_eq_true_eq] at h
  unfold wrap32
  omega

/-- Up to page 143165577 the offset the handlers compute is `(Page - 1) * PageSize`. -/
theorem offset_exact (Page PageSize : Int) (hp : 1 ≤ Page) (hmax : Page ≤ 143165577)
    (hlo : 5 ≤ PageSize) (hhi : PageSize ≤ 15) :
    wrap32 ((Page - 1) * PageSize) = (Page - 1) * PageSize := by
  apply wrap32_of_inInt32
  have h0 : 0 ≤ (Page - 1) * PageSize :=
    Int.mul_nonneg (by omega) (by omega)
  have h1 : (Page - 1) * PageSize ≤ 143165576 * 15 := by nlinarith
  simp only [inInt32, Bool.and_eq_true, decide_eq_true_eq]
  omega

/-- C17, at the failing input: the request `page=143165578&page_size=15` is accepted by
the binding; `(page - 1) * page_size` is 2147483655, but the offset the handlers compute
in `int32` is -2147483641, which the store refuses: both list handlers answer 500. -/
theorem list_offset_overflows :
    bindInt32 1 2147483647 (some 143165578) = some 143165578 ∧
    bindInt32 5 15 (some 15) = some 15 ∧
    (143165578 - 1) * 15 = (2147483655 : Int) ∧
    wrap32 ((143165578 - 1) * 15) = -2147483641 ∧
    (listJobApplicationsForUser exampleServer "u@x" ⟨some 143165578, some 15, "", ""⟩).1
      = errorResponse StatusInternalServerError (.store .other) ∧
    (listJobApplicationsForEmployer exampleServer "e@c"
        ⟨some 1, some 143165578, some 15, "", ""⟩).1
      = errorResponse StatusInternalServerError (.store .other) ∧
    (listJobApplicationsForUser exampleServer "u@x" ⟨some 1, some 15, "", ""⟩).1.code
      = StatusOK := by
  decide

/-! ### Ordering -/

theorem orderedBefore_asc (a b : Int) : orderedBefore true false a b = true ↔ a ≤ b := by
  unfold orderedBefore
  by_cases h : a = b
  · simp [h]
  · simp only [Bool.true_and, Bool.false_and, beq_iff_eq, h, not_false_eq_true,
      Bool.not_eq_true', decide_eq_true_eq, Bool.false_eq_true, if_false]
    simp [h]
    omega

theorem orderedBefore_desc (a b : Int) : orderedBefore false true a b = true ↔ b ≤ a := by
  unfold orderedBefore
  by_cases h : a = b
  · simp [h]
  · simp [h]
    omega

/-- Rows sorted by the `ORDER BY` of the list queries and then paged are in ascending
order of the key when only the ascending flag is set, and in descending order when only
the descending flag is set. -/
theorem paged_sorted {α : Type} (key : α → Int) (asc desc : Bool) (l : List α)
    (limit offset : Int) (rows : List α)
    (h : limitOffset limit offset
      (l.insertionSort (fun r₁ r₂ => orderedBefore asc desc (key r₁) (key r₂) = true))
      = .ok rows) :
    (asc = true → desc = false → rows.Sorted (fun a b => key a ≤ key b)) ∧
    (asc = false → desc = true → rows.Sorted (fun a b => key b ≤ key a)) := by
  unfold limitOffset at h
  split at h
  · simp at h
  · simp only [Except.ok.injEq] at h
    subst h
    constructor
    · rintro rfl rfl
      haveI : IsTotal α (fun r₁ r₂ => orderedBefore true false (key r₁) (key r₂) = true) :=
        ⟨fun a b => by simp only [orderedBefore_asc]; exact le_total _ _⟩
      haveI : IsTrans α (fun r₁ r₂ => orderedBefore true false (key r₁) (key r₂) = true) :=
        ⟨fun a b c => by simp only [orderedBefore_asc]; exact le_trans⟩
      have hs := List.sorted_insertionSort
        (fun r₁ r₂ => orderedBefore true false (key r₁) (key r₂) = true) l
      have hs' : List.Sorted (fun a b => key a ≤ key b)
          (l.insertionSort (fun r₁ r₂ => orderedBefore true false (key r₁) (key r₂) = true)) :=
        List.Pairwise.imp (fun {a b} hab => (orderedBefore_asc _ _).1 hab) hs
      exact List.Pairwise.sublist
        ((List.take_sublist _ _).trans (List.drop_sublist _ _)) hs'
    · rintro rfl rfl
      haveI : IsTotal α (fun r₁ r₂ => orderedBefore false true (key r₁) (key r₂) = true) :=
        ⟨fun a b => by simp only [orderedBefore_desc]; exact le_total _ _⟩
      haveI : IsTrans α (fun r₁ r₂ => orderedBefore false true (key r₁) (key r₂) = true) :=
        ⟨fun a b c => by simp only [orderedBefore_desc]; exact fun h₁ h₂ => le_trans h₂ h₁⟩
      have hs := List.sorted_insertionSort
        (fun r₁ r₂ => orderedBefore false true (key r₁) (key r₂) = true) l
      have hs' : List.Sorted (fun a b => key b ≤ key a)
          (l.insertionSort (fun r₁ r₂ => orderedBefore false true (key r₁) (key r₂) = true)) :=
        List.Pairwise.imp (fun {a b} hab => (orderedBefore_desc _ _).1 hab) hs
      exact List.Pairwise.sublist
        ((List.take_sublist _ _).trans (List.drop_sublist _ _)) hs'

/-- The rows a list handler answers with are the rows its query returned. -/
theorem listJobApplicationsForUser_rows (s : Server) (email : String)
    (req : listJobApplicationsForUserRequest)
    (rows : List ListJobApplicationsForUserRow)
    (h : (listJobApplicationsForUser s email req).1 = ⟨StatusOK, .userList rows⟩) :
    ∃ Page PageSize authUser,
      bindInt32 1 2147483647 req.Page = some Page ∧
      bindInt32 5 15 req.PageSize = some PageSize ∧
      s.store.GetUserByEmail email = .ok authUser ∧
      s.store.ListJobApplicationsForUser (userListParams authUser Page PageSize req)
        = .ok rows := by
  revert h
  simp only [listJobApplicationsForUser]
  repeat' split
  all_goals intro h
  all_goals first
    | (simp [errorResponse] at h; done)
    | skip
  simp only [Response.mk.injEq, Body.userList.injEq, true_and] at h
  subst h
  exact ⟨_, _, _, by assumption, by assumption,
    ((query_eq_ok _ _ _ _).1 (by assumption)).2, ((query_eq_ok _ _ _ _).1 (by assumption)).2⟩

theorem listJobApplicationsForEmployer_rows (s : Server) (email : String)
    (req : listJobApplicationsForEmployerRequest)
    (rows : List ListJobApplicationsForEmployerRow)
    (h : (listJobApplicationsForEmployer s email req).1 = ⟨StatusOK, .employerList rows⟩) :
    ∃ JobID Page PageSize,
      bindInt32 1 2147483647 req.JobID = some JobID ∧
      bindInt32 1 2147483647 req.Page = some Page ∧
      bindInt32 5 15 req.PageSize = some PageSize ∧
      s.store.ListJobApplicationsForEmployer (employerListParams JobID Page PageSize req)
        = .ok rows := by
  revert h
  simp only [listJobApplicationsForEmployer]
  repeat' split
  all_goals intro h
  all_goals first
    | (simp [errorResponse] at h; done)
    | skip
  simp only [Response.mk.injEq, Body.employerList.injEq, true_and] at h
  subst h
  exact ⟨_, _, _, by assumption, by assumption, by assumption,
    ((query_eq_ok _ _ _ _).1 (by assumption)).2⟩

/-- C18: whenever `listJobApplicationsForUser` answers with rows, for whatever caller
and request, the rows are in ascending order of applied-at when `sort` is `date-asc`, and
in descending order (newest first) when `sort` is empty or `date-desc`; and likewise,
on its own, whenever `listJobApplicationsForEmployer` answers with rows. -/
theorem list_rows_ordered (s : Server) :
    (∀ (email : String) (req : listJobApplicationsForUserRequest)
        (rows : List ListJobApplicationsForUserRow),
      (listJobApplicationsForUser s email req).1 = ⟨StatusOK, .userList rows⟩ →
      (req.sort = "date-asc" →
        rows.Sorted (fun a b => a.ApplicationDate ≤ b.ApplicationDate)) ∧
      (req.sort = "" ∨ req.sort = "date-desc" →
        rows.Sorted (fun a b => b.ApplicationDate ≤ a.ApplicationDate))) ∧
    (∀ (email : String) (req : listJobApplicationsForEmployerRequest)
        (rows : List ListJobApplicationsForEmployerRow),
      (listJobApplicationsForEmployer s email req).1 = ⟨StatusOK, .employerList rows⟩ →
      (req.sort = "date-asc" →
        rows.Sorted (fun a b => a.ApplicationDate ≤ b.ApplicationDate)) ∧
      (req.sort = "" ∨ req.sort = "date-desc" →
        rows.Sorted (fun a b => b.ApplicationDate ≤ a.ApplicationDate))) := by
  constructor
  · intro email req rows hU
    obtain ⟨Page, Size, authUser, -, -, -, hq⟩ :=
      listJobApplicationsForUser_rows s email req rows hU
    have hs := paged_sorted (fun r : ListJobApplicationsForUserRow => r.ApplicationDate)
      _ _ _ _ _ _ hq
    refine ⟨fun h => ?_, fun h => ?_⟩
    · exact hs.1 (by simp [userListParams, h]) (by simp [userListParams, h])
    · have hne : req.sort ≠ "date-asc" := by rcases h with h | h <;> simp [h]
      exact hs.2 (by simp [userListParams, hne]) (by simp [userListParams, hne])
  · intro email req rows hE
    obtain ⟨JobID, Page, Size, -, -, -, hq⟩ :=
      listJobApplicationsForEmployer_rows s email req rows hE
    have hs := paged_sorted (fun r : ListJobApplicationsForEmployerRow => r.ApplicationDate)
      _ _ _ _ _ _ hq
    refine ⟨fun h => ?_, fun h => ?_⟩
    · exact hs.1 (by simp [employerListParams, h]) (by simp [employerListParams, h])
    · have hne : req.sort ≠ "date-asc" := by rcases h with h | h <;> simp [h]
      exact hs.2 (by simp [employerListParams, hne]) (by simp [employerListParams, hne])

theorem list_rows_ordered_witness :
    ((listJobApplicationsForUser threeServer "u@x" ⟨some 1, some 5, "date-asc", ""⟩).1
        = ⟨StatusOK, .userList threeUserRows⟩ ∧
      (listJobApplicationsForUser threeServer "u@x" ⟨some 1, some 5, "", ""⟩).1
        = ⟨StatusOK, .userList threeUserRows.reverse⟩ ∧
      (listJobApplicationsForEmployer threeServer "e@c" ⟨some 1, some 1, some 5, "", ""⟩).1
        = ⟨StatusOK, .employerList threeJobRows.reverse⟩ ∧
      threeUserRows.map (fun r => r.ApplicationDate) = [10, 20, 30] ∧
      threeJobRows.reverse.map (fun r => r.ApplicationDate) = [30, 20, 10]) ∧
    threeUserRows.Sorted (fun a b => a.ApplicationDate ≤ b.ApplicationDate) ∧
    threeUserRows.reverse.Sorted (fun a b => b.ApplicationDate ≤ a.ApplicationDate) ∧
    threeJobRows.reverse.Sorted (fun a b => b.ApplicationDate ≤ a.ApplicationDate) :=
  have h := list_rows_ordered threeServer
  ⟨⟨by decide, by decide, by decide, by decide, by decide⟩,
    (h.1 "u@x" ⟨some 1, some 5, "date-asc", ""⟩ threeUserRows (by decide)).1 rfl,
    (h.1 "u@x" ⟨some 1, some 5, "", ""⟩ threeUserRows.reverse (by decide)).2 (Or.inl rfl),
    (h.2 "e@c" ⟨some 1, some 1, some 5, "", ""⟩ threeJobRows.reverse (by decide)).2
      (Or.inl rfl)⟩

/-! ### Scope, filter and paging -/

/-- A number that binds under `min=lo` and `max=hi` lies between them. -/
theorem bindInt32_some (lo hi : Int) (raw : Option Int) (v : Int)
    (h : bindInt32 lo hi raw = some v) : raw = some v ∧ lo ≤ v ∧ v ≤ hi := by
  unfold bindInt32 at h
  split at h
  · simp at h
  · split at h
    · rename_i hv
      simp only [Option.some.injEq] at h
      subst h
      simp only [Bool.and_eq_true, decide_eq_true_eq] at hv
      exact ⟨rfl, hv.1.2, hv.2⟩
    · simp at h

/-- The rows the user's query joins and filters are the scope of the specification. -/
theorem userJoin_eq_scope (d : DB) (authUser : User) (Page PageSize : Int)
    (req : listJobApplicationsForUserRequest) :
    d.jobApplications.filterMap (fun ja =>
      (d.jobs.find? (fun j => ja.JobID == j.ID)).bind (fun j =>
        (d.companies.find? (fun c => j.CompanyID == c.ID)).bind (fun c =>
          if ja.UserID == (userListParams authUser Page PageSize req).UserID &&
              (((userListParams authUser Page PageSize req).FilterStatus == true &&
                  ja.Status == (userListParams authUser Page PageSize req).Status) ||
                (userListParams authUser Page PageSize req).FilterStatus == false)
          then some
            { UserID := ja.UserID, ApplicationID := ja.ID, Notification := ja.Notification,
              JobTitle := j.Title, JobID := j.ID, CompanyName := c.Name,
              ApplicationStatus := ja.Status, ApplicationDate := ja.AppliedAt }
          else none)))
      = specUserScope d authUser.ID req.Status := by
  unfold specUserScope
  rw [List.filterMap_filter]
  apply List.filterMap_congr
  intro ja _
  by_cases hs : req.Status = "" <;> by_cases hu : ja.UserID = authUser.ID <;>
    by_cases hst : ja.Status = req.Status <;>
    cases hj : d.jobs.find? (fun j => ja.JobID == j.ID) with
    | none => simp [userListParams, hs, hu, hst]
    | some j =>
      cases hc : d.companies.find? (fun c => j.CompanyID == c.ID) <;>
        simp [userListParams, hs, hu, hst, hc]

/-- The rows the employer's query joins and filters are the scope of the
specification. -/
theorem jobJoin_eq_scope (d : DB) (JobID Page PageSize : Int)
    (req : listJobApplicationsForEmployerRequest) :
    d.jobApplications.filterMap (fun ja =>
      (d.users.find? (fun u => u.ID == ja.UserID)).bind (fun u =>
        if ja.JobID == (employerListParams JobID Page PageSize req).JobID &&
            (((employerListParams JobID Page PageSize req).FilterStatus == true &&
                ja.Status == (employerListParams JobID Page PageSize req).Status) ||
              (employerListParams JobID Page PageSize req).FilterStatus == false)
        then some
          { ApplicationID := ja.ID, UserID := ja.UserID, UserEmail := u.Email,
            UserFullName := u.FullName, ApplicationStatus := ja.Status,
            ApplicationDate := ja.AppliedAt }
        else none))
      = specJobScope d JobID req.Status := by
  unfold specJobScope
  rw [List.filterMap_filter]
  apply List.filterMap_congr
  intro ja _
  by_cases hs : req.Status = "" <;> by_cases hj : ja.JobID = JobID <;>
    by_cases hst : ja.Status = req.Status <;>
    cases hu : d.users.find? (fun u => u.ID == ja.UserID) <;>
      simp [employerListParams, hs, hj, hst, hu]

/-- The user's query returns the page of its scope, sorted by the `ORDER BY`. -/
theorem ListJobApplicationsForUser_page (d : DB) (authUser : User) (Page PageSize : Int)
    (req : listJobApplicationsForUserRequest)
    (hsize : 0 ≤ PageSize) (hoff : 0 ≤ wrap32 ((Page - 1) * PageSize)) :
    d.ListJobApplicationsForUser (userListParams authUser Page PageSize req)
      = .ok (specPage PageSize.toNat (wrap32 ((Page - 1) * PageSize)).toNat
          ((specUserScope d authUser.ID req.Status).insertionSort (fun r₁ r₂ =>
            orderedBefore (decide (req.sort = "date-asc")) (decide (req.sort ≠ "date-asc"))
              r₁.ApplicationDate r₂.ApplicationDate = true))) := by
  simp only [DB.ListJobApplicationsForUser]
  rw [userJoin_eq_scope]
  have h₁ : ¬ (userListParams authUser Page PageSize req).Limit < 0 := not_lt.mpr hsize
  have h₂ : ¬ (userListParams authUser Page PageSize req).Offset < 0 := not_lt.mpr hoff
  simp only [limitOffset, h₁, h₂, decide_False, Bool.or_self, Bool.false_eq_true, if_false]
  rfl

/-- The employer's query returns the page of its scope, sorted by the `ORDER BY`. -/
theorem ListJobApplicationsForEmployer_page (d : DB) (JobID Page PageSize : Int)
    (req : listJobApplicationsForEmployerRequest)
    (hsize : 0 ≤ PageSize) (hoff : 0 ≤ wrap32 ((Page - 1) * PageSize)) :
    d.ListJobApplicationsForEmployer (employerListParams JobID Page PageSize req)
      = .ok (specPage PageSize.toNat (wrap32 ((Page - 1) * PageSize)).toNat
          ((specJobScope d JobID req.Status).insertionSort (fun r₁ r₂ =>
            orderedBefore (decide (req.sort = "date-asc")) (decide (req.sort ≠ "date-asc"))
              r₁.ApplicationDate r₂.ApplicationDate = true))) := by
  simp only [DB.ListJobApplicationsForEmployer]
  rw [jobJoin_eq_scope]
  have h₁ : ¬ (employerListParams JobID Page PageSize req).Limit < 0 := not_lt.mpr hsize
  have h₂ : ¬ (employerListParams JobID Page PageSize req).Offset < 0 := not_lt.mpr hoff
  simp only [limitOffset, h₁, h₂, decide_False, Bool.or_self, Bool.false_eq_true, if_false]
  rfl

/-- The rows in the user's scope are applications of the user, of the requested status
when one is given. -/
theorem mem_specUserScope (d : DB) (userID : Int) (status : String)
    (r : ListJobApplicationsForUserRow) (h : r ∈ specUserScope d userID status) :
    r.UserID = userID ∧ (status ≠ "" → r.ApplicationStatus = status) ∧
    ∃ ja ∈ d.jobApplications, ja.ID = r.ApplicationID ∧ ja.UserID = userID := by
  unfold specUserScope at h
  simp only [List.mem_filterMap, List.mem_filter, Bool.and_eq_true, Bool.or_eq_true,
    beq_iff_eq] at h
  obtain ⟨ja, ⟨hmem, hu, hst⟩, hrow⟩ := h
  cases hj : d.jobs.find? (fun j => ja.JobID == j.ID) with
  | none => simp [hj] at hrow
  | some j =>
    cases hc : d.companies.find? (fun c => j.CompanyID == c.ID) with
    | none => simp [hj, hc] at hrow
    | some c =>
      simp only [hj, hc, Option.some_bind, Option.map_some', Option.some.injEq] at hrow
      subst hrow
      refine ⟨hu, fun hne => ?_, ja, hmem, rfl, hu⟩
      rcases hst with hst | hst
      · exact (hne hst).elim
      · exact hst

/-- The rows in the employer's scope are applications for the job, of the requested
status when one is given. -/
theorem mem_specJobScope (d : DB) (jobID : Int) (status : String)
    (r : ListJobApplicationsForEmployerRow) (h : r ∈ specJobScope d jobID status) :
    (status ≠ "" → r.ApplicationStatus = status) ∧
    ∃ ja ∈ d.jobApplications, ja.ID = r.ApplicationID ∧ ja.JobID = jobID := by
  unfold specJobScope at h
  simp only [List.mem_filterMap, List.mem_filter, Bool.and_eq_true, Bool.or_eq_true,
    beq_iff_eq] at h
  obtain ⟨ja, ⟨hmem, hj, hst⟩, hrow⟩ := h
  cases hu : d.users.find? (fun u => u.ID == ja.UserID) with
  | none => simp [hu] at hrow
  | some u =>
    simp only [hu, Option.map_some', Option.some.injEq] at hrow
    subst hrow
    refine ⟨fun hne => ?_, ja, hmem, rfl, hj⟩
    rcases hst with hst | hst
    · exact (hne hst).elim
    · exact hst

/-- A row of a page is a row of the list. -/
theorem mem_of_mem_specPage {α : Type} (limit offset : Nat) (l : List α) (a : α)
    (h : a ∈ specPage limit offset l) : a ∈ l :=
  (List.drop_sublist _ _).subset ((List.take_sublist _ _).subset h)

/-- For a request of the user's list that binds with a page up to 143165577, a caller
that resolves to a user and no store call failing: the handler answers 200 with the page
(skip `(page - 1) * page_size` rows, take at most `page_size`) of a rearrangement of its
scope, the applications the authenticated user created, of the requested status when one
is given and of every status when none is.  The scope does not mention the sort flag. -/
theorem listJobApplicationsForUser_page_of_scope (s : Server) (email : String)
    (req : listJobApplicationsForUserRequest) (Page PageSize : Int) (authUser : User)
    (hpage : bindInt32 1 2147483647 req.Page = some Page)
    (hsize : bindInt32 5 15 req.PageSize = some PageSize)
    (hwords : (omitemptyOneof sortWords req.sort &&
      omitemptyOneof statusWords req.Status) = true)
    (hf₁ : s.fails .GetUserByEmail = false)
    (hf₂ : s.fails .ListJobApplicationsForUser = false)
    (hu : s.store.GetUserByEmail email = .ok authUser)
    (hmax : Page ≤ 143165577) :
    ∃ sorted, sorted.Perm (specUserScope s.store authUser.ID req.Status) ∧
      (listJobApplicationsForUser s email req).1
        = ⟨StatusOK, .userList
            (specPage PageSize.toNat ((Page - 1) * PageSize).toNat sorted)⟩ ∧
      ∀ r ∈ specPage PageSize.toNat ((Page - 1) * PageSize).toNat sorted,
        r.UserID = authUser.ID ∧ (req.Status ≠ "" → r.ApplicationStatus = req.Status) := by
  obtain ⟨-, hp1, -⟩ := bindInt32_some _ _ _ _ hpage
  obtain ⟨-, hs5, hs15⟩ := bindInt32_some _ _ _ _ hsize
  have hex := offset_exact Page PageSize hp1 hmax hs5 hs15
  have hoff : 0 ≤ wrap32 ((Page - 1) * PageSize) := by
    rw [hex]
    exact Int.mul_nonneg (by omega) (by omega)
  refine ⟨(specUserScope s.store authUser.ID req.Status).insertionSort (fun r₁ r₂ =>
      orderedBefore (decide (req.sort = "date-asc")) (decide (req.sort ≠ "date-asc"))
        r₁.ApplicationDate r₂.ApplicationDate = true),
    List.perm_insertionSort _ _, ?_, ?_⟩
  · rw [listJobApplicationsForUser_bound s email req Page PageSize authUser hpage hsize
      hwords hf₁ hu, query_ok _ _ _ hf₂,
      ListJobApplicationsForUser_page _ _ _ _ _ (by omega) hoff, hex]
  · intro r hr
    have hmem := (List.perm_insertionSort _ _).subset (mem_of_mem_specPage _ _ _ _ hr)
    have := mem_specUserScope _ _ _ _ hmem
    exact ⟨this.1, this.2.1⟩

/-- For a request of the employer's list that binds with a page up to 143165577, an
employer of the company that owns the job and no store call failing: the handler answers
200 with the page (skip `(page - 1) * page_size` rows, take at most `page_size`) of a
rearrangement of its scope, the applications for the requested job, of the requested
status when one is given and of every status when none is. -/
theorem listJobApplicationsForEmployer_page_of_scope (s : Server) (email : String)
    (req : listJobApplicationsForEmployerRequest) (JobID Page PageSize : Int)
    (authEmployer : Employer)
    (hjob : bindInt32 1 2147483647 req.JobID = some JobID)
    (hpage : bindInt32 1 2147483647 req.Page = some Page)
    (hsize : bindInt32 5 15 req.PageSize = some PageSize)
    (hwords : (omitemptyOneof sortWords req.sort &&
      omitemptyOneof statusWords req.Status) = true)
    (hf₁ : s.fails .GetEmployerByEmail = false) (hf₂ : s.fails .GetCompanyIDOfJob = false)
    (hf₃ : s.fails .ListJobApplicationsForEmployer = false)
    (he : s.store.GetEmployerByEmail email = .ok authEmployer)
    (hc : s.store.GetCompanyIDOfJob JobID = .ok authEmployer.CompanyID)
    (hmax : Page ≤ 143165577) :
    ∃ sorted, sorted.Perm (specJobScope s.store JobID req.Status) ∧
      (listJobApplicationsForEmployer s email req).1
        = ⟨StatusOK, .employerList
            (specPage PageSize.toNat ((Page - 1) * PageSize).toNat sorted)⟩ ∧
      ∀ r ∈ specPage PageSize.toNat ((Page - 1) * PageSize).toNat sorted,
        (req.Status ≠ "" → r.ApplicationStatus = req.Status) ∧
        ∃ ja ∈ s.store.jobApplications, ja.ID = r.ApplicationID ∧ ja.JobID = JobID := by
  obtain ⟨-, hp1, -⟩ := bindInt32_some _ _ _ _ hpage
  obtain ⟨-, hs5, hs15⟩ := bindInt32_some _ _ _ _ hsize
  have hex := offset_exact Page PageSize hp1 hmax hs5 hs15
  have hoff : 0 ≤ wrap32 ((Page - 1) * PageSize) := by
    rw [hex]
    exact Int.mul_nonneg (by omega) (by omega)
  refine ⟨(specJobScope s.store JobID req.Status).insertionSort (fun r₁ r₂ =>
      orderedBefore (decide (req.sort = "date-asc")) (decide (req.sort ≠ "date-asc"))
        r₁.ApplicationDate r₂.ApplicationDate = true),
    List.perm_insertionSort _ _, ?_, ?_⟩
  · rw [listJobApplicationsForEmployer_bound s email req JobID Page PageSize authEmployer
      hjob hpage hsize hwords hf₁ hf₂ he hc, query_ok _ _ _ hf₃,
      ListJobApplicationsForEmployer_page _ _ _ _ _ (by omega) hoff, hex]
  · intro r hr
    have hmem := (List.perm_insertionSort _ _).subset (mem_of_mem_specPage _ _ _ _ hr)
    exact mem_specJobScope _ _ _ _ hmem

/-- C19, at the failing input: user 1 has three applications and job 1 has three.  The
request `page=536870913&page_size=8` binds; it asks to skip `(page - 1) * page_size`
= 4294967296 rows, so its page of the scope is empty.  The handlers compute the offset in
`int32`, where it is 0, and both answer 200 with the first page, all three rows.  And
for `page=143165578&page_size=15` the `int32` offset is negative and the handlers answer
500, no page at all. -/
theorem list_page_wraps :
    bindInt32 1 2147483647 (some 536870913) = some 536870913 ∧
    bindInt32 5 15 (some 8) = some 8 ∧
    (536870913 - 1) * 8 = (4294967296 : Int) ∧
    wrap32 ((536870913 - 1) * 8) = 0 ∧
    (specUserScope threeServer.store 1 "").length = 3 ∧
    (specJobScope threeServer.store 1 "").length = 3 ∧
    specPage 8 4294967296 (specUserScope threeServer.store 1 "") = [] ∧
    specPage 8 4294967296 (specJobScope threeServer.store 1 "") = [] ∧
    (listJobApplicationsForUser threeServer "u@x" ⟨some 536870913, some 8, "", ""⟩).1
      = ⟨StatusOK, .userList threeUserRows.reverse⟩ ∧
    (listJobApplicationsForEmployer threeServer "e@c"
        ⟨some 1, some 536870913, some 8, "", ""⟩).1
      = ⟨StatusOK, .employerList threeJobRows.reverse⟩ ∧
    (listJobApplicationsForUser threeServer "u@x" ⟨some 143165578, some 15, "", ""⟩).1
      = errorResponse StatusInternalServerError (.store .other) := by
  decide

/-! ### Validation of the list requests -/

/-- A page or a job ID binds exactly when it is present and within 1..2147483647. -/
theorem bindPage_isSome (raw : Option Int) :
    (bindInt32 1 2147483647 raw).isSome = specWithin 1 2147483647 raw := by
  cases raw with
  | none => rfl
  | some v =>
    by_cases hv : 1 ≤ v ∧ v ≤ 2147483647
    · have h0 : v ≠ 0 := by omega
      have h1 : -2147483648 ≤ v := by omega
      simp [bindInt32, specWithin, inInt32, hv.1, hv.2, h0, h1]
    · by_cases h1 : 1 ≤ v
      · have h2 : ¬ v ≤ 2147483647 := fun h => hv ⟨h1, h⟩
        simp [bindInt32, specWithin, inInt32, h2]
      · simp [bindInt32, specWithin, h1]

theorem bindSize_isSome (raw : Option Int) :
    (bindInt32 5 15 raw).isSome = specWithin 5 15 raw := by
  cases raw with
  | none => rfl
  | some v =>
    by_cases hv : 5 ≤ v ∧ v ≤ 15
    · have h0 : v ≠ 0 := by omega
      have h1 : -2147483648 ≤ v := by omega
      have h2 : v ≤ 2147483647 := by omega
      simp [bindInt32, specWithin, inInt32, hv.1, hv.2, h0, h1, h2]
    · by_cases h5 : 5 ≤ v
      · have h15 : ¬ v ≤ 15 := fun h => hv ⟨h5, h⟩
        simp [bindInt32, specWithin, h5, h15]
      · simp [bindInt32, specWithin, h5]

theorem words_eq (sort status : String) :
    (omitemptyOneof sortWords sort && omitemptyOneof statusWords status)
      = ((sort == "" || sort == "date-asc" || sort == "date-desc") &&
          (status == "" || status == "Applied" || status == "Seen" ||
            status == "Interviewing" || status == "Offered" || status == "Rejected")) := by
  rw [Bool.eq_iff_iff]
  simp [omitemptyOneof, oneof, sortWords, statusWords, or_assoc]

/-- The user's list request binds exactly when it is one of `validListInt32`. -/
theorem userList_binds (req : listJobApplicationsForUserRequest) :
    ((bindInt32 1 2147483647 req.Page).isSome && (bindInt32 5 15 req.PageSize).isSome &&
      (omitemptyOneof sortWords req.sort && omitemptyOneof statusWords req.Status))
      = validListInt32 req.Page req.PageSize req.sort req.Status := by
  rw [bindPage_isSome, bindSize_isSome, words_eq]
  simp [validListInt32, Bool.and_assoc]

theorem listJobApplicationsForUser_rejects (s : Server) (email : String)
    (req : listJobApplicationsForUserRequest)
    (h : ((bindInt32 1 2147483647 req.Page).isSome && (bindInt32 5 15 req.PageSize).isSome &&
      (omitemptyOneof sortWords req.sort && omitemptyOneof statusWords req.Status)) = false) :
    listJobApplicationsForUser s email req = (errorResponse StatusBadRequest .binding, s) := by
  unfold listJobApplicationsForUser
  cases hP : bindInt32 1 2147483647 req.Page <;>
    cases hS : bindInt32 5 15 req.PageSize <;>
    cases hW : (omitemptyOneof sortWords req.sort && omitemptyOneof statusWords req.Status) <;>
    simp_all

theorem listJobApplicationsForUser_passes (s : Server) (email : String)
    (req : listJobApplicationsForUserRequest)
    (h : ((bindInt32 1 2147483647 req.Page).isSome && (bindInt32 5 15 req.PageSize).isSome &&
      (omitemptyOneof sortWords req.sort && omitemptyOneof statusWords req.Status)) = true) :
    (listJobApplicationsForUser s email req).1.code ≠ StatusBadRequest := by
  simp only [Bool.and_eq_true, Option.isSome_iff_exists] at h
  obtain ⟨⟨⟨Page, hP⟩, ⟨PageSize, hS⟩⟩, hW₁, hW₂⟩ := h
  unfold listJobApplicationsForUser
  rw [hP, hS, hW₁, hW₂]
  simp only [Bool.and_self]
  repeat' split
  all_goals simp [errorResponse]

theorem listJobApplicationsForEmployer_rejects (s : Server) (email : String)
    (req : listJobApplicationsForEmployerRequest)
    (h : ((bindInt32 1 2147483647 req.JobID).isSome &&
      (bindInt32 1 2147483647 req.Page).isSome && (bindInt32 5 15 req.PageSize).isSome &&
      (omitemptyOneof sortWords req.sort && omitemptyOneof statusWords req.Status)) = false) :
    listJobApplicationsForEmployer s email req
      = (errorResponse StatusBadRequest .binding, s) := by
  unfold listJobApplicationsForEmployer
  cases hJ : bindInt32 1 2147483647 req.JobID <;>
    cases hP : bindInt32 1 2147483647 req.Page <;>
    cases hS : bindInt32 5 15 req.PageSize <;>
    cases hW : (omitemptyOneof sortWords req.sort && omitemptyOneof statusWords req.Status) <;>
    simp_all

theorem listJobApplicationsForEmployer_passes (s : Server) (email : String)
    (req : listJobApplicationsForEmployerRequest)
    (h : ((bindInt32 1 2147483647 req.JobID).isSome &&
      (bindInt32 1 2147483647 req.Page).isSome && (bindInt32 5 15 req.PageSize).isSome &&
      (omitemptyOneof sortWords req.sort && omitemptyOneof statusWords req.Status)) = true) :
    (listJobApplicationsForEmployer s email req).1.code ≠ StatusBadRequest := by
  simp only [Bool.and_eq_true, Option.isSome_iff_exists] at h
  obtain ⟨⟨⟨⟨JobID, hJ⟩, ⟨Page, hP⟩⟩, ⟨PageSize, hS⟩⟩, hW₁, hW₂⟩ := h
  unfold listJobApplicationsForEmployer
  rw [hJ, hP, hS, hW₁, hW₂]
  simp only [Bool.and_self]
  repeat' split
  all_goals simp [errorResponse]

/-- C20, counterexample: the request `page=2147483648&page_size=5` has a page that is
present and at least 1, a page size within 5..15 and no sort or status, so it is none of
the requests the specification rejects; `listJobApplicationsForUser` answers it 400.
Likewise `listJobApplicationsForEmployer` for `job_id=2147483648`. -/
theorem list_validation_beyond_int32 :
    specValidList (some 2147483648) (some 5) "" "" = true ∧
    (listJobApplicationsForUser exampleServer "u@x" ⟨some 2147483648, some 5, "", ""⟩).1
      = errorResponse StatusBadRequest .binding ∧
    (specAtLeast 1 (some 2147483648) && specValidList (some 1) (some 5) "" "") = true ∧
    (listJobApplicationsForEmployer exampleServer "e@c"
        ⟨some 2147483648, some 1, some 5, "", ""⟩).1
      = errorResponse StatusBadRequest .binding ∧
    (listJobApplicationsForUser exampleServer "u@x" ⟨some 1, some 5, "", ""⟩).1.code
      = StatusOK := by
  decide

/-- C20, as the code has it: the user's list is answered 400 with no store access (the
server is as before) exactly when the page is missing, below 1 or above 2147483647, the
page size is missing or outside 5..15, the sort is non-empty and neither `date-asc` nor
`date-desc`, or the status is non-empty and not one of the five statuses; the employer's
list likewise, with the job ID missing, below 1 or above 2147483647 as a further cause.
Every other request is not answered 400. -/
theorem list_validation (s : Server) :
    (∀ (email : String) (req : listJobApplicationsForUserRequest),
      (validListInt32 req.Page req.PageSize req.sort req.Status = false →
        listJobApplicationsForUser s email req
          = (errorResponse StatusBadRequest .binding, s)) ∧
      (validListInt32 req.Page req.PageSize req.sort req.Status = true →
        (listJobApplicationsForUser s email req).1.code ≠ StatusBadRequest)) ∧
    (∀ (email : String) (req : listJobApplicationsForEmployerRequest),
      ((specWithin 1 2147483647 req.JobID &&
          validListInt32 req.Page req.PageSize req.sort req.Status) = false →
        listJobApplicationsForEmployer s email req
          = (errorResponse StatusBadRequest .binding, s)) ∧
      ((specWithin 1 2147483647 req.JobID &&
          validListInt32 req.Page req.PageSize req.sort req.Status) = true →
        (listJobApplicationsForEmployer s email req).1.code ≠ StatusBadRequest)) := by
  constructor
  · intro email req
    have hU := userList_binds req
    exact ⟨fun h => listJobApplicationsForUser_rejects s email req (hU.trans h),
      fun h => listJobApplicationsForUser_passes s email req (hU.trans h)⟩
  · intro email req
    have hE := userList_binds ⟨req.Page, req.PageSize, req.sort, req.Status⟩
    have hJ := bindPage_isSome req.JobID
    simp only at hE
    refine ⟨fun h => ?_, fun h => ?_⟩
    · apply listJobApplicationsForEmployer_rejects
      rw [← h, ← hE, ← hJ]
      simp [Bool.and_assoc]
    · apply listJobApplicationsForEmployer_passes
      rw [← h, ← hE, ← hJ]
      simp [Bool.and_assoc]

theorem list_validation_witness :
    (validListInt32 (some 0) (some 5) "" "" = false ∧
      validListInt32 (some 2147483648) (some 5) "" "" = false ∧
      validListInt32 (some 2147483647) (some 15) "date-desc" "Seen" = true ∧
      (specWithin 1 2147483647 none && validListInt32 (some 1) (some 5) "" "") = false) ∧
    listJobApplicationsForUser exampleServer "u@x" ⟨some 0, some 5, "", ""⟩
      = (errorResponse StatusBadRequest .binding, exampleServer) ∧
    listJobApplicationsForUser exampleServer "u@x" ⟨some 2147483648, some 5, "", ""⟩
      = (errorResponse StatusBadRequest .binding, exampleServer) ∧
    (listJobApplicationsForUser exampleServer "u@x"
        ⟨some 2147483647, some 15, "date-desc", "Seen"⟩).1.code ≠ StatusBadRequest ∧
    listJobApplicationsForEmployer exampleServer "e@c" ⟨none, some 1, some 5, "", ""⟩
      = (errorResponse StatusBadRequest .binding, exampleServer) :=
  have h := list_validation exampleServer
  ⟨⟨by decide, by decide, by decide, by decide⟩,
    (h.1 "u@x" ⟨some 0, some 5, "", ""⟩).1 (by decide),
    (h.1 "u@x" ⟨some 2147483648, some 5, "", ""⟩).1 (by decide),
    (h.1 "u@x" ⟨some 2147483647, some 15, "date-desc", "Seen"⟩).2 (by decide),
    (h.2 "e@c" ⟨none, some 1, some 5, "", ""⟩).1 (by decide)⟩

/-! ## The employer's list and the job -/

/-- C21: for a list request that binds and a caller that resolves to an employer, the
two lookups not failing: when no job has the requested ID, `listJobApplicationsForEmployer`
answers 404, and when the job exists and its company is not the caller's, it answers
403.  In both cases the body is the error alone, the store is as before, and the calls
made are the two lookups: the list query is not among them. -/
theorem listJobApplicationsForEmployer_job_guard (s : Server) (email : String)
    (req : listJobApplicationsForEmployerRequest) (JobID Page PageSize : Int)
    (authEmployer : Employer)
    (hjob : bindInt32 1 2147483647 req.JobID = some JobID)
    (hpage : bindInt32 1 2147483647 req.Page = some Page)
    (hsize : bindInt32 5 15 req.PageSize = some PageSize)
    (hwords : (omitemptyOneof sortWords req.sort &&
      omitemptyOneof statusWords req.Status) = true)
    (hf₁ : s.fails .GetEmployerByEmail = false) (hf₂ : s.fails .GetCompanyIDOfJob = false)
    (he : s.store.GetEmployerByEmail email = .ok authEmployer) :
    (s.store.jobs.find? (fun j => j.ID == JobID) = none →
      listJobApplicationsForEmployer s email req
        = (errorResponse StatusNotFound (.jobDoesNotExist JobID),
            (s.call .GetEmployerByEmail).call .GetCompanyIDOfJob)) ∧
    (∀ j, s.store.jobs.find? (fun j => j.ID == JobID) = some j →
      j.CompanyID ≠ authEmployer.CompanyID →
      listJobApplicationsForEmployer s email req
        = (errorResponse StatusForbidden (.jobNotOfEmployer JobID authEmployer.CompanyID),
            (s.call .GetEmployerByEmail).call .GetCompanyIDOfJob)) ∧
    ((s.call .GetEmployerByEmail).call .GetCompanyIDOfJob).store = s.store ∧
    ((s.call .GetEmployerByEmail).call .GetCompanyIDOfJob).log.drop s.log.length
      = [.GetEmployerByEmail, .GetCompanyIDOfJob] ∧
    StoreOp.ListJobApplicationsForEmployer ∉
      ((s.call .GetEmployerByEmail).call .GetCompanyIDOfJob).log.drop s.log.length := by
  refine ⟨fun hnone => ?_, fun j hj hne => ?_, rfl, by simp, by simp⟩
  · unfold listJobApplicationsForEmployer
    rw [hjob, hpage, hsize, hwords]
    simp [Server.query, hf₁, hf₂, he, DB.GetCompanyIDOfJob, hnone, one]
  · unfold listJobApplicationsForEmployer
    rw [hjob, hpage, hsize, hwords]
    simp [Server.query, hf₁, hf₂, he, DB.GetCompanyIDOfJob, hj, one, hne]

theorem listJobApplicationsForEmployer_job_guard_witness :
    (exampleServer.store.jobs.find? (fun j => j.ID == 7) = none ∧
      exampleServer.store.jobs.find? (fun j => j.ID == 1)
        = some { ID := 1, Title := "J", CompanyID := 1 }) ∧
    listJobApplicationsForEmployer exampleServer "e@c" ⟨some 7, some 1, some 5, "", ""⟩
      = (errorResponse StatusNotFound (.jobDoesNotExist 7),
          (exampleServer.call .GetEmployerByEmail).call .GetCompanyIDOfJob) ∧
    listJobApplicationsForEmployer exampleServer "f@d" ⟨some 1, some 1, some 5, "", ""⟩
      = (errorResponse StatusForbidden (.jobNotOfEmployer 1 2),
          (exampleServer.call .GetEmployerByEmail).call .GetCompanyIDOfJob) :=
  ⟨⟨by decide, by decide⟩,
    (listJobApplicationsForEmployer_job_guard exampleServer "e@c"
      ⟨some 7, some 1, some 5, "", ""⟩ 7 1 5 { ID := 1, CompanyID := 1, Email := "e@c" }
      (by decide) (by decide) (by decide) (by decide) rfl rfl (by decide)).1 (by decide),
    (listJobApplicationsForEmployer_job_guard exampleServer "f@d"
      ⟨some 1, some 1, some 5, "", ""⟩ 1 1 5 { ID := 2, CompanyID := 2, Email := "f@d" }
      (by decide) (by decide) (by decide) (by decide) rfl rfl (by decide)).2.1
      { ID := 1, Title := "J", CompanyID := 1 } (by decide) (by decide)⟩

/-! ## What `notifyJobApplication` publishes -/

/-- The row `GetJobApplicationForUser` returns for an application the store holds with
its job and the job's company. -/
theorem GetJobApplicationForUser_of_find? (d : DB) (id : Int) (a : JobApplication) (j : Job)
    (c : Company)
    (ha : d.jobApplications.find? (fun a => a.ID == id) = some a)
    (hj : d.jobs.find? (fun j => a.JobID == j.ID) = some j)
    (hc : d.companies.find? (fun c => j.CompanyID == c.ID) = some c) :
    d.GetJobApplicationForUser id
      = .ok { ApplicationID := a.ID, JobID := j.ID, JobTitle := j.Title,
              CompanyName := c.Name, ApplicationStatus := a.Status,
              ApplicationDate := a.AppliedAt, ApplicationMessage := a.Message,
              UserCv := a.Cv, UserID := a.UserID, Notification := a.Notification } := by
  simp [DB.GetJobApplicationForUser, ha, hj, hc, one]

/-- An `int32` value is unchanged by the conversion to `int32`. -/
theorem wrap32_of_range (x : Int) (h : 1 ≤ x ∧ x ≤ 2147483647) : wrap32 x = x := by
  unfold wrap32
  omega

/-- C22: for an application the store holds (ID `id`, an `int32` of the serial column,
with its job, the job's company and its applicant) whose notification flag is set, a
`notifyJobApplication` request for it with one of the three valid statuses, the two
store reads and the publish not failing, answers 200 and publishes exactly one message:
to the default exchange with the server's queue as routing key, of content type
`application/json`, whose body is the object with exactly the fields `status` (the
requested status), `job_title` (the job's title), `telegram_id` (the applicant's
telegram id) and `company_name` (the name of the job's company). -/
theorem notifyJobApplication_publishes (s : Server) (id : Int) (st : String)
    (a : JobApplication) (j : Job) (c : Company) (u : User)
    (hrange : 1 ≤ id ∧ id ≤ 2147483647)
    (hst : st = "Interviewing" ∨ st = "Offered" ∨ st = "Rejected")
    (hf : s.fails .GetJobApplicationForUser = false ∧ s.fails .GetUserByID = false ∧
      s.fails .Publish = false)
    (ha : s.store.jobApplications.find? (fun a => a.ID == id) = some a)
    (hj : s.store.jobs.find? (fun j => a.JobID == j.ID) = some j)
    (hc : s.store.companies.find? (fun c => j.CompanyID == c.ID) = some c)
    (hu : s.store.users.find? (fun u => u.ID == a.UserID) = some u)
    (hflag : a.Notification = true) :
    (notifyJobApplication s (some ⟨id, st⟩)).1
      = ⟨StatusOK, .notification { Message := "Notification sent successfully" }⟩ ∧
    (notifyJobApplication s (some ⟨id, st⟩)).2.published
      = s.published ++
          [{ exchange := "", routingKey := s.queueName, ContentType := "application/json",
             Body := [("status", st), ("job_title", j.Title),
               ("telegram_id", u.TelegramID), ("company_name", c.Name)] }] ∧
    (notifyJobApplication s (some ⟨id, st⟩)).2.published.length = s.published.length + 1 := by
  obtain ⟨hf₁, hf₂, hf₃⟩ := hf
  have hw := wrap32_of_range id hrange
  have hrow := GetJobApplicationForUser_of_find? _ _ _ _ _ ha hj hc
  have huser : s.store.GetUserByID a.UserID = .ok u := by simp [DB.GetUserByID, hu, one]
  have hbind : bindNotify (some ⟨id, st⟩) = some ⟨id, st⟩ := by
    have h0 : id ≠ 0 := by omega
    have h64 : inInt64 id = true := by
      simp only [inInt64, Bool.and_eq_true, decide_eq_true_eq]
      omega
    rcases hst with rfl | rfl | rfl <;> simp [bindNotify, h0, h64, oneof, employerTargets]
  have key : notifyJobApplication s (some ⟨id, st⟩)
      = (⟨StatusOK, .notification { Message := "Notification sent successfully" }⟩,
          ((s.call .GetJobApplicationForUser).call .GetUserByID).Publish "" s.queueName
            "application/json"
            [("status", st), ("job_title", j.Title), ("telegram_id", u.TelegramID),
              ("company_name", c.Name)]) := by
    simp [notifyJobApplication, hbind, hw, Server.query, hf₁, hf₂, hf₃, hrow, huser, hflag,
      notificationMessage.marshal]
  rw [key]
  refine ⟨rfl, by simp, by simp⟩

theorem notifyJobApplication_publishes_witness :
    ((exampleServer.store.jobApplications.find? (fun a => a.ID == 1)).map
        (fun a => (a.Notification, a.Status)) = some (true, "Applied") ∧
      exampleServer.published = []) ∧
    (notifyJobApplication exampleServer (some ⟨1, "Rejected"⟩)).1
      = ⟨StatusOK, .notification { Message := "Notification sent successfully" }⟩ ∧
    (notifyJobApplication exampleServer (some ⟨1, "Rejected"⟩)).2.published
      = exampleServer.published ++
          [{ exchange := "", routingKey := exampleServer.queueName,
             ContentType := "application/json",
             Body := [("status", "Rejected"), ("job_title", "J"), ("telegram_id", "tg1"),
               ("company_name", "C")] }] :=
  have h := notifyJobApplication_publishes exampleServer 1 "Rejected"
    { ID := 1, UserID := 1, JobID := 1, Message := some "Interested", Cv := [1, 2],
      Status := "Applied", AppliedAt := 10, Notification := true }
    { ID := 1, Title := "J", CompanyID := 1 } { ID := 1, Name := "C" }
    { ID := 1, Email := "u@x", FullName := "U", Location := "L", TelegramID := "tg1" }
    (by decide) (by decide) ⟨rfl, rfl, rfl⟩ (by decide) (by decide) (by decide) (by decide)
    rfl
  ⟨⟨by decide, rfl⟩, h.1, h.2.1⟩

/-- `getJobApplicationForEmployer` hands nothing to the channel. -/
theorem getJobApplicationForEmployer_published (s : Server) (email : String)
    (rawID : Option Int) :
    (getJobApplicationForEmployer s email rawID).2.published = s.published := by
  simp only [getJobApplicationForEmployer]
  repeat' split
  all_goals rfl

/-- The row `GetJobApplicationForUser` returns carries the notification flag of the
application with the ID. -/
theorem GetJobApplicationForUser_flag (d : DB) (id : Int) (a : JobApplication)
    (row : GetJobApplicationForUserRow)
    (ha : d.jobApplications.find? (fun a => a.ID == id) = some a)
    (h : d.GetJobApplicationForUser id = .ok row) : row.Notification = a.Notification := by
  unfold DB.GetJobApplicationForUser at h
  cases hj : d.jobs.find? (fun j => a.JobID == j.ID) with
  | none => simp [ha, hj, one] at h
  | some j =>
    cases hc : d.companies.find? (fun c => j.CompanyID == c.ID) with
    | none => simp [ha, hj, hc, one] at h
    | some c =>
      simp only [ha, hj, hc, one, Option.bind_eq_bind, Option.some_bind, Option.pure_def,
        Except.ok.injEq] at h
      subst h
      rfl

/-- A body that binds is the request it binds to, and its status is one of the three an
employer may set. -/
theorem bindNotify_some (body : Option notifyJobApplicationRequest)
    (req : notifyJobApplicationRequest) (h : bindNotify body = some req) :
    body = some req ∧
    (req.Status = "Interviewing" ∨ req.Status = "Offered" ∨ req.Status = "Rejected") := by
  unfold bindNotify at h
  split at h
  · simp at h
  · rename_i r
    split at h
    · rename_i hv
      simp only [Option.some.injEq] at h
      subst h
      have hv' : (inInt64 r.ApplicationID = true ∧ ¬r.ApplicationID = 0) ∧ ¬r.Status = "" ∧
          (r.Status = "Interviewing" ∨ r.Status = "Offered" ∨ r.Status = "Rejected") := by
        simpa [oneof, employerTargets, and_assoc] using hv
      exact ⟨rfl, hv'.2.2⟩
    · simp at h

/-- C23: for an application whose notification flag is not set, `notifyJobApplication`
publishes nothing, whatever the request's status and whichever calls fail, and it answers
200 when the request binds and the application is read (with its job and the job's
company); and `getJobApplicationForEmployer`, the handler of the automatic
`Applied` to `Seen` transition, never publishes. -/
theorem no_message_when_flag_off (s : Server) (req : notifyJobApplicationRequest)
    (a : JobApplication)
    (ha : s.store.jobApplications.find? (fun a => a.ID == wrap32 req.ApplicationID) = some a)
    (hflag : a.Notification = false) :
    (notifyJobApplication s (some req)).2.published = s.published ∧
    (∀ j c, bindNotify (some req) = some req →
      s.fails .GetJobApplicationForUser = false →
      s.store.jobs.find? (fun j => a.JobID == j.ID) = some j →
      s.store.companies.find? (fun c => j.CompanyID == c.ID) = some c →
      (notifyJobApplication s (some req)).1
        = ⟨StatusOK, .notification { Message := "Notification sent successfully" }⟩) ∧
    (∀ (t : Server) (email : String) (rawID : Option Int),
      (getJobApplicationForEmployer t email rawID).2.published = t.published) := by
  refine ⟨?_, ?_, getJobApplicationForEmployer_published⟩
  · cases hb : bindNotify (some req) with
    | none => simp [notifyJobApplication, hb]
    | some r =>
      have hr := (bindNotify_some _ _ hb).1
      simp only [Option.some.injEq] at hr
      subst hr
      cases hq : s.query .GetJobApplicationForUser
          (s.store.GetJobApplicationForUser (wrap32 req.ApplicationID)) with
      | error e => cases e <;> simp [notifyJobApplication, hb, hq]
      | ok application =>
        have hrow := ((query_eq_ok _ _ _ _).1 hq).2
        have hn : application.Notification = false := by
          rw [GetJobApplicationForUser_flag _ _ _ _ ha hrow, hflag]
        simp [notifyJobApplication, hb, hq, hn]
  · intro j c hb hf hj hc
    have hrow := GetJobApplicationForUser_of_find? _ _ _ _ _ ha hj hc
    simp [notifyJobApplication, hb, Server.query, hf, hrow, hflag]

theorem no_message_when_flag_off_witness :
    ((threeServer.store.jobApplications.find? (fun a => a.ID == wrap32 2)).map
        (fun a => (a.ID, a.Notification)) = some (2, false)) ∧
    (notifyJobApplication threeServer (some ⟨2, "Offered"⟩)).2.published
      = threeServer.published ∧
    (notifyJobApplication threeServer (some ⟨2, "Offered"⟩)).1
      = ⟨StatusOK, .notification { Message := "Notification sent successfully" }⟩ ∧
    (getJobApplicationForEmployer exampleServer "e@c" (some 1)).2.published
      = exampleServer.published :=
  have h := no_message_when_flag_off threeServer ⟨2, "Offered"⟩
    { ID := 2, UserID := 2, JobID := 1, Message := none, Cv := [2], Status := "Seen",
      AppliedAt := 30, Notification := false } (by decide) rfl
  ⟨by decide, h.1,
    h.2.1 { ID := 1, Title := "J1", CompanyID := 1 } { ID := 1, Name := "C" } (by decide) rfl
      (by decide) (by decide),
    h.2.2 exampleServer "e@c" (some 1)⟩

/-- The store calls `notifyJobApplication` makes are reads. -/
theorem notifyJobApplication_reads_only (s : Server)
    (body : Option notifyJobApplicationRequest) (op : StoreOp)
    (hmem : op ∈ (notifyJobApplication s body).2.log.drop s.log.length) :
    op.isWrite = false := by
  revert hmem
  simp only [notifyJobApplication]
  repeat' split
  all_goals intro hmem
  all_goals simp [Server.Publish] at hmem
  all_goals (try casesm* _ ∨ _)
  all_goals subst_vars
  all_goals rfl

/-- C24: when the publish fails (the request binds, the application is read with its
flag set and the applicant is found), `notifyJobApplication` answers 500, nothing is on
the queue, and the store is the store before the call, so every stored status is as it
was.  On every path, of any request on any server, the handler leaves the store as it
is and makes no writing store call. -/
theorem notifyJobApplication_publish_failure (s : Server) (req : notifyJobApplicationRequest)
    (application : GetJobApplicationForUserRow) (user : User)
    (hbind : bindNotify (some req) = some req)
    (hf₁ : s.fails .GetJobApplicationForUser = false)
    (hf₂ : s.fails .GetUserByID = false)
    (hpub : s.fails .Publish = true)
    (happ : s.store.GetJobApplicationForUser (wrap32 req.ApplicationID) = .ok application)
    (hflag : application.Notification = true)
    (huser : s.store.GetUserByID application.UserID = .ok user) :
    (notifyJobApplication s (some req)).1
      = errorResponse StatusInternalServerError (.store .other) ∧
    (notifyJobApplication s (some req)).2.published = s.published ∧
    (notifyJobApplication s (some req)).2.store = s.store ∧
    (∀ id, (notifyJobApplication s (some req)).2.store.statusOf id = s.store.statusOf id) ∧
    (∀ (t : Server) (body : Option notifyJobApplicationRequest),
      (notifyJobApplication t body).2.store = t.store ∧
      ∀ op ∈ (notifyJobApplication t body).2.log.drop t.log.length, op.isWrite = false) := by
  have key : notifyJobApplication s (some req)
      = (errorResponse StatusInternalServerError (.store .other),
          (s.call .GetJobApplicationForUser).call .GetUserByID) := by
    simp [notifyJobApplication, hbind, Server.query, hf₁, hf₂, hpub, happ, hflag, huser]
  refine ⟨?_, ?_, ?_, ?_, fun t body =>
    ⟨notifyJobApplication_store t body, fun op => notifyJobApplication_reads_only t body op⟩⟩
  · rw [key]
  · rw [key]
    rfl
  · rw [key]
    rfl
  · intro id
    rw [key]
    rfl

theorem notifyJobApplication_publish_failure_witness :
    (publishDownServer.fails .Publish = true ∧
      publishDownServer.store.statusOf 1 = some "Applied") ∧
    (notifyJobApplication publishDownServer (some ⟨1, "Offered"⟩)).1
      = errorResponse StatusInternalServerError (.store .other) ∧
    (notifyJobApplication publishDownServer (some ⟨1, "Offered"⟩)).2.published
      = publishDownServer.published ∧
    (notifyJobApplication publishDownServer (some ⟨1, "Offered"⟩)).2.store
      = publishDownServer.store :=
  have h := notifyJobApplication_publish_failure publishDownServer ⟨1, "Offered"⟩
    { ApplicationID := 1, JobID := 1, JobTitle := "J", CompanyName := "C",
      ApplicationStatus := "Applied", ApplicationDate := 10,
      ApplicationMessage := some "Interested", UserCv := [1, 2], UserID := 1,
      Notification := true }
    { ID := 1, Email := "u@x", FullName := "U", Location := "L", TelegramID := "tg1" }
    (by decide) (by decide) (by decide) (by decide) (by decide) rfl (by decide)
  ⟨⟨by decide, by decide⟩, h.1, h.2.1, h.2.2.1⟩

/-- C30, counterexample: application 1 is stored as `Applied`, and a
`notifyJobApplication` request for it with status `Offered` publishes a message whose
status is `Offered`. -/
theorem notifyJobApplication_status_not_stored :
    exampleServer.store.statusOf 1 = some "Applied" ∧
    (notifyJobApplication exampleServer (some ⟨1, "Offered"⟩)).1.code = StatusOK ∧
    (notifyJobApplication exampleServer (some ⟨1, "Offered"⟩)).2.published
      = [{ exchange := "", routingKey := "telegram_notifications",
           ContentType := "application/json",
           Body := [("status", "Offered"), ("job_title", "J"), ("telegram_id", "tg1"),
             ("company_name", "C")] }] ∧
    (notifyJobApplication exampleServer (some ⟨1, "Offered"⟩)).2.store.statusOf 1
      = some "Applied" := by
  decide

/-- C30, as the code has it: a `notifyJobApplication` call either publishes nothing or
publishes exactly one message, and the status of that message is the status of the
request, one of `Interviewing`, `Offered`, `Rejected`; the other fields come from the
row read for the application and from its applicant.  The stored status of the
application is not consulted. -/
theorem notifyJobApplication_status_of_request (s : Server)
    (body : Option notifyJobApplicationRequest) :
    (notifyJobApplication s body).2.published = s.published ∨
    ∃ req application user,
      body = some req ∧
      (req.Status = "Interviewing" ∨ req.Status = "Offered" ∨ req.Status = "Rejected") ∧
      s.store.GetJobApplicationForUser (wrap32 req.ApplicationID) = .ok application ∧
      s.store.GetUserByID application.UserID = .ok user ∧
      (notifyJobApplication s body).2.published
        = s.published ++
            [{ exchange := "", routingKey := s.queueName, ContentType := "application/json",
               Body := [("status", req.Status), ("job_title", application.JobTitle),
                 ("telegram_id", user.TelegramID),
                 ("company_name", application.CompanyName)] }] := by
  cases hb : bindNotify body with
  | none => exact Or.inl (by simp [notifyJobApplication, hb])
  | some req =>
    obtain ⟨hbody, hst⟩ := bindNotify_some _ _ hb
    cases hq : s.query .GetJobApplicationForUser
        (s.store.GetJobApplicationForUser (wrap32 req.ApplicationID)) with
    | error e => exact Or.inl (by cases e <;> simp [notifyJobApplication, hb, hq])
    | ok application =>
      have hrow := ((query_eq_ok _ _ _ _).1 hq).2
      cases hn : application.Notification with
      | false => exact Or.inl (by simp [notifyJobApplication, hb, hq, hn])
      | true =>
        cases hu : (s.call .GetJobApplicationForUser).query .GetUserByID
            (s.store.GetUserByID application.UserID) with
        | error e => exact Or.inl (by simp [notifyJobApplication, hb, hq, hn, hu])
        | ok user =>
          obtain ⟨hf₂, huser⟩ := (query_eq_ok _ _ _ _).1 hu
          have hf₁ := ((query_eq_ok _ _ _ _).1 hq).1
          simp only [call_fails] at hf₂
          cases hp : s.fails .Publish with
          | true =>
            exact Or.inl (by
              simp [notifyJobApplication, hb, Server.query, hf₁, hf₂, hrow, hn, huser, hp])
          | false =>
            refine Or.inr ⟨req, application, user, hbody, hst, hrow, huser, ?_⟩
            simp [notifyJobApplication, hb, Server.query, hf₁, hf₂, hrow, hn, huser, hp,
              notificationMessage.marshal]

/-! ## What is fixed at creation -/

/-- A row-wise update that keeps ID, applied-at, applicant and job keeps them for the
application with a given ID. -/
theorem originOf_map (d d' : DB) (f : JobApplication → JobApplication)
    (hf : ∀ a, (f a).ID = a.ID ∧ (f a).AppliedAt = a.AppliedAt ∧ (f a).UserID = a.UserID ∧
      (f a).JobID = a.JobID)
    (hd : d'.jobApplications = d.jobApplications.map f) (id : Int) :
    d'.originOf id = d.originOf id := by
  unfold DB.originOf
  rw [hd, find?_map_keepID f (fun a => (hf a).1)]
  cases d.jobApplications.find? (fun a => a.ID == id) with
  | none => rfl
  | some a => simp [(hf a).2.1, (hf a).2.2.1, (hf a).2.2.2]

theorem originOf_UpdateJobApplicationStatus (d : DB) (arg : UpdateJobApplicationStatusParams)
    (id : Int) : (d.UpdateJobApplicationStatus arg).originOf id = d.originOf id :=
  originOf_map d _ (fun a => if a.ID == arg.ID then { a with Status := arg.Status } else a)
    (by intro a; dsimp only; split <;> exact ⟨rfl, rfl, rfl, rfl⟩) rfl id

theorem originOf_UpdateJobApplicationNote (d : DB) (arg : UpdateJobApplicationNoteParams)
    (id : Int) : (d.UpdateJobApplicationNote arg).originOf id = d.originOf id :=
  originOf_map d _
    (fun a => if a.ID == arg.ID then { a with Notification := arg.Notification } else a)
    (by intro a; dsimp only; split <;> exact ⟨rfl, rfl, rfl, rfl⟩) rfl id

theorem originOf_UpdateJobApplication (d d' : DB) (arg : UpdateJobApplicationParams)
    (a : JobApplication) (h : d.UpdateJobApplication arg = .ok (a, d')) (id : Int) :
    d'.originOf id = d.originOf id := by
  unfold DB.UpdateJobApplication at h
  split at h
  · simp at h
  · simp only [Except.ok.injEq, Prod.mk.injEq] at h
    obtain ⟨-, rfl⟩ := h
    exact originOf_map d _ (fun a => if a.ID == arg.ID then a.coalesce arg else a)
      (by intro a; dsimp only; split <;> exact ⟨rfl, rfl, rfl, rfl⟩) rfl id

theorem originOf_CreateJobApplicationTx (d d' : DB) (arg : CreateJobApplicationParams)
    (a : JobApplication) (h : d.CreateJobApplicationTx arg = .ok (a, d')) (id : Int)
    (o : Int × Int × Int) (ho : d.originOf id = some o) : d'.originOf id = some o := by
  unfold DB.CreateJobApplicationTx DB.CreateJobApplication at h
  split at h
  · simp at h
  · simp only [Except.ok.injEq, Prod.mk.injEq] at h
    obtain ⟨-, rfl⟩ := h
    unfold DB.originOf at ho ⊢
    simp only [List.find?_append]
    cases hf : d.jobApplications.find? (fun a => a.ID == id) with
    | none => simp [hf] at ho
    | some b => simpa [hf] using ho

theorem originOf_DeleteJobApplication (d : DB) (id₀ id : Int) :
    (d.DeleteJobApplication id₀).originOf id = if id = id₀ then none else d.originOf id := by
  unfold DB.originOf DB.DeleteJobApplication
  simp only
  induction d.jobApplications with
  | nil => simp
  | cons a l ih =>
    by_cases ha : a.ID = id₀ <;> by_cases hid : a.ID = id <;> by_cases hq : id = id₀
    all_goals simp_all [List.filter_cons, List.find?_cons]

/-- One request: the applied-at timestamp, the applicant and the job of a stored
application are the same afterwards, unless the request is a `deleteJobApplication` and
the application is gone. -/
theorem handle_originOf (s : Server) (r : Request) (id : Int) (o : Int × Int × Int)
    (ho : s.store.originOf id = some o) :
    (handle s r).2.store.originOf id = some o ∨
    ((∃ email rawID, r = .deleteJobApplication email rawID) ∧
      (handle s r).2.store.originOf id = none) := by
  have same : (handle s r).2.store = s.store → (handle s r).2.store.originOf id = some o := by
    intro h
    rw [h, ho]
  cases r with
  | createJobApplication req =>
    rcases createJobApplication_store s req with h | ⟨arg, a, h⟩
    · exact Or.inl (same h)
    · exact Or.inl (originOf_CreateJobApplicationTx _ _ _ _ h id o ho)
  | getJobApplicationForUser email rawID =>
    exact Or.inl (same (getJobApplicationForUser_store s email rawID))
  | getJobApplicationForEmployer email rawID =>
    rcases getJobApplicationForEmployer_store s email rawID with h | ⟨ja, -, -, h⟩
    · exact Or.inl (same h)
    · left
      simp only [handle]
      rw [h, originOf_UpdateJobApplicationStatus, ho]
  | changeJobApplicationStatus email rawID new_status =>
    rcases changeJobApplicationStatus_store s email rawID new_status with h | ⟨id', st, -, h⟩
    · exact Or.inl (same h)
    · left
      simp only [handle]
      rw [h, originOf_UpdateJobApplicationStatus, ho]
  | updateJobApplication req =>
    rcases updateJobApplication_store s req with h | ⟨arg, a, h⟩
    · exact Or.inl (same h)
    · left
      simp only [handle]
      rw [originOf_UpdateJobApplication _ _ _ _ h id, ho]
  | deleteJobApplication email rawID =>
    rcases deleteJobApplication_store s email rawID with h | ⟨id', h⟩
    · exact Or.inl (same h)
    · simp only [handle]
      rw [h, originOf_DeleteJobApplication]
      by_cases hq : id = id'
      · exact Or.inr ⟨⟨email, rawID, rfl⟩, by simp [hq]⟩
      · exact Or.inl (by simp [hq, ho])
  | listJobApplicationsForUser email req =>
    exact Or.inl (same (listJobApplicationsForUser_store s email req))
  | listJobApplicationsForEmployer email req =>
    exact Or.inl (same (listJobApplicationsForEmployer_store s email req))
  | changeNotifyJobApplication body =>
    rcases changeNotifyJobApplication_store s body with h | ⟨arg, h⟩
    · exact Or.inl (same h)
    · left
      simp only [handle]
      rw [h, originOf_UpdateJobApplicationNote, ho]
  | notifyJobApplication body =>
    exact Or.inl (same (notifyJobApplication_store s body))

/-- C25: the applied-at timestamp, the applicant and the job of a stored application
(`originOf`) are never rewritten.  After any one request they are as before, unless the
request is a `deleteJobApplication` and the application is gone; and after any sequence
of requests without a `deleteJobApplication` (content updates, status changes, the
automatic transition, flag changes, notifications, reads, creations) they are as
before. -/
theorem applied_at_immutable (s : Server) (id : Int) (o : Int × Int × Int)
    (ho : s.store.originOf id = some o) :
    (∀ r, (handle s r).2.store.originOf id = some o ∨
      ((∃ email rawID, r = .deleteJobApplication email rawID) ∧
        (handle s r).2.store.originOf id = none)) ∧
    (∀ rs : List Request, (∀ r ∈ rs, ∀ email rawID, r ≠ .deleteJobApplication email rawID) →
      (run s rs).store.originOf id = some o) := by
  refine ⟨fun r => handle_originOf s r id o ho, fun rs => ?_⟩
  induction rs generalizing s with
  | nil => intro _; exact ho
  | cons r rs ih =>
    intro hrs
    simp only [run]
    apply ih
    · rcases handle_originOf s r id o ho with h | ⟨⟨email, rawID, hr⟩, -⟩
      · exact h
      · exact (hrs r (List.mem_cons_self _ _) email rawID hr).elim
    · intro r' hr'
      exact hrs r' (List.mem_cons_of_mem _ hr')

theorem applied_at_immutable_witness :
    exampleServer.store.originOf 1 = some (10, 1, 1) ∧
    (run exampleServer
      [.updateJobApplication ⟨"u@x", some 1, "true", .file [7], "changed"⟩,
       .getJobApplicationForEmployer "e@c" (some 1),
       .changeJobApplicationStatus "e@c" (some 1) (some "Offered"),
       .changeNotifyJobApplication (some { ID := 1, Notification := false }),
       .notifyJobApplication (some ⟨1, "Offered"⟩)]).store.originOf 1 = some (10, 1, 1) ∧
    (run exampleServer
      [.updateJobApplication ⟨"u@x", some 1, "true", .file [7], "changed"⟩,
       .getJobApplicationForEmployer "e@c" (some 1),
       .changeJobApplicationStatus "e@c" (some 1) (some "Offered"),
       .changeNotifyJobApplication (some { ID := 1, Notification := false }),
       .notifyJobApplication (some ⟨1, "Offered"⟩)]).store.jobApplications
      = [{ ID := 1, UserID := 1, JobID := 1, Message := some "changed", Cv := [7],
           Status := "Offered", AppliedAt := 10, Notification := false }] :=
  ⟨by decide,
    (applied_at_immutable exampleServer 1 (10, 1, 1) (by decide)).2 _
      (by
        intro r hr email rawID h
        subst h
        simp at hr),
    by decide⟩

/-! ## The status update of the store -/

/-- C26, counterexample: application 1 is stored as `Offered`, and
`UpdateJobApplicationStatus` with target `Seen` stores `Seen` for it. -/
theorem UpdateJobApplicationStatus_overwrites :
    offeredDB.statusOf 1 = some "Offered" ∧
    (offeredDB.UpdateJobApplicationStatus { ID := 1, Status := "Seen" }).statusOf 1
      = some "Seen" := by
  decide

/-- C26, as the code has it: `UpdateJobApplicationStatus` overwrites the status of the
row whatever it was.  The condition is in the handler: `getJobApplicationForEmployer`
issues the update only for a row it has just read as `Applied`, so a call on a server
whose store holds the application with another status leaves that status as it is. -/
theorem status_update_unconditional (d : DB) (id : Int) (old target : ApplicationStatus)
    (hold : d.statusOf id = some old) :
    (d.UpdateJobApplicationStatus { ID := id, Status := target }).statusOf id = some target ∧
    (∀ (s : Server) (email : String) (rawID : Option Int), s.store = d →
      old ≠ ApplicationStatusApplied →
      (getJobApplicationForEmployer s email rawID).2.store.statusOf id = some old) := by
  refine ⟨?_, fun s email rawID hs hne => ?_⟩
  · rw [statusOf_UpdateJobApplicationStatus]
    simp [hold]
  · subst hs
    rcases getJobApplicationForEmployer_store s email rawID with h | ⟨row, ⟨id', hrow⟩, hst, h⟩
    · rw [h, hold]
    · have hread := GetJobApplicationForEmployer_statusOf _ _ _ hrow
      rw [h, statusOf_UpdateJobApplicationStatus]
      by_cases hq : id = row.ApplicationID
      · subst hq
        rw [hold, hst] at hread
        exact (hne (Option.some.inj hread)).elim
      · simp [hq, hold]

theorem status_update_unconditional_witness :
    offeredDB.statusOf 1 = some "Offered" ∧
    (offeredDB.UpdateJobApplicationStatus { ID := 1, Status := "Seen" }).statusOf 1
      = some "Seen" ∧
    (getJobApplicationForEmployer offeredServer "e@c" (some 1)).2.store.statusOf 1
      = some "Offered" :=
  have h := status_update_unconditional offeredDB 1 "Offered" "Seen" (by decide)
  ⟨by decide, h.1, h.2 offeredServer "e@c" (some 1) rfl (by decide)⟩

/-! ## Values the handlers lose -/

/-- C27, at the failing input: the form value `job_id = 4294967297` is a positive decimal
integer, `createJobApplication` accepts it, and the application is created for job 1:
the conversion to `int32` keeps the low 32 bits only. -/
theorem createJobApplication_job_id_truncated :
    Atoi "4294967297" = some 4294967297 ∧
    (createJobApplication exampleServer ⟨"v@x", .file [7], "hello", "4294967297"⟩).1
      = ⟨StatusCreated, .jobApplication
          { ID := 2, JobID := 1, Message := "hello", Status := "Applied", AppliedAt := 11 }⟩ ∧
    ((createJobApplication exampleServer
        ⟨"v@x", .file [7], "hello", "4294967297"⟩).2.store.jobApplications.find?
          (fun a => a.ID == 2)).map (fun a => (a.UserID, a.JobID)) = some (2, 1) := by
  decide

/-- C28, at the failing input: application 1 was created by user 1, who fetches it with
`getJobApplicationForUser`; the response is 200 and its `user_id` is 0. -/
theorem getJobApplicationForUser_user_id_unset :
    (exampleServer.store.GetUserByEmail "u@x").map (fun u => u.ID) = .ok 1 ∧
    (exampleServer.store.jobApplications.find? (fun a => a.ID == 1)).map
        (fun a => a.UserID) = some 1 ∧
    (getJobApplicationForUser exampleServer "u@x" (some 1)).1
      = ⟨StatusOK, .forUser
          { ApplicationID := 1, JobID := 1, JobTitle := "J", CompanyName := "C",
            ApplicationStatus := "Applied", ApplicationDate := 10,
            ApplicationMessage := "Interested", CvLink := "addr/assets/cvs/cv_1.pdf",
            UserID := 0 }⟩ := by
  decide

/-- C29, at the failing input: the applicant fetches application 1 twice with no write
in between; the first call answers 200 and the second the recovered panic, 500, with no
body.  Likewise the employer of the owning company fetching the application, stored as
`Offered`, twice.  Each first call registered the CV route the second tries to
register. -/
theorem getJobApplicationForUser_second_read :
    (getJobApplicationForUser exampleServer "u@x" (some 1)).1.code = StatusOK ∧
    viewedServer.store = exampleServer.store ∧
    viewedServer.routes = [("assets/cvs/cv_1.pdf", [1, 2])] ∧
    (getJobApplicationForUser viewedServer "u@x" (some 1)).1 = recovered ∧
    offeredServer.store.statusOf 1 = some "Offered" ∧
    (getJobApplicationForEmployer offeredServer "e@c" (some 1)).1.code = StatusOK ∧
    (getJobApplicationForEmployer offeredServer "e@c" (some 1)).2.store = offeredServer.store ∧
    (getJobApplicationForEmployer
      (getJobApplicationForEmployer offeredServer "e@c" (some 1)).2 "e@c" (some 1)).1
      = recovered := by
  decide

end JobFinder
